import Mathlib

/-!
# ALSV4_CPP: the base character (BMBaseCharacter.cpp)

A shallow embedding of `ABMBaseCharacter`: the character is a record of its member
variables together with the engine components it owns; member functions are state
transformers over that record.

Conventions of the embedding

* A `float` is a rational number, and the arithmetic of the repository's own code (`+`, `-`,
  `*`, `/`, also on vectors and rotators) is single-precision arithmetic: the exact result
  rounded by `Float32.Round` (IEEE 754 binary32, round to nearest, ties to even, with
  subnormals).  A decimal literal that is compared with or enters an operation is rounded in the
  same way (`Float32.Round (9 / 10)` is `0.9f`); one that is only handed on to the engine (the
  play rate or blend time of a montage, a timer rate) is written as its decimal.
  The quotients of `SetEssentialValues`, whose divisor can be zero, are values of `Float32`,
  which has the infinities and NaN.  Elsewhere a result beyond the largest finite number is
  outside the embedding; the statements about computed values say so where it matters.
* Pointers are `Option`s: `none` is `nullptr`.
* `check(e)` halts the run with `Fault.CheckFailed`; dereferencing an absent pointer halts it
  with `Fault.NullDeref`.  A halted run keeps the state reached so far.
* Engine services whose code is not part of the repository (collision queries, curve
  evaluation, trigonometric conversions, the normalization of rotators, the mapping of ranges,
  transform algebra) are fields of `Engine`, so every statement holds for all behaviours of
  them.  Only `GetMappedSpeed` is read with the clamped linear map over exact arithmetic.
* Calls that only have an effect inside the engine are recorded in the `Log` of the character,
  as is every entry into one of the change hooks, and the read of the position/correction curve
  by `MantleUpdate` with the time it is read at.
-/

namespace ALSV4

/-! ## Enumerations -/

/-- Modelled from the spec: `EBMMovementState` is declared in a header that is not under `src/`;
the spec lists the values {Grounded, InAir, Ragdoll, Mantling}. -/
inductive EBMMovementState where
  | Grounded
  | InAir
  | Ragdoll
  | Mantling
deriving DecidableEq, Repr

/-- Modelled from the spec: `EBMMovementAction` is declared in a header that is not under `src/`;
the spec lists {None, Rolling, ...}.  `Other raw` stands for every further value of the
underlying byte. -/
inductive EBMMovementAction where
  | None
  | Rolling
  | Other (raw : Nat)
deriving DecidableEq, Repr

/-- Modelled from the spec: `EBMStance` (standing/crouching) is declared in a header that is not
under `src/`.  `Other raw` stands for a value of the underlying byte that is neither. -/
inductive EBMStance where
  | Standing
  | Crouching
  | Other (raw : Nat)
deriving DecidableEq, Repr

/-- Modelled from the spec: `EBMRotationMode` (velocity-direction/looking/aiming) is declared in
a header that is not under `src/`.  `Other raw` stands for any other value of the byte. -/
inductive EBMRotationMode where
  | VelocityDirection
  | LookingDirection
  | Aiming
  | Other (raw : Nat)
deriving DecidableEq, Repr

/-- Modelled from the spec: `EBMGait` (walk/run/sprint) is declared in a header that is not under
`src/`. -/
inductive EBMGait where
  | Walking
  | Running
  | Sprinting
deriving DecidableEq, Repr

/-- Modelled from the spec: `EBMOverlayState` is declared in a header that is not under `src/`
and the source only compares and stores its values, so it is kept as the underlying byte. -/
structure EBMOverlayState where
  raw : Nat
deriving DecidableEq, Repr

/-- Modelled from the spec: `EBMMantleType` is declared in a header that is not under `src/`;
the three values are the ones `MantleCheck` produces. -/
inductive EBMMantleType where
  | HighMantle
  | LowMantle
  | FallingCatch
deriving DecidableEq, Repr

/-- The engine's `EMovementMode`. -/
inductive EMovementMode where
  | MOVE_None
  | MOVE_Walking
  | MOVE_NavWalking
  | MOVE_Falling
  | MOVE_Swimming
  | MOVE_Flying
  | MOVE_Custom
deriving DecidableEq, Repr

/-- The engine's `ECollisionEnabled::Type`. -/
inductive ECollisionEnabled where
  | NoCollision
  | QueryOnly
  | PhysicsOnly
  | QueryAndPhysics
deriving DecidableEq, Repr

/-- The engine's `ECollisionChannel`, restricted to the channels the source names. -/
inductive ECollisionChannel where
  | ECC_Visibility
  | ECC_Pawn
  | ECC_PhysicsBody
  | ECC_GameTraceChannel2
deriving DecidableEq, Repr

/-! ## Engine math values -/

/-- The engine's `FVector`. -/
structure FVector where
  X : ℚ
  Y : ℚ
  Z : ℚ
deriving DecidableEq, Repr

/-- The engine's `FRotator`. -/
structure FRotator where
  Pitch : ℚ
  Yaw : ℚ
  Roll : ℚ
deriving DecidableEq, Repr

/-- The engine's `FQuat`. -/
structure FQuat where
  X : ℚ
  Y : ℚ
  Z : ℚ
  W : ℚ
deriving DecidableEq, Repr

/-- The engine's `FTransform`. -/
structure FTransform where
  Rotation : FQuat
  Translation : FVector
  Scale3D : FVector
deriving DecidableEq, Repr

/-! ## Single precision -/

/-- The value of a single-precision expression that can leave the finite numbers. -/
inductive Float32 where
  | Finite (Value : ℚ)
  | PosInf
  | NegInf
  | NaN
deriving DecidableEq, Repr

namespace Float32

/-- Rounding to the nearest integer, a tie going to the even one. -/
def RoundHalfEven (q : ℚ) : ℤ :=
  if q - ⌊q⌋ < 1 / 2 then ⌊q⌋
  else if 1 / 2 < q - ⌊q⌋ then ⌊q⌋ + 1
  else if ⌊q⌋ % 2 = 0 then ⌊q⌋ else ⌊q⌋ + 1

/-- The binary exponent of the binade of `x`; -126 throughout the subnormal range. -/
def Exponent (x : ℚ) : ℤ := if x = 0 then -126 else max (Int.log 2 |x|) (-126)

/-- The distance between neighbouring single-precision numbers at `x` (24 significant bits). -/
def Ulp (x : ℚ) : ℚ := 2 ^ (Exponent x - 23)

/-- The single-precision number nearest to `x`: IEEE 754 binary32, round to nearest, ties to
even. -/
def Round (x : ℚ) : ℚ := RoundHalfEven (x / Ulp x) * Ulp x

/-- The largest finite single-precision number (`FLT_MAX`). -/
def MaxValue : ℚ := (2 ^ 24 - 1) * 2 ^ 104

/-- A rounded result within the finite range: the operation did not overflow. -/
def InRange (x : ℚ) : Prop := -MaxValue ≤ x ∧ x ≤ MaxValue

instance (x : ℚ) : Decidable (InRange x) := by
  unfold InRange
  infer_instance

/-- The sum `a + b` in single precision. -/
def Add (a b : ℚ) : ℚ := Round (a + b)

/-- The difference `a - b` in single precision. -/
def Sub (a b : ℚ) : ℚ := Round (a - b)

/-- The product `a * b` in single precision. -/
def Mul (a b : ℚ) : ℚ := Round (a * b)

/-- The quotient `a / b` in single precision, for a divisor that is not zero. -/
def Div (a b : ℚ) : ℚ := Round (a / b)

/-- The quotient `a / b` in single precision for every divisor: a zero divisor (taken as the
positive zero) gives an infinity, or NaN for 0 / 0, and a quotient that rounds beyond the
largest finite number gives an infinity. -/
def Quotient (a b : ℚ) : Float32 :=
  if b = 0 then
    if 0 < a then .PosInf else if a < 0 then .NegInf else .NaN
  else if MaxValue < Round (a / b) then .PosInf
  else if Round (a / b) < -MaxValue then .NegInf
  else .Finite (Round (a / b))

/-- `FMath::Abs` of a value that can be infinite. -/
def Abs : Float32 → Float32
  | .Finite v => .Finite (if v < 0 then -v else v)
  | .PosInf => .PosInf
  | .NegInf => .PosInf
  | .NaN => .NaN

/-- The comparison `a > b` with a finite `b`: false for NaN. -/
def GreaterThan (a : Float32) (b : ℚ) : Bool :=
  match a with
  | .Finite v => v > b
  | .PosInf => true
  | .NegInf => false
  | .NaN => false

/-- A member of type `float` holds a single-precision number, an infinity or NaN. -/
def IsValue : Float32 → Prop
  | .Finite v => Round v = v
  | _ => True

instance (x : Float32) : Decidable x.IsValue := by
  cases x <;> unfold IsValue <;> infer_instance

end Float32

/-! ## Engine math operations -/

namespace FVector

def ZeroVector : FVector := ⟨0, 0, 0⟩

def OneVector : FVector := ⟨1, 1, 1⟩

/-- `FVector::operator+`: component by component, in single precision. -/
def add (a b : FVector) : FVector :=
  ⟨Float32.Add a.X b.X, Float32.Add a.Y b.Y, Float32.Add a.Z b.Z⟩

/-- `FVector::operator-`. -/
def sub (a b : FVector) : FVector :=
  ⟨Float32.Sub a.X b.X, Float32.Sub a.Y b.Y, Float32.Sub a.Z b.Z⟩

/-- `FVector::operator*(const FVector&)`. -/
def mul (a b : FVector) : FVector :=
  ⟨Float32.Mul a.X b.X, Float32.Mul a.Y b.Y, Float32.Mul a.Z b.Z⟩

/-- `FVector::operator*(float)`. -/
def scale (a : FVector) (k : ℚ) : FVector :=
  ⟨Float32.Mul a.X k, Float32.Mul a.Y k, Float32.Mul a.Z k⟩

end FVector

namespace FMath

/-- `FMath::Abs`. -/
def Abs (x : ℚ) : ℚ := if x < 0 then -x else x

/-- `FMath::Clamp(X, Min, Max)`. -/
def Clamp (X Min Max : ℚ) : ℚ := if X < Min then Min else if X < Max then X else Max

/-- `FMath::Lerp(A, B, Alpha)`. -/
def Lerp (A B Alpha : ℚ) : ℚ := A + Alpha * (B - A)

/-- `FMath::GetRangePct(MinValue, MaxValue, Value)`; a point range reports whether the value is
before or after it. -/
def GetRangePct (MinValue MaxValue Value : ℚ) : ℚ :=
  let Divisor := MaxValue - MinValue
  if Divisor = 0 then (if Value ≥ MaxValue then 1 else 0) else (Value - MinValue) / Divisor

/-- The clamped linear map over exact arithmetic: `FMath::GetMappedRangeValueClamped(InputRange,
OutputRange, Value)` as `GetMappedSpeed` is read with.  Elsewhere the function is the engine
service `Engine.GetMappedRangeValueClamped`. -/
def GetMappedRangeValueClamped (InputRange OutputRange : ℚ × ℚ) (Value : ℚ) : ℚ :=
  let ClampedPct := Clamp (GetRangePct InputRange.1 InputRange.2 Value) 0 1
  Lerp OutputRange.1 OutputRange.2 ClampedPct

end FMath

namespace FRotator

/-- `FRotator::operator+`: component by component, in single precision. -/
def add (a b : FRotator) : FRotator :=
  ⟨Float32.Add a.Pitch b.Pitch, Float32.Add a.Yaw b.Yaw, Float32.Add a.Roll b.Roll⟩

/-- `FRotator::operator-`. -/
def sub (a b : FRotator) : FRotator :=
  ⟨Float32.Sub a.Pitch b.Pitch, Float32.Sub a.Yaw b.Yaw, Float32.Sub a.Roll b.Roll⟩

end FRotator

/-- An `FVector` whose components can be infinite or NaN: the value of a vector expression that
divides. -/
structure FVector32 where
  X : Float32
  Y : Float32
  Z : Float32
deriving DecidableEq, Repr

/-! ## Assets and settings -/

/-- Modelled from the spec: `FBMMovementSettings` is declared in a header that is not under
`src/`; the fields are the ones the source reads.  The curves are asset pointers. -/
structure FBMMovementSettings where
  WalkSpeed : ℚ
  RunSpeed : ℚ
  SprintSpeed : ℚ
  MovementCurve : Option Nat
  RotationRateCurve : Option Nat
deriving DecidableEq, Repr

/-- Modelled from the spec: `FBMMovementStanceSettings`, one settings record per stance. -/
structure FBMMovementStanceSettings where
  Standing : FBMMovementSettings
  Crouching : FBMMovementSettings
deriving DecidableEq, Repr

/-- Modelled from the spec: `FBMMovementStateSettings`, the data-table row with one stance pair
per rotation mode. -/
structure FBMMovementStateSettings where
  VelocityDirection : FBMMovementStanceSettings
  LookingDirection : FBMMovementStanceSettings
  Aiming : FBMMovementStanceSettings
deriving DecidableEq, Repr

/-- Modelled from the spec: `FBMMantleAsset` is declared in a header that is not under `src/`;
the fields are the ones `MantleStart` reads. -/
structure FBMMantleAsset where
  AnimMontage : Option Nat
  PositionCorrectionCurve : Option Nat
  StartingOffset : FVector
  LowHeight : ℚ
  LowPlayRate : ℚ
  LowStartPosition : ℚ
  HighHeight : ℚ
  HighPlayRate : ℚ
  HighStartPosition : ℚ
deriving DecidableEq, Repr

/-- Modelled from the spec: `FBMMantleParams`, the parameters of the running mantle. -/
structure FBMMantleParams where
  AnimMontage : Option Nat
  PositionCorrectionCurve : Option Nat
  StartingPosition : ℚ
  PlayRate : ℚ
  StartingOffset : FVector
deriving DecidableEq, Repr

/-- Modelled from the spec: `FBMMantleTraceSettings` is declared in a header that is not under
`src/`; the fields are the ones `MantleCheck` reads. -/
structure FBMMantleTraceSettings where
  MaxLedgeHeight : ℚ
  MinLedgeHeight : ℚ
  ReachDistance : ℚ
  ForwardTraceRadius : ℚ
  DownwardTraceRadius : ℚ
deriving DecidableEq, Repr

/-- Modelled from the spec: `FBMComponentAndTransform`, a primitive component (by identity)
and a transform. -/
structure FBMComponentAndTransform where
  Component : Option Nat
  Transform : FTransform
deriving DecidableEq, Repr

/-- The engine's `FHitResult`, restricted to the members the source reads. -/
structure FHitResult where
  bBlockingHit : Bool
  bStartPenetrating : Bool
  Location : FVector
  ImpactPoint : FVector
  ImpactNormal : FVector
  TraceStart : FVector
  Component : Option Nat
deriving DecidableEq, Repr

/-- `FHitResult::IsValidBlockingHit`. -/
def FHitResult.IsValidBlockingHit (h : FHitResult) : Bool := h.bBlockingHit && !h.bStartPenetrating

/-- The engine's `FCollisionShape` as far as the source builds it. -/
inductive FCollisionShape where
  | Capsule (Radius HalfHeight : ℚ)
  | Sphere (Radius : ℚ)
deriving DecidableEq, Repr

/-! ## Engine components owned by the character -/

/-- The engine's `UCharacterMovementComponent`, restricted to the members the source uses. -/
structure UCharacterMovementComponent where
  MovementMode : EMovementMode
  Velocity : FVector
  CurrentAcceleration : FVector
  MaxAcceleration : ℚ
  MaxWalkSpeed : ℚ
  MaxWalkSpeedCrouched : ℚ
  BrakingDecelerationWalking : ℚ
  GroundFriction : ℚ
  BrakingFrictionFactor : ℚ
deriving DecidableEq, Repr

/-- The engine's `UCapsuleComponent`.  It is the root component of the character, so its world
location and rotation are the actor's (`ActorLocation`, `ActorRotation` below). -/
structure UCapsuleComponent where
  CollisionEnabled : ECollisionEnabled
  UpVector : FVector
  ScaledCapsuleHalfHeight : ℚ
  ScaledCapsuleHalfHeight_WithoutHemisphere : ℚ
  UnscaledCapsuleRadius : ℚ
deriving DecidableEq, Repr

/-- The engine's `USkeletalMeshComponent`: the collision and physics switches the source sets and
the socket and body readings it takes. -/
structure USkeletalMeshComponent where
  CollisionObjectType : ECollisionChannel
  CollisionEnabled : ECollisionEnabled
  bSimulatePhysics : Bool
  bEnableGravity : Bool
  AngularDriveSpring : ℚ
  PelvisLocation : FVector
  PelvisRotation : FRotator
  RootLinearVelocity : FVector
deriving DecidableEq, Repr

/-- The engine's `UTimelineComponent` as far as the source drives it. -/
structure UTimelineComponent where
  Length : ℚ
  PlayRate : ℚ
  PlaybackPosition : ℚ
  bPlaying : Bool
deriving DecidableEq, Repr

/-- The animation instance: the values of its animation curves, by name. -/
structure UBMCharacterAnimInstance where
  CurveValues : List (String × ℚ)
deriving DecidableEq, Repr

/-- `UAnimInstance::GetCurveValue`: the value of the named curve, 0 when there is none. -/
def UBMCharacterAnimInstance.GetCurveValue (a : UBMCharacterAnimInstance) (CurveName : String) : ℚ :=
  match a.CurveValues.lookup CurveName with
  | some v => v
  | none => 0

/-- An animation instance as the mesh holds it (`UAnimInstance*`): of the class
`UBMCharacterAnimInstance`, or of another class. -/
inductive UAnimInstance where
  | BMCharacter (a : UBMCharacterAnimInstance)
  | OtherClass
deriving DecidableEq, Repr

/-- `Cast<UBMCharacterAnimInstance>`: null for a null pointer and for an object of another
class. -/
def Cast_UBMCharacterAnimInstance : Option UAnimInstance → Option UBMCharacterAnimInstance
  | some (.BMCharacter a) => some a
  | _ => none

/-- The member functions the source hands to the timer manager. -/
inductive FTimerCallback where
  | OnLandFrictionReset
deriving DecidableEq, Repr

/-- A timer set through `FTimerManager::SetTimer(Handle, Object, Function, Rate, bLoop)`. -/
structure FTimerData where
  Callback : FTimerCallback
  Rate : ℚ
  bLoop : Bool
deriving DecidableEq, Repr

/-- The engine's `FDataTableRowHandle`. -/
structure FDataTableRowHandle where
  DataTable : Option Nat
  RowName : String
deriving DecidableEq, Repr

/-- The player controller: the movement input it reports. -/
structure ABMPlayerController where
  PlayerMovementInput : FVector
deriving DecidableEq, Repr

/-! ## Observable engine calls -/

/-- One entry of the character's log: an entry into a change hook (with its argument) or a call
whose effect stays inside the engine. -/
inductive Event where
  | OnMovementStateChanged (PreviousState : EBMMovementState)
  | OnMovementActionChanged (PreviousAction : EBMMovementAction)
  | OnStanceChanged (PreviousStance : EBMStance)
  | OnRotationModeChanged (PreviousRotationMode : EBMRotationMode)
  | OnGaitChanged (PreviousGait : EBMGait)
  | OnOverlayStateChanged (PreviousState : EBMOverlayState)
  | Super_OnMovementModeChanged (PrevMovementMode : EMovementMode)
  | Super_Tick (DeltaTime : ℚ)
  | Crouch
  | UnCrouch
  | RagdollStart
  | MantleStart (MantleHeight : ℚ) (MantleLedgeWS : FBMComponentAndTransform)
      (MantleType : EBMMantleType)
  | Montage_Play (Montage : Option Nat) (PlayRate : ℚ) (StartAt : ℚ)
  | Montage_Stop (BlendOut : ℚ)
  | SavePoseSnapshot
  | AnimInstance_OnJumped
  | DrawDebugSpheres
  | Super_BeginPlay
  | Super_OnJumped
  | Super_Landed (Hit : FHitResult)
  | MantleTimeline_SetTimelineFinishedFunc
  | MantleTimeline_SetLooping (bNewLooping : Bool)
  | MantleTimeline_SetTimelineLengthMode
  | MantleTimeline_AddInterpFloat
  | AddTickPrerequisiteActor
  | EnableOptimization
  | OnBreakfall
  | OnRoll
  | PositionCorrectionCurve_GetVectorValue (Curve : Nat) (InTime : ℚ)
deriving DecidableEq, Repr

/-! ## The character -/

/-- The member variables of `ABMBaseCharacter` that the source reads or writes, the engine
components it owns, and the log of observable calls. -/
structure ABMBaseCharacter where
  -- state values
  MovementState : EBMMovementState
  PrevMovementState : EBMMovementState
  MovementAction : EBMMovementAction
  Stance : EBMStance
  DesiredStance : EBMStance
  RotationMode : EBMRotationMode
  DesiredRotationMode : EBMRotationMode
  Gait : EBMGait
  DesiredGait : EBMGait
  OverlayState : EBMOverlayState
  -- movement system
  MovementData : FBMMovementStateSettings
  CurrentMovementSettings : FBMMovementSettings
  bEnableOptimization : Bool
  MovementModel : FDataTableRowHandle
  -- essential information
  Acceleration : FVector32
  bIsMoving : Bool
  bHasMovementInput : Bool
  Speed : ℚ
  MovementInputAmount : Float32
  AimYawRate : Float32
  LastVelocityRotation : FRotator
  LastMovementInputRotation : FRotator
  -- rotation system
  TargetRotation : FRotator
  InAirRotation : FRotator
  -- mantle system
  bAllowMantle : Bool
  GroundedTraceSettings : FBMMantleTraceSettings
  FallingTraceSettings : FBMMantleTraceSettings
  MantleParams : FBMMantleParams
  MantleLedgeLS : FBMComponentAndTransform
  MantleTarget : FTransform
  MantleActualStartOffset : FTransform
  MantleAnimatedStartOffset : FTransform
  -- ragdoll system
  bRagdollOnGround : Bool
  bRagdollFaceUp : Bool
  LastRagdollVelocity : FVector
  -- cached variables
  PreviousVelocity : FVector
  PreviousAimYaw : ℚ
  -- engine objects
  MainAnimInstance : Option UBMCharacterAnimInstance
  MeshAnimInstance : Option UAnimInstance
  CharacterMovement : UCharacterMovementComponent
  Capsule : UCapsuleComponent
  Mesh : USkeletalMeshComponent
  MantleTimeline : UTimelineComponent
  PlayerController : Option ABMPlayerController
  bWorldValid : Bool
  ActorLocation : FVector
  ActorRotation : FRotator
  ActorScale3D : FVector
  ActorVelocity : FVector
  ControlRotation : FRotator
  bHasAnyRootMotion : Bool
  OnLandedFrictionResetTimer : Option FTimerData
  Log : List Event
deriving DecidableEq, Repr

/-- Engine services whose code is not part of the repository.  Every statement below holds for
all values of these fields. -/
structure Engine where
  /-- `FVector::Size`. -/
  VectorSize : FVector → ℚ
  /-- `FVector::Size2D`. -/
  VectorSize2D : FVector → ℚ
  /-- `FVector::operator/(float)`: the divisor can be zero. -/
  VectorDivide : FVector → ℚ → FVector32
  /-- `FRotator::Normalize`: every axis brought into (-180, 180]. -/
  NormalizeRotator : FRotator → FRotator
  /-- `FMath::GetMappedRangeValueClamped(InputRange, OutputRange, Value)`, for a value that can
  be infinite or NaN. -/
  GetMappedRangeValueClamped : ℚ × ℚ → ℚ × ℚ → Float32 → ℚ
  /-- `FVector::ToOrientationRotator`. -/
  ToOrientationRotator : FVector → FRotator
  /-- `FQuat::Rotator` (also `FTransform::Rotator`). -/
  QuatRotator : FQuat → FRotator
  /-- `FRotator::Quaternion`, as used by the `FTransform(FRotator, ..)` constructor. -/
  RotatorQuaternion : FRotator → FQuat
  /-- `FQuat::Vector`: the forward direction of a rotation. -/
  QuatVector : FQuat → FVector
  /-- `FTransform::operator*`. -/
  TransformMultiply : FTransform → FTransform → FTransform
  /-- `FTransform::Inverse`. -/
  TransformInverse : FTransform → FTransform
  /-- `FTransform::InverseTransformPosition`. -/
  InverseTransformPosition : FTransform → FVector → FVector
  /-- `FTransform::InverseTransformRotation`. -/
  InverseTransformRotation : FTransform → FQuat → FQuat
  /-- `UKismetMathLibrary::TLerp(A, B, Alpha)`. -/
  TLerp : FTransform → FTransform → ℚ → FTransform
  /-- `UDataTable::FindRow` of the data table with the given identity. -/
  FindRow : Nat → String → Option FBMMovementStateSettings
  /-- `FMath::RInterpTo(Current, Target, DeltaTime, InterpSpeed)`. -/
  RInterpTo : FRotator → FRotator → ℚ → ℚ → FRotator
  /-- `FMath::RInterpConstantTo(Current, Target, DeltaTime, InterpSpeed)`. -/
  RInterpConstantTo : FRotator → FRotator → ℚ → ℚ → FRotator
  /-- `AActor::AddActorWorldRotation`: the actor rotation after adding a delta rotation. -/
  AddWorldRotation : FRotator → FRotator → FRotator
  /-- `UCurveVector::GetVectorValue` of the curve asset with the given identity. -/
  GetVectorValue : Nat → ℚ → FVector
  /-- `UCurveFloat::GetFloatValue` of the curve asset with the given identity. -/
  GetFloatValue : Nat → ℚ → ℚ
  /-- `UCurveVector::GetTimeRange` of the curve asset: (MinTime, MaxTime). -/
  GetTimeRange : Nat → ℚ × ℚ
  /-- `UWorld::SweepSingleByChannel(Start, End, Channel, Shape)`, ignoring the character. -/
  SweepSingleByChannel : FVector → FVector → ECollisionChannel → FCollisionShape → FHitResult
  /-- `UWorld::SweepSingleByProfile(Start, End, ALS_Character, Shape)`, ignoring the character. -/
  SweepSingleByProfile : FVector → FVector → FCollisionShape → FHitResult
  /-- `UWorld::LineTraceSingleByChannel(Start, End, Channel)`, ignoring the character. -/
  LineTraceSingleByChannel : FVector → FVector → ECollisionChannel → FHitResult
  /-- `UCharacterMovementComponent::IsWalkable`. -/
  IsWalkable : FHitResult → Bool
  /-- `UPrimitiveComponent::GetComponentToWorld` of the component with the given identity. -/
  GetComponentToWorld : Nat → FTransform
  /-- `FBMMovementSettings::GetSpeedForGait` (declared in a header that is not under `src/`). -/
  GetSpeedForGait : FBMMovementSettings → EBMGait → ℚ
  /-- The virtual `GetMantleAsset(MantleType)`, implemented by the character subclasses. -/
  GetMantleAsset : EBMMantleType → FBMMantleAsset
  /-- The virtual `GetRollAnimation()`. -/
  GetRollAnimation : Option Nat
  /-- The virtual `GetGetUpAnimation(bRagdollFaceUp)`. -/
  GetGetUpAnimation : Bool → Option Nat
  /-- The build macro `DEBUG_BASECHAR` (defined in a header that is not under `src/`). -/
  DEBUG_BASECHAR : Bool

/-! ## Runs that can halt -/

/-- The pointer or object a halted run stopped at. -/
inductive Site where
  | MainAnimInstance
  | PlayerController
  | World
  | MovementCurve
  | RotationRateCurve
  | PositionCorrectionCurve
  | LedgeComponent
  | MovementModelDataTable
  | MovementModelRow
deriving DecidableEq, Repr

/-- Why a run halted. -/
inductive Fault where
  | CheckFailed (site : Site)
  | NullDeref (site : Site)
  | OutOfFuel
deriving DecidableEq, Repr

/-- The outcome of running a member function: it returned `a` in state `s`, or it halted in
state `s`. -/
inductive Res (α : Type) where
  | ok (a : α) (s : ABMBaseCharacter)
  | halt (f : Fault) (s : ABMBaseCharacter)

/-- The state a run ended in, returned or halted. -/
def Res.state {α : Type} : Res α → ABMBaseCharacter
  | .ok _ s => s
  | .halt _ s => s

/-- The value a run returned, if it returned. -/
def Res.value {α : Type} : Res α → Option α
  | .ok a _ => some a
  | .halt _ _ => none

/-- The fault a run halted with, if it halted. -/
def Res.fault {α : Type} : Res α → Option Fault
  | .ok _ _ => none
  | .halt f _ => some f

/-- A member function: a state transformer that may halt. -/
def Exec (α : Type) : Type := ABMBaseCharacter → Res α

namespace Exec

def ret {α : Type} (a : α) : Exec α := fun s => .ok a s

def andThen {α β : Type} (x : Exec α) (f : α → Exec β) : Exec β := fun s =>
  match x s with
  | .ok a s1 => f a s1
  | .halt e s1 => .halt e s1

instance : Monad Exec where
  pure := ret
  bind := andThen

/-- Read the current state (`this`). -/
def this : Exec ABMBaseCharacter := fun s => .ok s s

/-- Assign to members. -/
def set (f : ABMBaseCharacter → ABMBaseCharacter) : Exec Unit := fun s => .ok () (f s)

/-- Record an observable call. -/
def log (e : Event) : Exec Unit := fun s => .ok () { s with Log := s.Log ++ [e] }

/-- Halt the run. -/
def halt {α : Type} (f : Fault) : Exec α := fun s => .halt f s

/-- The engine's `check(cond)`. -/
def check (cond : Bool) (site : Site) : Exec Unit :=
  if cond then ret () else halt (.CheckFailed site)

/-- Dereference a pointer. -/
def deref {α : Type} (p : Option α) (site : Site) : Exec α :=
  match p with
  | some a => ret a
  | none => halt (.NullDeref site)

/-- Dereference `GetWorld()`. -/
def derefWorld : Exec Unit := fun s =>
  if s.bWorldValid then .ok () s else .halt (.NullDeref .World) s

end Exec

/-! ## Queries (member functions that only read the character) -/

/-- `ABMBaseCharacter::GetTargetMovementSettings` (lines 316-354). -/
def GetTargetMovementSettings (s : ABMBaseCharacter) : FBMMovementSettings :=
  if s.RotationMode = .VelocityDirection then
    if s.Stance = .Standing then s.MovementData.VelocityDirection.Standing
    else if s.Stance = .Crouching then s.MovementData.VelocityDirection.Crouching
    else s.MovementData.VelocityDirection.Standing
  else if s.RotationMode = .LookingDirection then
    if s.Stance = .Standing then s.MovementData.LookingDirection.Standing
    else if s.Stance = .Crouching then s.MovementData.LookingDirection.Crouching
    else s.MovementData.VelocityDirection.Standing
  else if s.RotationMode = .Aiming then
    if s.Stance = .Standing then s.MovementData.Aiming.Standing
    else if s.Stance = .Crouching then s.MovementData.Aiming.Crouching
    else s.MovementData.VelocityDirection.Standing
  else
    -- Default to velocity dir standing
    s.MovementData.VelocityDirection.Standing

/-- `ABMBaseCharacter::CanSprint` (lines 356-384).  `Float32.Round (9 / 10)` is the literal
`0.9f`. -/
def CanSprint (E : Engine) (s : ABMBaseCharacter) : Bool :=
  if !s.bHasMovementInput || s.RotationMode = .Aiming then
    false
  else
    let bValidInputAmount : Bool := s.MovementInputAmount.GreaterThan (Float32.Round (9 / 10))
    if s.RotationMode = .VelocityDirection then
      bValidInputAmount
    else if s.RotationMode = .LookingDirection then
      let AccRot := E.ToOrientationRotator s.CharacterMovement.CurrentAcceleration
      let Delta := E.NormalizeRotator (AccRot.sub s.ControlRotation)
      bValidInputAmount && (FMath.Abs Delta.Yaw < 50 : Bool)
    else
      false

/-- `ABMBaseCharacter::GetMappedSpeed` (lines 1066-1090). -/
def GetMappedSpeed (s : ABMBaseCharacter) : ℚ :=
  let LocWalkSpeed := s.CurrentMovementSettings.WalkSpeed
  let LocRunSpeed := s.CurrentMovementSettings.RunSpeed
  let LocSprintSpeed := s.CurrentMovementSettings.SprintSpeed
  if s.Speed > LocRunSpeed then
    FMath.GetMappedRangeValueClamped (LocRunSpeed, LocSprintSpeed) (2, 3) s.Speed
  else if s.Speed > LocWalkSpeed then
    FMath.GetMappedRangeValueClamped (LocWalkSpeed, LocRunSpeed) (1, 2) s.Speed
  else
    FMath.GetMappedRangeValueClamped (0, LocWalkSpeed) (0, 1) s.Speed

/-- `ABMBaseCharacter::GetAllowedGait` (lines 1092-1118). -/
def GetAllowedGait (E : Engine) (s : ABMBaseCharacter) : EBMGait :=
  -- Crouching stance & Aiming rot mode has same behaviour
  let CrouchingOrAiming : EBMGait := if s.DesiredGait = .Sprinting then .Running else s.DesiredGait
  if s.Stance = .Standing then
    if s.RotationMode ≠ .Aiming then
      if s.DesiredGait = .Sprinting then
        if CanSprint E s then .Sprinting else .Running
      else
        s.DesiredGait
    else
      CrouchingOrAiming
  else
    CrouchingOrAiming

/-- `ABMBaseCharacter::GetActualGait` (lines 1120-1144). -/
def GetActualGait (s : ABMBaseCharacter) (AllowedGait : EBMGait) : EBMGait :=
  let LocWalkSpeed := s.CurrentMovementSettings.WalkSpeed
  let LocRunSpeed := s.CurrentMovementSettings.RunSpeed
  if s.Speed > Float32.Add LocRunSpeed 10 then
    if AllowedGait = .Sprinting then .Sprinting else .Running
  else if s.Speed ≥ Float32.Add LocWalkSpeed 10 then
    .Running
  else
    .Walking

/-! ## State setters and change hooks -/

/-- `ABMBaseCharacter::OnStanceChanged` (lines 549-551): empty. -/
def OnStanceChanged (PreviousStance : EBMStance) : Exec Unit :=
  Exec.log (.OnStanceChanged PreviousStance)

/-- `ABMBaseCharacter::OnRotationModeChanged` (lines 553-555): empty. -/
def OnRotationModeChanged (PreviousRotationMode : EBMRotationMode) : Exec Unit :=
  Exec.log (.OnRotationModeChanged PreviousRotationMode)

/-- `ABMBaseCharacter::OnGaitChanged` (lines 557-559): empty. -/
def OnGaitChanged (PreviousGait : EBMGait) : Exec Unit :=
  Exec.log (.OnGaitChanged PreviousGait)

/-- `ABMBaseCharacter::OnOverlayStateChanged` (lines 561-563): empty. -/
def OnOverlayStateChanged (PreviousState : EBMOverlayState) : Exec Unit :=
  Exec.log (.OnOverlayStateChanged PreviousState)

/-- `ABMBaseCharacter::OnMovementActionChanged` (lines 528-547).  `Crouch` and `UnCrouch` are
requests to the engine. -/
def OnMovementActionChanged (PreviousAction : EBMMovementAction) : Exec Unit := do
  Exec.log (.OnMovementActionChanged PreviousAction)
  let s ← Exec.this
  -- Make the character crouch if performing a roll.
  if s.MovementAction = .Rolling then
    Exec.log .Crouch
  if PreviousAction = .Rolling then
    if s.DesiredStance = .Standing then
      Exec.log .UnCrouch
    else if s.DesiredStance = .Crouching then
      Exec.log .Crouch

/-- `ABMBaseCharacter::SetMovementAction` (lines 179-187). -/
def SetMovementAction (NewAction : EBMMovementAction) : Exec Unit := do
  let s ← Exec.this
  if s.MovementAction ≠ NewAction then
    let Prev := s.MovementAction
    Exec.set fun s => { s with MovementAction := NewAction }
    OnMovementActionChanged Prev

/-- `ABMBaseCharacter::SetStance` (lines 189-197). -/
def SetStance (NewStance : EBMStance) : Exec Unit := do
  let s ← Exec.this
  if s.Stance ≠ NewStance then
    let Prev := s.Stance
    Exec.set fun s => { s with Stance := NewStance }
    OnStanceChanged Prev

/-- `ABMBaseCharacter::SetRotationMode` (lines 199-207). -/
def SetRotationMode (NewRotationMode : EBMRotationMode) : Exec Unit := do
  let s ← Exec.this
  if s.RotationMode ≠ NewRotationMode then
    let Prev := s.RotationMode
    Exec.set fun s => { s with RotationMode := NewRotationMode }
    OnRotationModeChanged Prev

/-- `ABMBaseCharacter::SetGait` (lines 209-217). -/
def SetGait (NewGait : EBMGait) : Exec Unit := do
  let s ← Exec.this
  if s.Gait ≠ NewGait then
    let Prev := s.Gait
    Exec.set fun s => { s with Gait := NewGait }
    OnGaitChanged Prev

/-- `ABMBaseCharacter::SetOverlayState` (lines 219-227). -/
def SetOverlayState (NewState : EBMOverlayState) : Exec Unit := do
  let s ← Exec.this
  if s.OverlayState ≠ NewState then
    let Prev := s.OverlayState
    Exec.set fun s => { s with OverlayState := NewState }
    OnOverlayStateChanged Prev

/-!
The movement-state setter, its hook, `RagdollStart` and the movement-mode notification call each
other, so they are defined together, by recursion on a bound `fuel` on the depth of nested
calls; a call with no fuel left halts with `Fault.OutOfFuel`.  The fuel lemmas below show that
the bound is never reached when the fuel is at least 7.
-/

mutual

/-- The engine's `UCharacterMovementComponent::SetMovementMode`: nothing happens when the mode
is unchanged; otherwise the mode is stored and the character is notified through its virtual
`OnMovementModeChanged`.  What the movement component does for itself on a new mode (floor
search, its own adjustment of the velocity) is left out. -/
def SetMovementMode : Nat → EMovementMode → Exec Unit
  | 0, _ => Exec.halt .OutOfFuel
  | fuel + 1, NewMovementMode => do
    let s ← Exec.this
    if s.CharacterMovement.MovementMode ≠ NewMovementMode then
      let PrevMovementMode := s.CharacterMovement.MovementMode
      Exec.set fun s =>
        { s with CharacterMovement := { s.CharacterMovement with MovementMode := NewMovementMode } }
      OnMovementModeChanged fuel PrevMovementMode

/-- `ABMBaseCharacter::OnMovementModeChanged` (lines 484-500).  The call of the base class
implementation is recorded in the log. -/
def OnMovementModeChanged : Nat → EMovementMode → Exec Unit
  | 0, _ => Exec.halt .OutOfFuel
  | fuel + 1, PrevMovementMode => do
    Exec.log (.Super_OnMovementModeChanged PrevMovementMode)
    let s ← Exec.this
    if s.CharacterMovement.MovementMode = .MOVE_Walking ∨
        s.CharacterMovement.MovementMode = .MOVE_NavWalking then
      SetMovementState fuel .Grounded
    else if s.CharacterMovement.MovementMode = .MOVE_Falling then
      SetMovementState fuel .InAir

/-- `ABMBaseCharacter::SetMovementState` (lines 169-177). -/
def SetMovementState : Nat → EBMMovementState → Exec Unit
  | 0, _ => Exec.halt .OutOfFuel
  | fuel + 1, NewState => do
    let s ← Exec.this
    if s.MovementState ≠ NewState then
      Exec.set fun s => { s with PrevMovementState := s.MovementState }
      Exec.set fun s => { s with MovementState := NewState }
      let s ← Exec.this
      OnMovementStateChanged fuel s.PrevMovementState

/-- `ABMBaseCharacter::OnMovementStateChanged` (lines 502-526). -/
def OnMovementStateChanged : Nat → EBMMovementState → Exec Unit
  | 0, _ => Exec.halt .OutOfFuel
  | fuel + 1, PreviousState => do
    Exec.log (.OnMovementStateChanged PreviousState)
    let s ← Exec.this
    if s.MovementState = .InAir then
      if s.MovementAction = .None then
        -- If the character enters the air, set the In Air Rotation and uncrouch if crouched.
        Exec.set fun s => { s with InAirRotation := s.ActorRotation }
        if s.Stance = .Crouching then
          Exec.log .UnCrouch
      else if s.MovementAction = .Rolling then
        -- If the character is currently rolling, enable the ragdoll.
        RagdollStart fuel
    else if s.MovementState = .Ragdoll ∧ PreviousState = .Mantling then
      -- Stop the Mantle Timeline if transitioning to the ragdoll state while mantling.
      Exec.set fun s => { s with MantleTimeline := { s.MantleTimeline with bPlaying := false } }

/-- `ABMBaseCharacter::RagdollStart` (lines 122-136).  `MainAnimInstance` is dereferenced
without a test at the end. -/
def RagdollStart : Nat → Exec Unit
  | 0 => Exec.halt .OutOfFuel
  | fuel + 1 => do
    Exec.log .RagdollStart
    -- Step 1: Clear the Character Movement Mode and set the Movement State to Ragdoll
    SetMovementMode fuel .MOVE_None
    SetMovementState fuel .Ragdoll
    -- Step 2: Disable capsule collision and enable mesh physics simulation.
    Exec.set fun s => { s with Capsule := { s.Capsule with CollisionEnabled := .NoCollision } }
    Exec.set fun s => { s with Mesh := { s.Mesh with CollisionObjectType := .ECC_PhysicsBody } }
    Exec.set fun s => { s with Mesh := { s.Mesh with CollisionEnabled := .QueryAndPhysics } }
    Exec.set fun s => { s with Mesh := { s.Mesh with bSimulatePhysics := true } }
    -- Step 3: Stop any active montages.
    let s ← Exec.this
    let _ ← Exec.deref s.MainAnimInstance .MainAnimInstance
    Exec.log (.Montage_Stop (2 / 10))

end

/-! ## Ragdoll update -/

/-- `ABMBaseCharacter::SetActorLocationAndTargetRotation` (lines 229-233). -/
def SetActorLocationAndTargetRotation (NewLocation : FVector) (NewRotation : FRotator) :
    Exec Unit := do
  Exec.set fun s => { s with ActorLocation := NewLocation, ActorRotation := NewRotation }
  Exec.set fun s => { s with TargetRotation := NewRotation }

/-- `ABMBaseCharacter::SetActorLocationDuringRagdoll` (lines 445-482). -/
def SetActorLocationDuringRagdoll (E : Engine) : Exec Unit := do
  let s ← Exec.this
  -- Set the pelvis as the target location.
  let TargetRagdollLocation := s.Mesh.PelvisLocation
  -- Determine wether the ragdoll is facing up or down and set the target rotation accordingly.
  let PelvisRot := s.Mesh.PelvisRotation
  let FaceUp : Bool := PelvisRot.Roll < 0
  Exec.set fun s => { s with bRagdollFaceUp := FaceUp }
  let TargetRagdollRotation : FRotator :=
    ⟨0, if FaceUp then Float32.Sub PelvisRot.Yaw 180 else PelvisRot.Yaw, 0⟩
  -- Trace downward from the target location to offset the target location.
  let TraceVect : FVector :=
    ⟨TargetRagdollLocation.X, TargetRagdollLocation.Y,
      Float32.Sub TargetRagdollLocation.Z s.Capsule.ScaledCapsuleHalfHeight⟩
  Exec.derefWorld
  let HitResult := E.LineTraceSingleByChannel TargetRagdollLocation TraceVect .ECC_Visibility
  Exec.set fun s => { s with bRagdollOnGround := HitResult.IsValidBlockingHit }
  if HitResult.IsValidBlockingHit then
    let ImpactDistZ := FMath.Abs (Float32.Sub HitResult.ImpactPoint.Z HitResult.TraceStart.Z)
    let NewRagdollLoc : FVector :=
      { TargetRagdollLocation with
        Z := Float32.Add TargetRagdollLocation.Z
          (Float32.Add (Float32.Sub s.Capsule.ScaledCapsuleHalfHeight ImpactDistZ) 2) }
    SetActorLocationAndTargetRotation NewRagdollLoc TargetRagdollRotation
  else
    SetActorLocationAndTargetRotation TargetRagdollLocation TargetRagdollRotation

/-- `ABMBaseCharacter::RagdollUpdate` (lines 426-443). -/
def RagdollUpdate (E : Engine) : Exec Unit := do
  -- Set the Last Ragdoll Velocity.
  Exec.set fun s => { s with LastRagdollVelocity := s.Mesh.RootLinearVelocity }
  let s ← Exec.this
  -- Use the Ragdoll Velocity to scale the ragdoll's joint strength for physical animation.
  let SpringValue :=
    E.GetMappedRangeValueClamped (0, 1000) (0, 25000)
      (.Finite (E.VectorSize s.LastRagdollVelocity))
  Exec.set fun s => { s with Mesh := { s.Mesh with AngularDriveSpring := SpringValue } }
  -- Disable Gravity if falling faster than -4000 to prevent continual acceleration.
  let bEnableGrav : Bool := s.LastRagdollVelocity.Z > -4000
  Exec.set fun s => { s with Mesh := { s.Mesh with bEnableGravity := bEnableGrav } }
  -- Update the Actor location to follow the ragdoll.
  SetActorLocationDuringRagdoll E

/-! ## Per-tick values and movement settings -/

/-- `ABMBaseCharacter::SetEssentialValues` (lines 630-667).  The three quotients can have a zero
divisor. -/
def SetEssentialValues (E : Engine) (DeltaTime : ℚ) : Exec Unit := do
  let s ← Exec.this
  let CurrentVel := s.ActorVelocity
  -- Set the amount of Acceleration.
  Exec.set fun s =>
    { s with Acceleration := E.VectorDivide (CurrentVel.sub s.PreviousVelocity) DeltaTime }
  -- Determine if the character is moving by getting it's speed.
  Exec.set fun s => { s with Speed := E.VectorSize2D CurrentVel }
  Exec.set fun s => { s with bIsMoving := s.Speed > 1 }
  let s ← Exec.this
  if s.bIsMoving then
    Exec.set fun s => { s with LastVelocityRotation := E.ToOrientationRotator CurrentVel }
  -- Determine if the character has movement input by getting its movement input amount.
  let CurAcc := s.CharacterMovement.CurrentAcceleration
  Exec.set fun s =>
    { s with
      MovementInputAmount :=
        Float32.Quotient (E.VectorSize CurAcc) s.CharacterMovement.MaxAcceleration }
  Exec.set fun s => { s with bHasMovementInput := s.MovementInputAmount.GreaterThan 0 }
  let s ← Exec.this
  if s.bHasMovementInput then
    Exec.set fun s => { s with LastMovementInputRotation := E.ToOrientationRotator CurAcc }
  -- Set the Aim Yaw rate by comparing the current and previous Aim Yaw value.
  Exec.set fun s =>
    { s with
      AimYawRate :=
        (Float32.Quotient (Float32.Sub s.ControlRotation.Yaw s.PreviousAimYaw) DeltaTime).Abs }

/-- `ABMBaseCharacter::UpdateDynamicMovementSettings` (lines 686-702).  The movement curve is
dereferenced without a test. -/
def UpdateDynamicMovementSettings (E : Engine) (AllowedGait : EBMGait) : Exec Unit := do
  -- Get the Current Movement Settings.
  Exec.set fun s => { s with CurrentMovementSettings := GetTargetMovementSettings s }
  -- Update the Character Max Walk Speed to the configured speeds based on the Allowed Gait.
  Exec.set fun s =>
    { s with CharacterMovement :=
      { s.CharacterMovement with
        MaxWalkSpeed := E.GetSpeedForGait s.CurrentMovementSettings AllowedGait } }
  Exec.set fun s =>
    { s with CharacterMovement :=
      { s.CharacterMovement with MaxWalkSpeedCrouched := s.CharacterMovement.MaxWalkSpeed } }
  -- Update the Acceleration, Deceleration, and Ground Friction using the Movement Curve.
  let s ← Exec.this
  let MappedSpeed := GetMappedSpeed s
  let Curve ← Exec.deref s.CurrentMovementSettings.MovementCurve .MovementCurve
  let CurveVec := E.GetVectorValue Curve MappedSpeed
  Exec.set fun s =>
    { s with CharacterMovement := { s.CharacterMovement with MaxAcceleration := CurveVec.X } }
  Exec.set fun s =>
    { s with CharacterMovement :=
      { s.CharacterMovement with BrakingDecelerationWalking := CurveVec.Y } }
  Exec.set fun s =>
    { s with CharacterMovement := { s.CharacterMovement with GroundFriction := CurveVec.Z } }

/-- `ABMBaseCharacter::UpdateCharacterMovement` (lines 669-684). -/
def UpdateCharacterMovement (E : Engine) : Exec Unit := do
  let s ← Exec.this
  -- Set the Allowed Gait
  let AllowedGait := GetAllowedGait E s
  -- Determine the Actual Gait. If it is different from the current Gait, Set the new Gait Event.
  let ActualGait := GetActualGait s AllowedGait
  if ActualGait ≠ s.Gait then
    SetGait ActualGait
  -- Use the allowed gait to update the movement settings.
  UpdateDynamicMovementSettings E AllowedGait

/-! ## Rotation -/

/-- `ABMBaseCharacter::SmoothCharacterRotation` (lines 1146-1163). -/
def SmoothCharacterRotation (E : Engine) (Target : FRotator)
    (TargetInterpSpeed ActorInterpSpeed DeltaTime : ℚ) : Exec Unit := do
  let s ← Exec.this
  if s.bEnableOptimization then
    Exec.set fun s => { s with TargetRotation := Target }
    Exec.set fun s =>
      { s with ActorRotation := E.RInterpTo s.ActorRotation Target DeltaTime ActorInterpSpeed }
  else
    -- Interpolate the Target Rotation for extra smooth rotation behavior
    Exec.set fun s =>
      { s with
        TargetRotation := E.RInterpConstantTo s.TargetRotation Target DeltaTime TargetInterpSpeed }
    Exec.set fun s =>
      { s with
        ActorRotation := E.RInterpTo s.ActorRotation s.TargetRotation DeltaTime ActorInterpSpeed }

/-- `ABMBaseCharacter::CalculateGroundedRotationRate` (lines 1165-1177).  The rotation rate
curve is dereferenced without a test. -/
def CalculateGroundedRotationRate (E : Engine) : Exec ℚ := do
  let s ← Exec.this
  let MappedSpeedVal := GetMappedSpeed s
  let Curve ← Exec.deref s.CurrentMovementSettings.RotationRateCurve .RotationRateCurve
  let CurveVal := E.GetFloatValue Curve MappedSpeedVal
  let ClampedAimYawRate := E.GetMappedRangeValueClamped (0, 300) (1, 3) s.AimYawRate
  return Float32.Mul CurveVal ClampedAimYawRate

/-- `ABMBaseCharacter::LimitRotation` (lines 1179-1193). -/
def LimitRotation (E : Engine) (AimYawMin AimYawMax InterpSpeed DeltaTime : ℚ) : Exec Unit := do
  let s ← Exec.this
  -- Prevent the character from rotating past a certain angle.
  let Delta := E.NormalizeRotator (s.ControlRotation.sub s.ActorRotation)
  let RangeVal := Delta.Yaw
  if RangeVal < AimYawMin ∨ RangeVal > AimYawMax then
    let ControlRotYaw := s.ControlRotation.Yaw
    let TargetYaw := Float32.Add ControlRotYaw (if RangeVal > 0 then AimYawMin else AimYawMax)
    SmoothCharacterRotation E ⟨0, TargetYaw, 0⟩ 0 InterpSpeed DeltaTime

/-- `ABMBaseCharacter::UpdateGroundedRotation` (lines 704-779).  `Float32.Round (1 / 1000)` is
the literal `0.001f`. -/
def UpdateGroundedRotation (E : Engine) (DeltaTime : ℚ) : Exec Unit := do
  let s ← Exec.this
  if s.MovementAction = .None then
    let bCanUpdateMovingRot : Bool :=
      ((s.bIsMoving && s.bHasMovementInput) || s.Speed > 150) && !s.bHasAnyRootMotion
    if bCanUpdateMovingRot then
      let GroundedRotationRate ← CalculateGroundedRotationRate E
      if s.RotationMode = .VelocityDirection then
        -- Velocity Direction Rotation
        SmoothCharacterRotation E ⟨0, s.LastVelocityRotation.Yaw, 0⟩ 800 GroundedRotationRate
          DeltaTime
      else if s.RotationMode = .LookingDirection then
        -- Looking Direction Rotation
        let YawValue ←
          if s.Gait = .Sprinting then
            pure s.LastVelocityRotation.Yaw
          else do
            -- Walking or Running..
            Exec.check s.MainAnimInstance.isSome .MainAnimInstance
            let Anim ← Exec.deref s.MainAnimInstance .MainAnimInstance
            let YawOffsetCurveVal := Anim.GetCurveValue "YawOffset"
            pure (Float32.Add s.ControlRotation.Yaw YawOffsetCurveVal)
        SmoothCharacterRotation E ⟨0, YawValue, 0⟩ 500 GroundedRotationRate DeltaTime
      else if s.RotationMode = .Aiming then
        let ControlYaw := s.ControlRotation.Yaw
        SmoothCharacterRotation E ⟨0, ControlYaw, 0⟩ 1000 20 DeltaTime
    else
      -- Not Moving
      if s.RotationMode = .Aiming then
        LimitRotation E (-100) 100 20 DeltaTime
      -- Apply the RotationAmount curve from Turn In Place Animations.
      let s ← Exec.this
      Exec.check s.MainAnimInstance.isSome .MainAnimInstance
      let Anim ← Exec.deref s.MainAnimInstance .MainAnimInstance
      let RotAmountCurve := Anim.GetCurveValue "RotationAmount"
      if FMath.Abs RotAmountCurve > Float32.Round (1 / 1000) then
        Exec.set fun s =>
          { s with
            ActorRotation :=
              E.AddWorldRotation s.ActorRotation
                ⟨0, Float32.Mul RotAmountCurve (Float32.Div DeltaTime (Float32.Div 1 30)), 0⟩ }
        Exec.set fun s => { s with TargetRotation := s.ActorRotation }
  else if s.MovementAction = .Rolling then
    -- Rolling Rotation
    if s.bHasMovementInput then
      SmoothCharacterRotation E ⟨0, s.LastMovementInputRotation.Yaw, 0⟩ 0 2 DeltaTime
  -- Other actions are ignored...

/-- `ABMBaseCharacter::UpdateInAirRotation` (lines 781-796). -/
def UpdateInAirRotation (E : Engine) (DeltaTime : ℚ) : Exec Unit := do
  let s ← Exec.this
  if s.RotationMode = .VelocityDirection ∨ s.RotationMode = .LookingDirection then
    -- Velocity / Looking Direction Rotation
    SmoothCharacterRotation E ⟨0, s.InAirRotation.Yaw, 0⟩ 0 5 DeltaTime
  else if s.RotationMode = .Aiming then
    -- Aiming Rotation
    SmoothCharacterRotation E ⟨0, s.ControlRotation.Yaw, 0⟩ 0 15 DeltaTime
    Exec.set fun s => { s with InAirRotation := s.ActorRotation }

/-! ## Mantle -/

/-- `TransfromSub` (lines 798-802). -/
def TransfromSub (E : Engine) (T1 T2 : FTransform) : FTransform :=
  ⟨E.RotatorQuaternion ((E.QuatRotator T1.Rotation).sub (E.QuatRotator T2.Rotation)),
    T1.Translation.sub T2.Translation, T1.Scale3D.sub T2.Scale3D⟩

/-- `TransfromAdd` (lines 804-808). -/
def TransfromAdd (E : Engine) (T1 T2 : FTransform) : FTransform :=
  ⟨E.RotatorQuaternion ((E.QuatRotator T1.Rotation).add (E.QuatRotator T2.Rotation)),
    T1.Translation.add T2.Translation, T1.Scale3D.add T2.Scale3D⟩

/-- `GetCapsuleBaseLocation` (lines 810-814). -/
def GetCapsuleBaseLocation (ZOffset : ℚ) (s : ABMBaseCharacter) : FVector :=
  s.ActorLocation.sub
    (s.Capsule.UpVector.scale (Float32.Add s.Capsule.ScaledCapsuleHalfHeight ZOffset))

/-- `GetCapsuleLocationFromBase` (lines 816-820). -/
def GetCapsuleLocationFromBase (BaseLocation : FVector) (ZOffset : ℚ) (s : ABMBaseCharacter) :
    FVector :=
  { BaseLocation with
    Z := Float32.Add BaseLocation.Z (Float32.Add s.Capsule.ScaledCapsuleHalfHeight ZOffset) }

/-- `AActor::GetActorTransform`: the transform of the root component. -/
def GetActorTransform (E : Engine) (s : ABMBaseCharacter) : FTransform :=
  ⟨E.RotatorQuaternion s.ActorRotation, s.ActorLocation, s.ActorScale3D⟩

/-- `ABMBaseCharacter::GetPlayerMovementInput` (lines 386-391). -/
def GetPlayerMovementInput : Exec FVector := do
  let s ← Exec.this
  Exec.check s.PlayerController.isSome .PlayerController
  let PlayerController ← Exec.deref s.PlayerController .PlayerController
  return PlayerController.PlayerMovementInput

/-- `ABMBaseCharacter::CapsuleHasRoomCheck` (lines 1042-1064). -/
def CapsuleHasRoomCheck (E : Engine) (TargetLocation : FVector) (HeightOffset RadiusOffset : ℚ) :
    Exec Bool := do
  let s ← Exec.this
  -- Perform a trace to see if the capsule has room to be at the target location.
  let ZTarget :=
    Float32.Add (Float32.Sub s.Capsule.ScaledCapsuleHalfHeight_WithoutHemisphere RadiusOffset)
      HeightOffset
  let TraceStart : FVector := { TargetLocation with Z := Float32.Add TargetLocation.Z ZTarget }
  let TraceEnd : FVector := { TargetLocation with Z := Float32.Sub TargetLocation.Z ZTarget }
  let Radius := Float32.Add s.Capsule.UnscaledCapsuleRadius RadiusOffset
  Exec.check s.bWorldValid .World
  let HitResult := E.SweepSingleByProfile TraceStart TraceEnd (.Sphere Radius)
  return !(HitResult.bBlockingHit || HitResult.bStartPenetrating)

/-- `ABMBaseCharacter::MantleStart` (lines 822-880).  The ledge component and the
position/correction curve are dereferenced without a test. -/
def MantleStart (fuel : Nat) (E : Engine) (MantleHeight : ℚ)
    (MantleLedgeWS : FBMComponentAndTransform) (MantleType : EBMMantleType) : Exec Unit := do
  Exec.log (.MantleStart MantleHeight MantleLedgeWS MantleType)
  -- Step 1: Get the Mantle Asset and use it to set the new Mantle Params.
  let MantleAsset := E.GetMantleAsset MantleType
  Exec.set fun s => { s with MantleParams := { s.MantleParams with
    AnimMontage := MantleAsset.AnimMontage } }
  Exec.set fun s => { s with MantleParams := { s.MantleParams with
    PositionCorrectionCurve := MantleAsset.PositionCorrectionCurve } }
  Exec.set fun s => { s with MantleParams := { s.MantleParams with
    StartingOffset := MantleAsset.StartingOffset } }
  Exec.set fun s => { s with MantleParams := { s.MantleParams with
    StartingPosition :=
      E.GetMappedRangeValueClamped (MantleAsset.LowHeight, MantleAsset.HighHeight)
        (MantleAsset.LowStartPosition, MantleAsset.HighStartPosition) (.Finite MantleHeight) } }
  Exec.set fun s => { s with MantleParams := { s.MantleParams with
    PlayRate :=
      E.GetMappedRangeValueClamped (MantleAsset.LowHeight, MantleAsset.HighHeight)
        (MantleAsset.LowPlayRate, MantleAsset.HighPlayRate) (.Finite MantleHeight) } }
  -- Step 2: Convert the world space target to the mantle component's local space.
  Exec.set fun s => { s with MantleLedgeLS := { s.MantleLedgeLS with
    Component := MantleLedgeWS.Component } }
  let LedgeComponent ← Exec.deref MantleLedgeWS.Component .LedgeComponent
  Exec.set fun s => { s with MantleLedgeLS := { s.MantleLedgeLS with
    Transform :=
      E.TransformMultiply MantleLedgeWS.Transform
        (E.TransformInverse (E.GetComponentToWorld LedgeComponent)) } }
  -- Step 3: Set the Mantle Target and calculate the Starting Offset.
  Exec.set fun s => { s with MantleTarget := MantleLedgeWS.Transform }
  Exec.set fun s => { s with
    MantleActualStartOffset := TransfromSub E (GetActorTransform E s) s.MantleTarget }
  -- Step 4: Calculate the Animated Start Offset from the Target Location.
  let s ← Exec.this
  let RotatedVector : FVector :=
    { (E.QuatVector s.MantleTarget.Rotation).scale s.MantleParams.StartingOffset.Y with
      Z := s.MantleParams.StartingOffset.Z }
  let StartOffset : FTransform :=
    ⟨E.RotatorQuaternion (E.QuatRotator s.MantleTarget.Rotation),
      s.MantleTarget.Translation.sub RotatedVector, FVector.OneVector⟩
  Exec.set fun s => { s with
    MantleAnimatedStartOffset := TransfromSub E StartOffset s.MantleTarget }
  -- Step 5: Clear the Character Movement Mode and set the Movement State to Mantling
  SetMovementMode fuel .MOVE_None
  SetMovementState fuel .Mantling
  -- Step 6: Configure the Mantle Timeline and start it.
  let s ← Exec.this
  let Curve ← Exec.deref s.MantleParams.PositionCorrectionCurve .PositionCorrectionCurve
  let MaxTime := (E.GetTimeRange Curve).2
  Exec.set fun s => { s with MantleTimeline := { s.MantleTimeline with
    Length := Float32.Sub MaxTime s.MantleParams.StartingPosition } }
  Exec.set fun s => { s with MantleTimeline := { s.MantleTimeline with
    PlayRate := s.MantleParams.PlayRate } }
  Exec.set fun s => { s with MantleTimeline := { s.MantleTimeline with
    PlaybackPosition := 0, bPlaying := true } }
  -- Step 7: Play the Anim Montage if valid.
  let s ← Exec.this
  if s.MantleParams.AnimMontage.isSome then
    Exec.check s.MainAnimInstance.isSome .MainAnimInstance
    Exec.log (.Montage_Play s.MantleParams.AnimMontage s.MantleParams.PlayRate
      s.MantleParams.StartingPosition)
  -- Step 8: Prevent Incorrect Rotation
  Exec.set fun s => { s with
    ActorRotation := { s.ActorRotation with Yaw := (E.QuatRotator s.MantleTarget.Rotation).Yaw } }

/-- `ABMBaseCharacter::MantleCheck` (lines 882-973).  The debug-draw argument is left out. -/
def MantleCheck (fuel : Nat) (E : Engine) (TraceSettings : FBMMantleTraceSettings) :
    Exec Bool := do
  let s ← Exec.this
  if !s.bAllowMantle then
    return false
  else
    -- Step 1: Trace forward to find a wall / object the character cannot walk on.
    let CapsuleBaseLocation := GetCapsuleBaseLocation 2 s
    let Input1 ← GetPlayerMovementInput
    let TraceStart0 := CapsuleBaseLocation.add (Input1.scale (-30))
    let TraceStart : FVector :=
      { TraceStart0 with
        Z := Float32.Add TraceStart0.Z
          (Float32.Div (Float32.Add TraceSettings.MaxLedgeHeight TraceSettings.MinLedgeHeight)
            2) }
    let Input2 ← GetPlayerMovementInput
    let TraceEnd := TraceStart.add (Input2.scale TraceSettings.ReachDistance)
    let HalfHeight :=
      Float32.Add 1
        (Float32.Div (Float32.Sub TraceSettings.MaxLedgeHeight TraceSettings.MinLedgeHeight) 2)
    Exec.check s.bWorldValid .World
    -- ECC_GameTraceChannel2 -> Climbable
    let HitResult :=
      E.SweepSingleByChannel TraceStart TraceEnd .ECC_GameTraceChannel2
        (.Capsule TraceSettings.ForwardTraceRadius HalfHeight)
    if !HitResult.IsValidBlockingHit || E.IsWalkable HitResult then
      -- Not a valid surface to mantle
      return false
    else
      let InitialTraceImpactPoint := HitResult.ImpactPoint
      let InitialTraceNormal := HitResult.ImpactNormal
      -- Step 2: Trace downward from the first trace's Impact Point.
      let DownwardTraceEnd : FVector :=
        ({ InitialTraceImpactPoint with Z := CapsuleBaseLocation.Z } : FVector).add
          (InitialTraceNormal.scale (-15))
      let DownwardTraceStart : FVector :=
        { DownwardTraceEnd with
          Z := Float32.Add DownwardTraceEnd.Z
            (Float32.Add
              (Float32.Add TraceSettings.MaxLedgeHeight TraceSettings.DownwardTraceRadius) 1) }
      let HitResult :=
        E.SweepSingleByChannel DownwardTraceStart DownwardTraceEnd .ECC_GameTraceChannel2
          (.Sphere TraceSettings.DownwardTraceRadius)
      if !E.IsWalkable HitResult then
        -- Not a valid surface to mantle
        return false
      else
        let DownTraceLocation : FVector :=
          ⟨HitResult.Location.X, HitResult.Location.Y, HitResult.ImpactPoint.Z⟩
        let HitComponent := HitResult.Component
        -- Step 3: Check if the capsule has room to stand at the downward trace's location.
        let CapsuleLocationFBase := GetCapsuleLocationFromBase DownTraceLocation 2 s
        let bCapsuleHasRoom ← CapsuleHasRoomCheck E CapsuleLocationFBase 0 0
        if !bCapsuleHasRoom then
          -- Capsule doesn't have enough room to mantle
          return false
        else
          let TargetTransform : FTransform :=
            ⟨E.RotatorQuaternion
                (E.ToOrientationRotator (InitialTraceNormal.mul ⟨-1, -1, 0⟩)),
              CapsuleLocationFBase, FVector.OneVector⟩
          let MantleHeight := (CapsuleLocationFBase.sub s.ActorLocation).Z
          -- Step 4: Determine the Mantle Type by checking the movement mode and Mantle Height.
          let MantleType : EBMMantleType :=
            if s.MovementState = .InAir then .FallingCatch
            else if MantleHeight > 125 then .HighMantle else .LowMantle
          -- Step 5: If everything checks out, start the Mantle
          let MantleWS : FBMComponentAndTransform := ⟨HitComponent, TargetTransform⟩
          MantleStart fuel E MantleHeight MantleWS MantleType
          return true

/-- `ABMBaseCharacter::MantleEnd` (lines 1036-1040). -/
def MantleEnd (fuel : Nat) : Exec Unit :=
  -- Set the Character Movement Mode to Walking
  SetMovementMode fuel .MOVE_Walking

/-- `MantleComponentLocalToWorld` (lines 975-982).  The component is dereferenced without a
test. -/
def MantleComponentLocalToWorld (E : Engine) (CompAndTransform : FBMComponentAndTransform) :
    Exec FTransform := do
  let Component ← Exec.deref CompAndTransform.Component .LedgeComponent
  let InverseTransform := E.TransformInverse (E.GetComponentToWorld Component)
  let Location :=
    E.InverseTransformPosition InverseTransform CompAndTransform.Transform.Translation
  let Quat := E.InverseTransformRotation InverseTransform CompAndTransform.Transform.Rotation
  let Scale := E.InverseTransformPosition InverseTransform CompAndTransform.Transform.Scale3D
  return ⟨Quat, Location, Scale⟩

/-- `ABMBaseCharacter::MantleUpdate` (lines 984-1034).  The position/correction curve is
dereferenced without a test; the read of the curve is recorded in the log. -/
def MantleUpdate (E : Engine) (BlendIn : ℚ) : Exec Unit := do
  -- Step 1: Continually update the mantle target from the stored local transform
  let s ← Exec.this
  let Target ← MantleComponentLocalToWorld E s.MantleLedgeLS
  Exec.set fun s => { s with MantleTarget := Target }
  -- Step 2: Update the Position and Correction Alphas using the Position/Correction curve
  let s ← Exec.this
  let Curve ← Exec.deref s.MantleParams.PositionCorrectionCurve .PositionCorrectionCurve
  let InTime := Float32.Add s.MantleParams.StartingPosition s.MantleTimeline.PlaybackPosition
  Exec.log (.PositionCorrectionCurve_GetVectorValue Curve InTime)
  let CurveVec := E.GetVectorValue Curve InTime
  let PositionAlpha := CurveVec.X
  let XYCorrectionAlpha := CurveVec.Y
  let ZCorrectionAlpha := CurveVec.Z
  -- Step 3: Lerp multiple transforms together
  let TargetHzTransform : FTransform :=
    ⟨s.MantleAnimatedStartOffset.Rotation,
      ⟨s.MantleAnimatedStartOffset.Translation.X, s.MantleAnimatedStartOffset.Translation.Y,
        s.MantleActualStartOffset.Translation.Z⟩,
      FVector.OneVector⟩
  let HzLerpResult := E.TLerp s.MantleActualStartOffset TargetHzTransform XYCorrectionAlpha
  let TargetVtTransform : FTransform :=
    ⟨s.MantleActualStartOffset.Rotation,
      ⟨s.MantleActualStartOffset.Translation.X, s.MantleActualStartOffset.Translation.Y,
        s.MantleAnimatedStartOffset.Translation.Z⟩,
      FVector.OneVector⟩
  let VtLerpResult := E.TLerp s.MantleActualStartOffset TargetVtTransform ZCorrectionAlpha
  let ResultTransform : FTransform :=
    ⟨HzLerpResult.Rotation,
      ⟨HzLerpResult.Translation.X, HzLerpResult.Translation.Y, VtLerpResult.Translation.Z⟩,
      FVector.OneVector⟩
  let ResultLerp :=
    E.TLerp (TransfromAdd E s.MantleTarget ResultTransform) s.MantleTarget PositionAlpha
  let LerpedTarget :=
    E.TLerp (TransfromAdd E s.MantleTarget s.MantleActualStartOffset) ResultLerp BlendIn
  -- Step 4: Set the actors location and rotation to the Lerped Target.
  SetActorLocationAndTargetRotation LerpedTarget.Translation (E.QuatRotator LerpedTarget.Rotation)

/-- `ABMBaseCharacter::OnTimelineUpdated` (lines 620-623). -/
def OnTimelineUpdated (E : Engine) (BlendIn : ℚ) : Exec Unit :=
  MantleUpdate E BlendIn

/-- `ABMBaseCharacter::OnTimelineFinished` (lines 625-628). -/
def OnTimelineFinished (fuel : Nat) : Exec Unit :=
  MantleEnd fuel

/-! ## Rolls, jumps, landings and the end of the ragdoll -/

/-- `ABMBaseCharacter::OnBreakfall_Implementation` (lines 26-30).  The call is recorded in the
log. -/
def OnBreakfall_Implementation (E : Engine) : Exec Unit := do
  Exec.log .OnBreakfall
  let s ← Exec.this
  Exec.check s.MainAnimInstance.isSome .MainAnimInstance
  let _ ← Exec.deref s.MainAnimInstance .MainAnimInstance
  Exec.log (.Montage_Play E.GetRollAnimation (135 / 100) 0)

/-- `ABMBaseCharacter::OnRoll_Implementation` (lines 32-37).  The call is recorded in the
log. -/
def OnRoll_Implementation (E : Engine) : Exec Unit := do
  Exec.log .OnRoll
  -- Roll: Simply play a Root Motion Montage.
  let s ← Exec.this
  Exec.check s.MainAnimInstance.isSome .MainAnimInstance
  let _ ← Exec.deref s.MainAnimInstance .MainAnimInstance
  Exec.log (.Montage_Play E.GetRollAnimation (115 / 100) 0)

/-- `ABMBaseCharacter::GetAnimCurveValue` (lines 398-406). -/
def GetAnimCurveValue (CurveName : String) : Exec ℚ := do
  let s ← Exec.this
  if s.MainAnimInstance.isSome then
    let MainAnimInstance ← Exec.deref s.MainAnimInstance .MainAnimInstance
    return MainAnimInstance.GetCurveValue CurveName
  else
    return 0

/-- `ABMBaseCharacter::OnJumped_Implementation` (lines 579-588). -/
def OnJumped_Implementation : Exec Unit := do
  Exec.log .Super_OnJumped
  let s ← Exec.this
  Exec.check s.MainAnimInstance.isSome .MainAnimInstance
  -- Set the new In Air Rotation to the velocity rotation if speed is greater than 100.
  Exec.set fun s =>
    { s with InAirRotation := if s.Speed > 100 then s.LastVelocityRotation else s.ActorRotation }
  let _ ← Exec.deref s.MainAnimInstance .MainAnimInstance
  Exec.log .AnimInstance_OnJumped

/-- `ABMBaseCharacter::RagdollEnd` (lines 138-167). -/
def RagdollEnd (fuel : Nat) (E : Engine) : Exec Unit := do
  let s ← Exec.this
  if !s.MainAnimInstance.isSome then
    return
  else
    -- Step 1: Save a snapshot of the current Ragdoll Pose
    let _ ← Exec.deref s.MainAnimInstance .MainAnimInstance
    Exec.log .SavePoseSnapshot
    -- Step 2: If the ragdoll is on the ground, set the movement mode to walking and play a
    -- Get Up animation. If not, set the movement mode to falling and update the character
    -- movement velocity to match the last ragdoll velocity.
    if s.bRagdollOnGround then
      SetMovementMode fuel .MOVE_Walking
      let s ← Exec.this
      let _ ← Exec.deref s.MainAnimInstance .MainAnimInstance
      Exec.log (.Montage_Play (E.GetGetUpAnimation s.bRagdollFaceUp) 1 0)
    else
      SetMovementMode fuel .MOVE_Falling
      Exec.set fun s =>
        { s with CharacterMovement := { s.CharacterMovement with Velocity := s.LastRagdollVelocity } }
    -- Step 3: Re-Enable capsule collision, and disable physics simulation on the mesh.
    Exec.set fun s => { s with Capsule := { s.Capsule with CollisionEnabled := .QueryAndPhysics } }
    Exec.set fun s => { s with Mesh := { s.Mesh with CollisionObjectType := .ECC_Pawn } }
    Exec.set fun s => { s with Mesh := { s.Mesh with CollisionEnabled := .QueryOnly } }
    Exec.set fun s => { s with Mesh := { s.Mesh with bSimulatePhysics := false } }

/-- `ABMBaseCharacter::Landed` (lines 590-612).  `OnBreakfall` is the native event whose
implementation is `OnBreakfall_Implementation`; the timer manager is reached through the
world. -/
def Landed (fuel : Nat) (E : Engine) (Hit : FHitResult) : Exec Unit := do
  Exec.log (.Super_Landed Hit)
  let s ← Exec.this
  let VelZ := FMath.Abs s.CharacterMovement.Velocity.Z
  if s.bHasMovementInput ∧ VelZ ≥ 600 ∧ VelZ ≤ 1000 then
    OnBreakfall_Implementation E
  else if VelZ > 1000 then
    RagdollStart fuel
  else
    Exec.set fun s => { s with CharacterMovement := { s.CharacterMovement with
      BrakingFrictionFactor := if s.bHasMovementInput then 1 / 2 else 3 } }
    -- After 0.5 secs, reset braking friction factor to zero
    Exec.derefWorld
    Exec.set fun s => { s with
      OnLandedFrictionResetTimer := some ⟨.OnLandFrictionReset, 1 / 2, false⟩ }

/-- `ABMBaseCharacter::OnLandFrictionReset` (lines 614-618). -/
def OnLandFrictionReset : Exec Unit :=
  -- Reset the braking friction
  Exec.set fun s => { s with CharacterMovement := { s.CharacterMovement with
    BrakingFrictionFactor := 0 } }

/-- The member function a timer callback names. -/
def FTimerCallback.run : FTimerCallback → Exec Unit
  | .OnLandFrictionReset => ALSV4.OnLandFrictionReset

/-- The engine's timer manager when the timer behind `OnLandedFrictionResetTimer` expires: a
timer that does not loop is cleared, and the callback runs. -/
def OnLandedFrictionResetTimer_Expired : Exec Unit := do
  let s ← Exec.this
  match s.OnLandedFrictionResetTimer with
  | none => return
  | some Timer =>
    if !Timer.bLoop then
      Exec.set fun s => { s with OnLandedFrictionResetTimer := none }
    Timer.Callback.run

/-- `ABMBaseCharacter::SetMovementModel` (lines 245-252).  The data table is dereferenced
without a test. -/
def SetMovementModel (E : Engine) : Exec Unit := do
  let s ← Exec.this
  let DataTable ← Exec.deref s.MovementModel.DataTable .MovementModelDataTable
  let OutRow := E.FindRow DataTable s.MovementModel.RowName
  Exec.check OutRow.isSome .MovementModelRow
  let Row ← Exec.deref OutRow .MovementModelRow
  Exec.set fun s => { s with MovementData := Row }

/-- `ABMBaseCharacter::BeginPlay` (lines 39-86).  The calls that stay inside the engine are
recorded in the log. -/
def BeginPlay (E : Engine) : Exec Unit := do
  Exec.log .Super_BeginPlay
  Exec.log .MantleTimeline_SetTimelineFinishedFunc
  Exec.log (.MantleTimeline_SetLooping false)
  Exec.log .MantleTimeline_SetTimelineLengthMode
  Exec.log .MantleTimeline_AddInterpFloat
  -- Make sure the mesh and animbp update after the CharacterBP
  Exec.log .AddTickPrerequisiteActor
  -- Set Reference to the Main Anim Instance.
  let s ← Exec.this
  if s.MeshAnimInstance.isSome then
    Exec.set fun s => { s with
      MainAnimInstance := Cast_UBMCharacterAnimInstance s.MeshAnimInstance }
    let s ← Exec.this
    if s.bEnableOptimization then
      let _ ← Exec.deref s.MainAnimInstance .MainAnimInstance
      Exec.log .EnableOptimization
  -- Set the Movement Model
  SetMovementModel E
  -- Update states to use the initial desired values.
  let s ← Exec.this
  SetGait s.DesiredGait
  let s ← Exec.this
  SetRotationMode s.DesiredRotationMode
  let s ← Exec.this
  SetOverlayState s.OverlayState
  let s ← Exec.this
  if s.Stance = .Standing then
    Exec.log .UnCrouch
  else if s.Stance = .Crouching then
    Exec.log .Crouch
  -- Set default rotation values.
  Exec.set fun s => { s with TargetRotation := s.ActorRotation }
  Exec.set fun s => { s with LastVelocityRotation := s.TargetRotation }
  Exec.set fun s => { s with LastMovementInputRotation := s.TargetRotation }

/-! ## Tick -/

/-- `ABMBaseCharacter::DrawDebugSpheres` (lines 254-314): drawing only, compiled in when
`DEBUG_BASECHAR` is set. -/
def DrawDebugSpheres (E : Engine) : Exec Unit := do
  if E.DEBUG_BASECHAR then
    let s ← Exec.this
    Exec.check s.bWorldValid .World
    Exec.log .DrawDebugSpheres

/-- `ABMBaseCharacter::Tick` (lines 88-120). -/
def Tick (fuel : Nat) (E : Engine) (DeltaTime : ℚ) : Exec Unit := do
  Exec.log (.Super_Tick DeltaTime)
  -- Set required values
  SetEssentialValues E DeltaTime
  -- Cache values
  Exec.set fun s => { s with PreviousVelocity := s.ActorVelocity }
  Exec.set fun s => { s with PreviousAimYaw := s.ControlRotation.Yaw }
  let s ← Exec.this
  if s.MovementState = .Grounded then
    UpdateCharacterMovement E
    UpdateGroundedRotation E DeltaTime
  else if s.MovementState = .InAir then
    UpdateInAirRotation E DeltaTime
    -- Perform a mantle check if falling while movement input is pressed.
    let s ← Exec.this
    if s.bHasMovementInput then
      let _ ← MantleCheck fuel E s.FallingTraceSettings
  else if s.MovementState = .Ragdoll then
    RagdollUpdate E
  DrawDebugSpheres E

/-! ## Quantities named by the statements below -/

/-- The order of the gaits: Walking < Running < Sprinting. -/
def EBMGait.rank : EBMGait → Nat
  | .Walking => 0
  | .Running => 1
  | .Sprinting => 2

/-- The number of entries into `OnMovementStateChanged` recorded in a log. -/
def CountMovementStateHooks (l : List Event) : Nat :=
  l.countP fun e =>
    match e with
    | .OnMovementStateChanged _ => true
    | _ => false

/-- The state `Tick` hands to the state-specific update: after the base class tick,
`SetEssentialValues` and the caching of `PreviousVelocity` and `PreviousAimYaw`
(lines 90-97). -/
def TickPrologue (E : Engine) (DeltaTime : ℚ) : Exec Unit := do
  Exec.log (.Super_Tick DeltaTime)
  SetEssentialValues E DeltaTime
  Exec.set fun s => { s with PreviousVelocity := s.ActorVelocity }
  Exec.set fun s => { s with PreviousAimYaw := s.ControlRotation.Yaw }

/-- The hit of the forward trace of `MantleCheck` (step 1, lines 890-905) when the player
controller reports the movement input `Input`. -/
def MantleForwardHit (E : Engine) (TraceSettings : FBMMantleTraceSettings) (s : ABMBaseCharacter)
    (Input : FVector) : FHitResult :=
  let CapsuleBaseLocation := GetCapsuleBaseLocation 2 s
  let TraceStart0 := CapsuleBaseLocation.add (Input.scale (-30))
  let TraceStart : FVector :=
    { TraceStart0 with
      Z := Float32.Add TraceStart0.Z
        (Float32.Div (Float32.Add TraceSettings.MaxLedgeHeight TraceSettings.MinLedgeHeight) 2) }
  let TraceEnd := TraceStart.add (Input.scale TraceSettings.ReachDistance)
  let HalfHeight :=
    Float32.Add 1
      (Float32.Div (Float32.Sub TraceSettings.MaxLedgeHeight TraceSettings.MinLedgeHeight) 2)
  E.SweepSingleByChannel TraceStart TraceEnd .ECC_GameTraceChannel2
    (.Capsule TraceSettings.ForwardTraceRadius HalfHeight)

/-- The hit of the downward trace of `MantleCheck` (step 2, lines 913-924). -/
def MantleDownwardHit (E : Engine) (TraceSettings : FBMMantleTraceSettings) (s : ABMBaseCharacter)
    (Input : FVector) : FHitResult :=
  let CapsuleBaseLocation := GetCapsuleBaseLocation 2 s
  let ForwardHit := MantleForwardHit E TraceSettings s Input
  let DownwardTraceEnd : FVector :=
    ({ ForwardHit.ImpactPoint with Z := CapsuleBaseLocation.Z } : FVector).add
      (ForwardHit.ImpactNormal.scale (-15))
  let DownwardTraceStart : FVector :=
    { DownwardTraceEnd with
      Z := Float32.Add DownwardTraceEnd.Z
        (Float32.Add (Float32.Add TraceSettings.MaxLedgeHeight TraceSettings.DownwardTraceRadius)
          1) }
  E.SweepSingleByChannel DownwardTraceStart DownwardTraceEnd .ECC_GameTraceChannel2
    (.Sphere TraceSettings.DownwardTraceRadius)

/-- The capsule location standing on the ledge that `MantleCheck` computes (step 3,
lines 933-938). -/
def MantleCapsuleLocation (E : Engine) (TraceSettings : FBMMantleTraceSettings)
    (s : ABMBaseCharacter) (Input : FVector) : FVector :=
  let DownHit := MantleDownwardHit E TraceSettings s Input
  GetCapsuleLocationFromBase ⟨DownHit.Location.X, DownHit.Location.Y, DownHit.ImpactPoint.Z⟩ 2 s

/-- The hit of the room sweep `CapsuleHasRoomCheck` makes for `MantleCheck` (step 3,
lines 939-940 and 1046-1061). -/
def MantleRoomHit (E : Engine) (TraceSettings : FBMMantleTraceSettings) (s : ABMBaseCharacter)
    (Input : FVector) : FHitResult :=
  let TargetLocation := MantleCapsuleLocation E TraceSettings s Input
  let ZTarget :=
    Float32.Add (Float32.Sub s.Capsule.ScaledCapsuleHalfHeight_WithoutHemisphere 0) 0
  E.SweepSingleByProfile { TargetLocation with Z := Float32.Add TargetLocation.Z ZTarget }
    { TargetLocation with Z := Float32.Sub TargetLocation.Z ZTarget }
    (.Sphere (Float32.Add s.Capsule.UnscaledCapsuleRadius 0))

/-- The mantle height `MantleCheck` computes (line 953). -/
def MantleHeightOf (E : Engine) (TraceSettings : FBMMantleTraceSettings) (s : ABMBaseCharacter)
    (Input : FVector) : ℚ :=
  ((MantleCapsuleLocation E TraceSettings s Input).sub s.ActorLocation).Z

/-- The mantle type `MantleCheck` selects for a mantle height (step 4, lines 955-964). -/
def MantleTypeOf (s : ABMBaseCharacter) (MantleHeight : ℚ) : EBMMantleType :=
  if s.MovementState = .InAir then .FallingCatch
  else if MantleHeight > 125 then .HighMantle else .LowMantle

/-- The world-space ledge `MantleCheck` hands to `MantleStart` (lines 948-951 and 967-969). -/
def MantleLedgeOf (E : Engine) (TraceSettings : FBMMantleTraceSettings) (s : ABMBaseCharacter)
    (Input : FVector) : FBMComponentAndTransform :=
  ⟨(MantleDownwardHit E TraceSettings s Input).Component,
    ⟨E.RotatorQuaternion
        (E.ToOrientationRotator
          ((MantleForwardHit E TraceSettings s Input).ImpactNormal.mul ⟨-1, -1, 0⟩)),
      MantleCapsuleLocation E TraceSettings s Input, FVector.OneVector⟩⟩

/-! ## Concrete inputs -/

namespace Example

/-- A movement settings record with the given walk speed (run 375, sprint 650). -/
def Settings (WalkSpeed : ℚ) : FBMMovementSettings :=
  ⟨WalkSpeed, 375, 650, some 1, some 2⟩

/-- A movement model whose six records differ in their walk speed. -/
def MovementData : FBMMovementStateSettings :=
  ⟨⟨Settings 165, Settings 150⟩, ⟨Settings 166, Settings 151⟩, ⟨Settings 167, Settings 152⟩⟩

/-- A mantle asset with a montage and a position/correction curve. -/
def MantleAsset : FBMMantleAsset :=
  { AnimMontage := some 4
    PositionCorrectionCurve := some 3
    StartingOffset := ⟨0, 65, 100⟩
    LowHeight := 50
    LowPlayRate := 1
    LowStartPosition := 1 / 2
    HighHeight := 100
    HighPlayRate := 1
    HighStartPosition := 0 }

/-- A hit that blocks nothing. -/
def NoHit : FHitResult :=
  ⟨false, false, ⟨0, 0, 0⟩, ⟨0, 0, 0⟩, ⟨0, 0, 0⟩, ⟨0, 0, 0⟩, none⟩

/-- A blocking hit on a vertical wall facing the character. -/
def WallHit : FHitResult :=
  ⟨true, false, ⟨40, 0, 50⟩, ⟨50, 0, 50⟩, ⟨-1, 0, 0⟩, ⟨0, 0, 50⟩, some 7⟩

/-- A blocking hit on the flat top of the wall. -/
def LedgeHit : FHitResult :=
  ⟨true, false, ⟨65, 0, 130⟩, ⟨65, 0, 100⟩, ⟨0, 0, 1⟩, ⟨65, 0, 200⟩, some 7⟩

/-- A world with a wall in front of the character and a flat ledge on top of it: capsule sweeps
hit the wall, sphere sweeps hit the ledge, and there is room above the ledge.  Sizes are
measured along the axes, rotations are kept as they are, and ranges are mapped by the clamped
linear map over exact arithmetic. -/
def World : Engine :=
  { VectorSize := fun v => FMath.Abs v.X + FMath.Abs v.Y + FMath.Abs v.Z
    VectorSize2D := fun v => FMath.Abs v.X + FMath.Abs v.Y
    ToOrientationRotator := fun _ => ⟨0, 0, 0⟩
    QuatRotator := fun q => ⟨q.Y, q.Z, q.X⟩
    RotatorQuaternion := fun r => ⟨r.Roll, r.Pitch, r.Yaw, 1⟩
    QuatVector := fun _ => ⟨1, 0, 0⟩
    VectorDivide := fun _ _ => ⟨.Finite 0, .Finite 0, .Finite 0⟩
    NormalizeRotator := fun r => r
    GetMappedRangeValueClamped := fun InputRange OutputRange Value =>
      match Value with
      | .Finite v => FMath.GetMappedRangeValueClamped InputRange OutputRange v
      | .NegInf => OutputRange.1
      | _ => OutputRange.2
    TransformMultiply := fun a _ => a
    TransformInverse := fun a => a
    InverseTransformPosition := fun _ v => v
    InverseTransformRotation := fun _ q => q
    TLerp := fun a b Alpha =>
      ⟨b.Rotation,
        a.Translation.add ((b.Translation.sub a.Translation).scale Alpha),
        a.Scale3D.add ((b.Scale3D.sub a.Scale3D).scale Alpha)⟩
    FindRow := fun _ _ => some MovementData
    RInterpTo := fun _ Target _ _ => Target
    RInterpConstantTo := fun _ Target _ _ => Target
    AddWorldRotation := fun a b => a.add b
    GetVectorValue := fun _ _ => ⟨1, 1, 1⟩
    GetFloatValue := fun _ _ => 1
    GetTimeRange := fun _ => (0, 1)
    SweepSingleByChannel := fun _ _ _ Shape =>
      match Shape with
      | .Capsule _ _ => WallHit
      | .Sphere _ => LedgeHit
    SweepSingleByProfile := fun _ _ _ => NoHit
    LineTraceSingleByChannel := fun _ _ _ => NoHit
    IsWalkable := fun h => h.IsValidBlockingHit && (h.ImpactNormal.Z > 7 / 10 : Bool)
    GetComponentToWorld := fun _ => ⟨⟨0, 0, 0, 1⟩, ⟨0, 0, 0⟩, ⟨1, 1, 1⟩⟩
    GetSpeedForGait := fun S G =>
      match G with
      | .Walking => S.WalkSpeed
      | .Running => S.RunSpeed
      | .Sprinting => S.SprintSpeed
    GetMantleAsset := fun _ => MantleAsset
    GetRollAnimation := some 5
    GetGetUpAnimation := fun _ => some 6
    DEBUG_BASECHAR := false }

/-- The same world with an obstacle above the ledge: the room sweep is blocked. -/
def WorldNoRoom : Engine :=
  { World with SweepSingleByProfile := fun _ _ _ => WallHit }

/-- The trace settings used for the concrete inputs. -/
def TraceSettings : FBMMantleTraceSettings :=
  ⟨150, 50, 70, 30, 30⟩

/-- A standing, grounded character at the origin, walking forward with full input. -/
def Character : ABMBaseCharacter :=
  { MovementState := .Grounded
    PrevMovementState := .Grounded
    MovementAction := .None
    Stance := .Standing
    DesiredStance := .Standing
    RotationMode := .VelocityDirection
    DesiredRotationMode := .VelocityDirection
    Gait := .Walking
    DesiredGait := .Running
    OverlayState := ⟨0⟩
    MovementData := MovementData
    CurrentMovementSettings := Settings 165
    bEnableOptimization := false
    MovementModel := ⟨some 8, "Normal"⟩
    Acceleration := ⟨.Finite 0, .Finite 0, .Finite 0⟩
    bIsMoving := true
    bHasMovementInput := true
    Speed := 165
    MovementInputAmount := .Finite 1
    AimYawRate := .Finite 0
    LastVelocityRotation := ⟨0, 0, 0⟩
    LastMovementInputRotation := ⟨0, 0, 0⟩
    TargetRotation := ⟨0, 0, 0⟩
    InAirRotation := ⟨0, 0, 0⟩
    bAllowMantle := true
    GroundedTraceSettings := TraceSettings
    FallingTraceSettings := TraceSettings
    MantleParams := ⟨none, none, 0, 1, ⟨0, 0, 0⟩⟩
    MantleLedgeLS := ⟨none, ⟨⟨0, 0, 0, 1⟩, ⟨0, 0, 0⟩, ⟨1, 1, 1⟩⟩⟩
    MantleTarget := ⟨⟨0, 0, 0, 1⟩, ⟨0, 0, 0⟩, ⟨1, 1, 1⟩⟩
    MantleActualStartOffset := ⟨⟨0, 0, 0, 1⟩, ⟨0, 0, 0⟩, ⟨1, 1, 1⟩⟩
    MantleAnimatedStartOffset := ⟨⟨0, 0, 0, 1⟩, ⟨0, 0, 0⟩, ⟨1, 1, 1⟩⟩
    bRagdollOnGround := false
    bRagdollFaceUp := false
    LastRagdollVelocity := ⟨0, 0, 0⟩
    PreviousVelocity := ⟨165, 0, 0⟩
    PreviousAimYaw := 0
    MainAnimInstance := some ⟨[]⟩
    MeshAnimInstance := some (.BMCharacter ⟨[]⟩)
    CharacterMovement := ⟨.MOVE_Walking, ⟨165, 0, 0⟩, ⟨2048, 0, 0⟩, 2048, 165, 165, 2048, 8, 0⟩
    Capsule := ⟨.QueryAndPhysics, ⟨0, 0, 1⟩, 90, 60, 30⟩
    Mesh := ⟨.ECC_Pawn, .QueryOnly, false, true, 0, ⟨0, 0, 0⟩, ⟨0, 0, 0⟩, ⟨0, 0, 0⟩⟩
    MantleTimeline := ⟨0, 1, 0, false⟩
    PlayerController := some ⟨⟨1, 0, 0⟩⟩
    bWorldValid := true
    ActorLocation := ⟨0, 0, 92⟩
    ActorRotation := ⟨0, 0, 0⟩
    ActorScale3D := ⟨1, 1, 1⟩
    ActorVelocity := ⟨165, 0, 0⟩
    ControlRotation := ⟨0, 0, 0⟩
    bHasAnyRootMotion := false
    OnLandedFrictionResetTimer := none
    Log := [] }

/-- The character in the middle of a roll. -/
def Rolling : ABMBaseCharacter :=
  { Character with MovementAction := .Rolling }

end Example

/-! ## States and inputs named by the later statements -/

/-- The character after steps 1 and 2 of `RagdollStart` (lines 124-132), before the animation
instance is touched. -/
def RagdollStarted (s : ABMBaseCharacter) : ABMBaseCharacter :=
  { s with
    PrevMovementState :=
      if s.MovementState = .Ragdoll then s.PrevMovementState else s.MovementState
    MovementState := .Ragdoll
    CharacterMovement := { s.CharacterMovement with MovementMode := .MOVE_None }
    Capsule := { s.Capsule with CollisionEnabled := .NoCollision }
    Mesh := { s.Mesh with
      CollisionObjectType := .ECC_PhysicsBody
      CollisionEnabled := .QueryAndPhysics
      bSimulatePhysics := true }
    MantleTimeline :=
      if s.MovementState = .Mantling then { s.MantleTimeline with bPlaying := false }
      else s.MantleTimeline
    Log := s.Log ++ [.RagdollStart] ++
      (if s.CharacterMovement.MovementMode = .MOVE_None then []
        else [.Super_OnMovementModeChanged s.CharacterMovement.MovementMode]) ++
      (if s.MovementState = .Ragdoll then [] else [.OnMovementStateChanged s.MovementState]) }

/-- The character after its movement mode changed to `NewMovementMode` and the base class was
told (the engine's `SetMovementMode` and line 486). -/
def ModeChanged (NewMovementMode : EMovementMode) (s : ABMBaseCharacter) : ABMBaseCharacter :=
  { s with
    CharacterMovement := { s.CharacterMovement with MovementMode := NewMovementMode }
    Log := s.Log ++ [.Super_OnMovementModeChanged s.CharacterMovement.MovementMode] }

/-- The character after its movement state changed to `NewState` and the hook was entered
(lines 173-175 and 504). -/
def StateChanged (NewState : EBMMovementState) (s : ABMBaseCharacter) : ABMBaseCharacter :=
  { s with
    PrevMovementState := s.MovementState
    MovementState := NewState
    Log := s.Log ++ [.OnMovementStateChanged s.MovementState] }

/-- The hit of the downward trace of `SetActorLocationDuringRagdoll` (lines 459-467): from the
pelvis to the capsule half height below it. -/
def RagdollTraceHit (E : Engine) (s : ABMBaseCharacter) : FHitResult :=
  E.LineTraceSingleByChannel s.Mesh.PelvisLocation
    ⟨s.Mesh.PelvisLocation.X, s.Mesh.PelvisLocation.Y,
      Float32.Sub s.Mesh.PelvisLocation.Z s.Capsule.ScaledCapsuleHalfHeight⟩
    .ECC_Visibility

/-- The distance `ImpactDistZ` between the impact point and the start of that trace
(line 473). -/
def RagdollImpactDistZ (E : Engine) (s : ABMBaseCharacter) : ℚ :=
  FMath.Abs (Float32.Sub (RagdollTraceHit E s).ImpactPoint.Z (RagdollTraceHit E s).TraceStart.Z)

/-- The offset `GetScaledCapsuleHalfHeight() - ImpactDistZ + 2.0f` that is added to the height
of the pelvis (line 475). -/
def RagdollZOffset (E : Engine) (s : ABMBaseCharacter) : ℚ :=
  Float32.Add (Float32.Sub s.Capsule.ScaledCapsuleHalfHeight (RagdollImpactDistZ E s)) 2

/-- None of the single-precision operations of `SetActorLocationDuringRagdoll` on the heights
(lines 459 and 473-475) overflows. -/
def RagdollHeightsInRange (E : Engine) (s : ABMBaseCharacter) : Prop :=
  Float32.InRange (Float32.Sub s.Mesh.PelvisLocation.Z s.Capsule.ScaledCapsuleHalfHeight) ∧
  Float32.InRange
    (Float32.Sub (RagdollTraceHit E s).ImpactPoint.Z (RagdollTraceHit E s).TraceStart.Z) ∧
  Float32.InRange (Float32.Sub s.Capsule.ScaledCapsuleHalfHeight (RagdollImpactDistZ E s)) ∧
  Float32.InRange (RagdollZOffset E s) ∧
  Float32.InRange (Float32.Add s.Mesh.PelvisLocation.Z (RagdollZOffset E s))

instance (E : Engine) (s : ABMBaseCharacter) : Decidable (RagdollHeightsInRange E s) := by
  unfold RagdollHeightsInRange
  infer_instance

namespace Example

/-- The character without an animation instance. -/
def NoAnim : ABMBaseCharacter :=
  { Character with MainAnimInstance := none }

/-- The character as a ragdoll in the air: movement mode None, physics on the mesh, the last
ragdoll velocity pointing down. -/
def Ragdolled : ABMBaseCharacter :=
  { Character with
    MovementState := .Ragdoll
    PrevMovementState := .InAir
    CharacterMovement := ⟨.MOVE_None, ⟨0, 0, 0⟩, ⟨0, 0, 0⟩, 2048, 165, 165, 2048, 8, 0⟩
    Capsule := ⟨.NoCollision, ⟨0, 0, 1⟩, 90, 60, 30⟩
    Mesh := ⟨.ECC_PhysicsBody, .QueryAndPhysics, true, true, 0, ⟨0, 0, 300⟩, ⟨0, 0, 0⟩,
      ⟨0, 0, -300⟩⟩
    bRagdollOnGround := false
    LastRagdollVelocity := ⟨0, 0, -300⟩ }

/-- The same ragdoll while the movement action is still Rolling. -/
def RagdolledRolling : ABMBaseCharacter :=
  { Ragdolled with MovementAction := .Rolling }

/-- The character at the moment it lands softly: falling at 300 units per second. -/
def SoftLanding : ABMBaseCharacter :=
  { Character with
    CharacterMovement := ⟨.MOVE_Falling, ⟨100, 0, -300⟩, ⟨2048, 0, 0⟩, 2048, 165, 165, 2048, 8, 0⟩ }

/-- The character without an animation instance at the moment it lands hard: falling at 1200
units per second. -/
def HardLandingNoAnim : ABMBaseCharacter :=
  { NoAnim with
    CharacterMovement := ⟨.MOVE_Falling, ⟨100, 0, -1200⟩, ⟨2048, 0, 0⟩, 2048, 165, 165, 2048, 8,
      0⟩ }

/-- The world with a floor at height 250 that every line trace hits right below its start. -/
def Floor : Engine :=
  { World with
    LineTraceSingleByChannel := fun Start _ _ =>
      ⟨true, false, ⟨Start.X, Start.Y, 250⟩, ⟨Start.X, Start.Y, 250⟩, ⟨0, 0, 1⟩, Start,
        some 9⟩ }

/-- The world with a floor at height 999.9 (as a single-precision number) that every line trace
hits right below its start. -/
def FloorNear : Engine :=
  { World with
    LineTraceSingleByChannel := fun Start _ _ =>
      ⟨true, false, ⟨Start.X, Start.Y, 8191181 / 8192⟩, ⟨Start.X, Start.Y, 8191181 / 8192⟩,
        ⟨0, 0, 1⟩, Start, some 9⟩ }

/-- The ragdoll with its pelvis at height 1000.3 and the capsule half height 88.7 (as
single-precision numbers). -/
def RagdolledNear : ABMBaseCharacter :=
  { Ragdolled with
    Capsule := ⟨.NoCollision, ⟨0, 0, 1⟩, 5813043 / 65536, 60, 30⟩
    Mesh := ⟨.ECC_PhysicsBody, .QueryAndPhysics, true, true, 0, ⟨0, 0, 16388915 / 16384⟩,
      ⟨0, 0, 0⟩, ⟨0, 0, -300⟩⟩ }

/-- The ledge on top of the wall, in world space, on the component 7. -/
def Ledge : FBMComponentAndTransform :=
  ⟨some 7, ⟨⟨0, 0, 0, 1⟩, ⟨65, 0, 192⟩, ⟨1, 1, 1⟩⟩⟩

/-- The character at the speed 521.4807 with the run speed 511.48068 (both single-precision
numbers): the speed is above the exact sum RunSpeed + 10 and equal to the single-precision
sum. -/
def AtRunThreshold : ABMBaseCharacter :=
  { Character with
    Speed := 2135985 / 4096
    CurrentMovementSettings := ⟨165, 16760199 / 32768, 650, some 1, some 2⟩ }

/-- The character at the speed 128.399994 with the walk speed 118.4 (both single-precision
numbers): the speed is below the exact sum WalkSpeed + 10 and equal to the single-precision
sum. -/
def AtWalkThreshold : ABMBaseCharacter :=
  { Character with
    Speed := 4207411 / 32768
    CurrentMovementSettings := ⟨15518925 / 131072, 375, 650, some 1, some 2⟩ }

/-- The world in which the acceleration points to the yaw 50. -/
def WorldYaw50 : Engine :=
  { World with ToOrientationRotator := fun _ => ⟨0, 50, 0⟩ }

/-- The character in LookingDirection mode with the control yaw 1e-7 (as a single-precision
number). -/
def LookingAside : ABMBaseCharacter :=
  { Character with
    RotationMode := .LookingDirection
    ControlRotation := ⟨0, 14073749 / 140737488355328, 0⟩ }

/-- A blocking hit on the flat top of a wall at the height 125 + 2^-17 (a single-precision
number). -/
def LedgeHit125 : FHitResult :=
  ⟨true, false, ⟨65, 0, 130⟩, ⟨65, 0, 16384001 / 131072⟩, ⟨0, 0, 1⟩, ⟨65, 0, 200⟩, some 7⟩

/-- The world with that ledge on top of the wall. -/
def WorldLedge125 : Engine :=
  { World with
    SweepSingleByChannel := fun _ _ _ Shape =>
      match Shape with
      | .Capsule _ _ => WallHit
      | .Sphere _ => LedgeHit125 }

/-- The mantle asset whose low starting position is 0.0097 (as a single-precision number). -/
def MantleAssetLate : FBMMantleAsset :=
  { MantleAsset with LowStartPosition := 162739 / 16777216 }

/-- The world with that mantle asset, in which the time range of every curve ends at 1.1 (as a
single-precision number). -/
def WorldLongCurve : Engine :=
  { World with
    GetTimeRange := fun _ => (0, 9227469 / 8388608)
    GetMantleAsset := fun _ => MantleAssetLate }

/-- The character in that world at the end of the timeline of a mantle of height 40: after
`MantleStart`, with the playback position at the timeline length. -/
def MantleAtTimelineEnd : ABMBaseCharacter :=
  { (MantleStart 2 WorldLongCurve 40 Ledge .LowMantle Character).state with
    MantleTimeline :=
      { (MantleStart 2 WorldLongCurve 40 Ledge .LowMantle Character).state.MantleTimeline with
        PlaybackPosition :=
          (MantleStart 2 WorldLongCurve 40 Ledge .LowMantle
            Character).state.MantleTimeline.Length } }

end Example

/-! ## Lemmas on runs -/

namespace Exec

@[simp] theorem pure_eq {α : Type} (a : α) : (pure a : Exec α) = Exec.ret a := rfl

@[simp] theorem bind_eq {α β : Type} (x : Exec α) (f : α → Exec β) :
    x >>= f = Exec.andThen x f := rfl

@[simp] theorem ret_apply {α : Type} (a : α) (s : ABMBaseCharacter) :
    Exec.ret a s = .ok a s := rfl

@[simp] theorem andThen_apply {α β : Type} (x : Exec α) (f : α → Exec β)
    (s : ABMBaseCharacter) :
    Exec.andThen x f s =
      match x s with
      | .ok a s1 => f a s1
      | .halt e s1 => .halt e s1 := rfl

@[simp] theorem this_apply (s : ABMBaseCharacter) : Exec.this s = .ok s s := rfl

@[simp] theorem set_apply (f : ABMBaseCharacter → ABMBaseCharacter) (s : ABMBaseCharacter) :
    Exec.set f s = .ok () (f s) := rfl

@[simp] theorem log_apply (e : Event) (s : ABMBaseCharacter) :
    Exec.log e s = .ok () { s with Log := s.Log ++ [e] } := rfl

@[simp] theorem halt_apply {α : Type} (f : Fault) (s : ABMBaseCharacter) :
    (Exec.halt f : Exec α) s = .halt f s := rfl

@[simp] theorem ite_apply {α : Type} (c : Prop) [Decidable c] (x y : Exec α)
    (s : ABMBaseCharacter) :
    (if c then x else y) s = if c then x s else y s := by
  split <;> rfl

@[simp] theorem check_apply (cond : Bool) (site : Site) (s : ABMBaseCharacter) :
    Exec.check cond site s = if cond then .ok () s else .halt (.CheckFailed site) s := by
  unfold Exec.check
  split <;> rfl

@[simp] theorem deref_some {α : Type} (a : α) (site : Site) (s : ABMBaseCharacter) :
    Exec.deref (some a) site s = .ok a s := rfl

@[simp] theorem deref_none {α : Type} (site : Site) (s : ABMBaseCharacter) :
    Exec.deref (none : Option α) site s = .halt (.NullDeref site) s := rfl

end Exec

/-! ## Lemmas on the engine math -/

theorem FMath.Abs_eq_abs (x : ℚ) : FMath.Abs x = |x| := by
  unfold FMath.Abs
  split_ifs with h
  · exact (abs_of_neg h).symm
  · exact (abs_of_nonneg (not_lt.mp h)).symm

/-- Inside a proper input range the clamped map is the linear map. -/
theorem FMath.GetMappedRangeValueClamped_inside (a b c d v : ℚ) (hab : a < b) (h1 : a ≤ v)
    (h2 : v ≤ b) :
    FMath.GetMappedRangeValueClamped (a, b) (c, d) v = c + (v - a) / (b - a) * (d - c) := by
  have hd : b - a ≠ 0 := by linarith
  have hpos : 0 < b - a := by linarith
  have h0 : 0 ≤ (v - a) / (b - a) := div_nonneg (by linarith) hpos.le
  have h1 : (v - a) / (b - a) ≤ 1 := by
    rw [div_le_one hpos]; linarith
  simp only [FMath.GetMappedRangeValueClamped, FMath.GetRangePct, FMath.Clamp, FMath.Lerp, hd,
    if_false, not_lt.mpr h0]
  split_ifs with h3
  · rfl
  · have : (v - a) / (b - a) = 1 := le_antisymm h1 (not_lt.mp h3)
    rw [this]

/-- Above a proper input range the clamped map is the upper output bound. -/
theorem FMath.GetMappedRangeValueClamped_above (a b c d v : ℚ) (hab : a < b) (h2 : b ≤ v) :
    FMath.GetMappedRangeValueClamped (a, b) (c, d) v = d := by
  have hd : b - a ≠ 0 := by linarith
  have hpos : 0 < b - a := by linarith
  have h1 : 1 ≤ (v - a) / (b - a) := by
    rw [one_le_div hpos]; linarith
  have h0 : ¬ (v - a) / (b - a) < 0 := by linarith
  have h3 : ¬ (v - a) / (b - a) < 1 := by linarith
  simp only [FMath.GetMappedRangeValueClamped, FMath.GetRangePct, FMath.Clamp, FMath.Lerp, hd,
    if_false, h0, h3]
  ring

/-! ## Lemmas on single precision -/

namespace Float32

theorem RoundHalfEven_eq (q : ℚ) (m : ℤ) (h : |q - m| < 1 / 2) : RoundHalfEven q = m := by
  have h1 := abs_lt.mp h
  have hf1 : (⌊q⌋ : ℚ) ≤ q := Int.floor_le q
  have hf2 : q < ⌊q⌋ + 1 := Int.lt_floor_add_one q
  have hc : ⌊q⌋ = m ∨ ⌊q⌋ = m - 1 := by
    have a1 : (⌊q⌋ : ℚ) < m + 1 := by linarith [h1.2]
    have a2 : (m : ℚ) - 2 < ⌊q⌋ := by linarith [h1.1]
    have b1 : ⌊q⌋ < m + 1 := by exact_mod_cast a1
    have b2 : m - 2 < ⌊q⌋ := by exact_mod_cast a2
    omega
  unfold RoundHalfEven
  rcases hc with hc | hc
  · rw [if_pos]
    · exact hc
    · rw [hc]; linarith [h1.2]
  · have hc2 : (⌊q⌋ : ℚ) = m - 1 := by rw [hc]; push_cast; ring
    rw [if_neg, if_pos]
    · omega
    · rw [hc2]; linarith [h1.1]
    · rw [hc2]; linarith [h1.1]

theorem abs_RoundHalfEven_sub_le (q : ℚ) : |(RoundHalfEven q : ℚ) - q| ≤ 1 / 2 := by
  have hf1 : (⌊q⌋ : ℚ) ≤ q := Int.floor_le q
  have hf2 : q < ⌊q⌋ + 1 := Int.lt_floor_add_one q
  unfold RoundHalfEven
  rw [abs_le]
  split_ifs with a b c
  · constructor <;> linarith
  · push_cast; constructor <;> linarith
  · constructor <;> linarith
  · push_cast; constructor <;> linarith

theorem Ulp_pos (x : ℚ) : 0 < Ulp x := by
  unfold Ulp
  positivity

/-- Rounding moves a value by at most half a unit in the last place. -/
theorem abs_Round_sub_le (x : ℚ) : |Round x - x| ≤ Ulp x / 2 := by
  have hu := Ulp_pos x
  have h := abs_RoundHalfEven_sub_le (x / Ulp x)
  have e : Round x - x = ((RoundHalfEven (x / Ulp x) : ℚ) - x / Ulp x) * Ulp x := by
    unfold Round
    field_simp
  rw [e, abs_mul, abs_of_pos hu]
  calc |(RoundHalfEven (x / Ulp x) : ℚ) - x / Ulp x| * Ulp x ≤ 1 / 2 * Ulp x :=
        mul_le_mul_of_nonneg_right h hu.le
    _ = Ulp x / 2 := by ring

theorem Exponent_eq (x : ℚ) (e : ℤ) (he : -126 ≤ e) (h1 : 2 ^ e ≤ x ∨ 2 ^ e ≤ -x)
    (h2 : -2 ^ (e + 1) < x ∧ x < 2 ^ (e + 1)) : Exponent x = e := by
  have h1 : (2 : ℚ) ^ e ≤ |x| := le_abs.mpr h1
  have h2 : |x| < (2 : ℚ) ^ (e + 1) := abs_lt.mpr h2
  have hpos : 0 < |x| := lt_of_lt_of_le (by positivity) h1
  have hx : x ≠ 0 := abs_pos.mp hpos
  have a1 : e ≤ Int.log 2 |x| :=
    (Int.zpow_le_iff_le_log (by norm_num) hpos).mp (by exact_mod_cast h1)
  have a2 : Int.log 2 |x| < e + 1 :=
    (Int.lt_zpow_iff_log_lt (by norm_num) hpos).mp (by exact_mod_cast h2)
  unfold Exponent
  rw [if_neg hx]
  omega

theorem Exponent_subnormal (x : ℚ) (h : -2 ^ (-126 : ℤ) < x ∧ x < 2 ^ (-126 : ℤ)) :
    Exponent x = -126 := by
  have h : |x| < (2 : ℚ) ^ (-126 : ℤ) := abs_lt.mpr h
  unfold Exponent
  by_cases hx : x = 0
  · rw [if_pos hx]
  · rw [if_neg hx]
    have hpos : 0 < |x| := abs_pos.mpr hx
    have a2 : Int.log 2 |x| < -126 :=
      (Int.lt_zpow_iff_log_lt (by norm_num) hpos).mp (by exact_mod_cast h)
    omega

/-- The value of `Round` at `x`, from the binade of `x` and the nearest multiple of its unit. -/
theorem Round_eq (x : ℚ) (e m : ℤ) (he : -126 ≤ e) (h1 : 2 ^ e ≤ x ∨ 2 ^ e ≤ -x)
    (h2 : -2 ^ (e + 1) < x ∧ x < 2 ^ (e + 1))
    (hm : -(1 / 2) < x / 2 ^ (e - 23) - m ∧ x / 2 ^ (e - 23) - m < 1 / 2) :
    Round x = m * 2 ^ (e - 23) := by
  unfold Round Ulp
  rw [Exponent_eq x e he h1 h2, RoundHalfEven_eq _ m (abs_lt.mpr hm)]

theorem Round_zero : Round 0 = 0 := by
  simp [Round, RoundHalfEven]

theorem RoundHalfEven_intCast (n : ℤ) : RoundHalfEven (n : ℚ) = n :=
  RoundHalfEven_eq _ n (by simp)

/-- A value that is a whole multiple of the unit of its binade is a single-precision number. -/
theorem Round_eq_self (x : ℚ) (e m : ℤ) (he : -126 ≤ e) (h1 : 2 ^ e ≤ x ∨ 2 ^ e ≤ -x)
    (h2 : -2 ^ (e + 1) < x ∧ x < 2 ^ (e + 1)) (hm : x = m * 2 ^ (e - 23)) : Round x = x := by
  have hne : (2 : ℚ) ^ (e - 23) ≠ 0 := by positivity
  rw [Round_eq x e m he h1 h2, ← hm]
  rw [hm, mul_div_assoc, div_self hne]
  norm_num

/-- Whole numbers below 2^24 are single-precision numbers. -/
theorem Round_natCast (n : ℕ) (h : n < 2 ^ 24) : Round (n : ℚ) = n := by
  rcases Nat.eq_zero_or_pos n with h0 | hpos
  · subst h0
    simpa using Round_zero
  have hq : (0 : ℚ) < n := by exact_mod_cast hpos
  have h1q : (1 : ℚ) ≤ n := by exact_mod_cast hpos
  have hlo : (2 : ℚ) ^ Int.log 2 (n : ℚ) ≤ n := Int.zpow_log_le_self (by norm_num) hq
  have hhi : (n : ℚ) < 2 ^ (Int.log 2 (n : ℚ) + 1) := Int.lt_zpow_succ_log_self (by norm_num) _
  have he0 : 0 ≤ Int.log 2 (n : ℚ) := by
    have : (0 : ℤ) ≤ Int.log 2 (n : ℚ) :=
      (Int.zpow_le_iff_le_log (by norm_num) hq).mp (by simpa using h1q)
    exact this
  have he1 : Int.log 2 (n : ℚ) < 24 :=
    (Int.lt_zpow_iff_log_lt (by norm_num) hq).mp (by exact_mod_cast h)
  obtain ⟨k, hk⟩ : ∃ k : ℕ, (k : ℤ) = 23 - Int.log 2 (n : ℚ) := ⟨(23 - Int.log 2 (n : ℚ)).toNat,
    Int.toNat_of_nonneg (by omega)⟩
  refine Round_eq_self (n : ℚ) (Int.log 2 (n : ℚ)) ((n : ℤ) * 2 ^ k) (by omega) (Or.inl hlo)
    ⟨by linarith [show (0 : ℚ) < 2 ^ (Int.log 2 (n : ℚ) + 1) by positivity], hhi⟩ ?_
  have e2 : Int.log 2 (n : ℚ) - 23 = -(k : ℤ) := by omega
  rw [e2, zpow_neg, zpow_natCast]
  push_cast
  have : (2 : ℚ) ^ k ≠ 0 := by positivity
  field_simp




/-- A single-precision number in [1/2, 1) is a whole multiple of 2^-24. -/
theorem exists_int_of_Round_eq_self (m : ℚ) (hm : Round m = m) (h1 : 1 / 2 ≤ m) (h2 : m < 1) :
    ∃ k : ℤ, m = k / 2 ^ 24 := by
  have he : Exponent m = -1 :=
    Exponent_eq m (-1) (by norm_num) (Or.inl (by norm_num; linarith))
      ⟨by norm_num; linarith, by norm_num; linarith⟩
  refine ⟨RoundHalfEven (m / Ulp m), ?_⟩
  have hu : Ulp m = 1 / 2 ^ 24 := by
    unfold Ulp
    rw [he]
    norm_num
  conv_lhs => rw [← hm]
  unfold Round
  rw [hu]
  ring

/-- The literal `0.9f`. -/
theorem Round_nine_tenths : Round (9 / 10) = 15099494 / 16777216 := by
  rw [Round_eq (9 / 10) (-1) 15099494 (by norm_num) (by norm_num) (by norm_num) (by norm_num)]
  norm_num

/-- For a single-precision number, being above the literal `0.9f` is being above 0.9. -/
theorem gt_literal_iff (m : ℚ) (hm : Round m = m) : m > Round (9 / 10) ↔ m > 9 / 10 := by
  rw [Round_nine_tenths]
  constructor
  · intro h
    by_cases h1 : m < 1
    · obtain ⟨k, hk⟩ := exists_int_of_Round_eq_self m hm (by linarith) h1
      have hk1 : (15099494 : ℚ) < k := by
        rw [hk] at h
        have h3 : (15099494 : ℚ) / 16777216 * 2 ^ 24 < k / 2 ^ 24 * 2 ^ 24 :=
          mul_lt_mul_of_pos_right h (by positivity)
        norm_num at h3
        linarith
      have hk2 : (15099495 : ℤ) ≤ k := by
        have : (15099494 : ℤ) < k := by exact_mod_cast hk1
        omega
      have hk3 : (15099495 : ℚ) ≤ k := by exact_mod_cast hk2
      rw [hk]
      have : (15099495 : ℚ) / 2 ^ 24 ≤ k / 2 ^ 24 :=
        div_le_div_of_nonneg_right hk3 (by positivity)
      norm_num at this ⊢
      linarith
    · linarith
  · intro h
    linarith

/-- A tie goes to the even neighbour. -/
theorem RoundHalfEven_tie (q : ℚ) (m : ℤ) (h : q = m + 1 / 2 ∨ q = m - 1 / 2)
    (hm : m % 2 = 0) : RoundHalfEven q = m := by
  unfold RoundHalfEven
  rcases h with h | h
  · have hf : ⌊q⌋ = m := by
      rw [Int.floor_eq_iff]
      constructor <;> rw [h] <;> linarith
    rw [hf, if_neg (by rw [h]; norm_num), if_neg (by rw [h]; norm_num), if_pos hm]
  · have hf : ⌊q⌋ = m - 1 := by
      rw [Int.floor_eq_iff]
      push_cast
      constructor <;> rw [h] <;> linarith
    have hc : ((m - 1 : ℤ) : ℚ) = m - 1 := by push_cast; ring
    rw [hf, hc, if_neg (by rw [h]; norm_num), if_neg (by rw [h]; norm_num),
      if_neg (by omega)]
    ring

/-- The value of `Round` at a tie. -/
theorem Round_eq_tie (x : ℚ) (e m : ℤ) (he : -126 ≤ e) (h1 : 2 ^ e ≤ x ∨ 2 ^ e ≤ -x)
    (h2 : -2 ^ (e + 1) < x ∧ x < 2 ^ (e + 1))
    (hm : x / 2 ^ (e - 23) = m + 1 / 2 ∨ x / 2 ^ (e - 23) = m - 1 / 2) (heven : m % 2 = 0) :
    Round x = m * 2 ^ (e - 23) := by
  unfold Round Ulp
  rw [Exponent_eq x e he h1 h2, RoundHalfEven_tie _ m hm heven]

end Float32

/-! ## Enough fuel -/

/-- Outside the rolling-in-air case the movement-state hook makes no nested call. -/
theorem OnMovementStateChanged_flat (fuel : Nat) (Prev : EBMMovementState)
    (s : ABMBaseCharacter) (h : ¬ (s.MovementState = .InAir ∧ s.MovementAction = .Rolling)) :
    OnMovementStateChanged (fuel + 1) Prev s = OnMovementStateChanged 1 Prev s := by
  simp only [OnMovementStateChanged, Exec.bind_eq, Exec.pure_eq, Exec.andThen_apply,
    Exec.log_apply, Exec.this_apply, Exec.set_apply, Exec.ret_apply, Exec.ite_apply]
  by_cases h1 : s.MovementState = .InAir
  · by_cases h2 : s.MovementAction = .None
    · simp [h1, h2]
    · have h3 : s.MovementAction ≠ .Rolling := fun h3 => h ⟨h1, h3⟩
      simp [h1, h2, h3]
  · simp [h1]

/-- Setting a movement state that does not start the ragdoll makes no nested call. -/
theorem SetMovementState_flat (fuel : Nat) (NewState : EBMMovementState) (s : ABMBaseCharacter)
    (h : ¬ (NewState = .InAir ∧ s.MovementAction = .Rolling)) :
    SetMovementState (fuel + 2) NewState s = SetMovementState 2 NewState s := by
  simp only [SetMovementState, Exec.bind_eq, Exec.pure_eq, Exec.andThen_apply, Exec.log_apply,
    Exec.this_apply, Exec.set_apply, Exec.ret_apply, Exec.ite_apply]
  by_cases h1 : s.MovementState = NewState
  · simp [h1]
  · simp only [h1, ne_eq, not_false_eq_true, ↓reduceIte]
    rw [OnMovementStateChanged_flat]
    simpa using h

/-- The movement-mode notification for a mode that maps to no movement state. -/
theorem OnMovementModeChanged_other (fuel : Nat) (Prev : EMovementMode)
    (s : ABMBaseCharacter)
    (h1 : s.CharacterMovement.MovementMode ≠ .MOVE_Walking)
    (h2 : s.CharacterMovement.MovementMode ≠ .MOVE_NavWalking)
    (h3 : s.CharacterMovement.MovementMode ≠ .MOVE_Falling) :
    OnMovementModeChanged (fuel + 1) Prev s =
      .ok () { s with Log := s.Log ++ [.Super_OnMovementModeChanged Prev] } := by
  simp [OnMovementModeChanged, h1, h2, h3]

/-- Clearing the movement mode makes no nested state change. -/
theorem SetMovementMode_None (fuel : Nat) (s : ABMBaseCharacter) :
    SetMovementMode (fuel + 2) .MOVE_None s =
      if s.CharacterMovement.MovementMode = .MOVE_None then .ok () s
      else .ok ()
        { s with
          CharacterMovement := { s.CharacterMovement with MovementMode := .MOVE_None }
          Log := s.Log ++ [.Super_OnMovementModeChanged s.CharacterMovement.MovementMode] } := by
  by_cases h : s.CharacterMovement.MovementMode = .MOVE_None
  · simp [SetMovementMode, h]
  · simp only [SetMovementMode, Exec.bind_eq, Exec.pure_eq, Exec.andThen_apply, Exec.log_apply,
      Exec.this_apply, Exec.set_apply, Exec.ret_apply, Exec.ite_apply, h, ne_eq,
      not_false_eq_true, ↓reduceIte]
    rw [OnMovementModeChanged_other] <;> simp

theorem RagdollStart_fuel (fuel : Nat) (s : ABMBaseCharacter) :
    RagdollStart (fuel + 3) s = RagdollStart 3 s := by
  simp only [RagdollStart, Exec.bind_eq, Exec.andThen_apply, Exec.log_apply]
  rw [SetMovementMode_None fuel, SetMovementMode_None 0]
  split_ifs with h
  · simp only
    rw [SetMovementState_flat fuel .Ragdoll _ (by simp), SetMovementState_flat 0 .Ragdoll _ (by simp)]
  · simp only
    rw [SetMovementState_flat fuel .Ragdoll _ (by simp), SetMovementState_flat 0 .Ragdoll _ (by simp)]

theorem OnMovementStateChanged_fuel (fuel : Nat) (Prev : EBMMovementState)
    (s : ABMBaseCharacter) :
    OnMovementStateChanged (fuel + 4) Prev s = OnMovementStateChanged 4 Prev s := by
  by_cases h : s.MovementState = .InAir ∧ s.MovementAction = .Rolling
  · simp only [OnMovementStateChanged, Exec.bind_eq, Exec.pure_eq, Exec.andThen_apply,
      Exec.log_apply, Exec.this_apply, Exec.set_apply, Exec.ret_apply, Exec.ite_apply]
    simp only [h.1, h.2, ↓reduceIte, reduceCtorEq]
    exact RagdollStart_fuel fuel _
  · rw [OnMovementStateChanged_flat (fuel + 3) Prev s h, OnMovementStateChanged_flat 3 Prev s h]

/-- From fuel 5 on the result of `SetMovementState` does not depend on the fuel. -/
theorem SetMovementState_fuel (fuel : Nat) (NewState : EBMMovementState)
    (s : ABMBaseCharacter) :
    SetMovementState (fuel + 5) NewState s = SetMovementState 5 NewState s := by
  simp only [SetMovementState, Exec.bind_eq, Exec.pure_eq, Exec.andThen_apply, Exec.log_apply,
    Exec.this_apply, Exec.set_apply, Exec.ret_apply, Exec.ite_apply]
  split_ifs with h
  · exact OnMovementStateChanged_fuel fuel _ _
  · rfl

/-- From fuel 6 on the result of `OnMovementModeChanged` does not depend on the fuel. -/
theorem OnMovementModeChanged_fuel (fuel : Nat) (Prev : EMovementMode)
    (s : ABMBaseCharacter) :
    OnMovementModeChanged (fuel + 6) Prev s = OnMovementModeChanged 6 Prev s := by
  simp only [OnMovementModeChanged, Exec.bind_eq, Exec.pure_eq, Exec.andThen_apply,
    Exec.log_apply, Exec.this_apply, Exec.set_apply, Exec.ret_apply, Exec.ite_apply]
  split_ifs with h1 h2
  · exact SetMovementState_fuel fuel _ _
  · exact SetMovementState_fuel fuel _ _
  · rfl

/-- From fuel 7 on the result of `SetMovementMode` does not depend on the fuel. -/
theorem SetMovementMode_fuel (fuel : Nat) (NewMovementMode : EMovementMode)
    (s : ABMBaseCharacter) :
    SetMovementMode (fuel + 7) NewMovementMode s = SetMovementMode 7 NewMovementMode s := by
  simp only [SetMovementMode, Exec.bind_eq, Exec.pure_eq, Exec.andThen_apply, Exec.log_apply,
    Exec.this_apply, Exec.set_apply, Exec.ret_apply, Exec.ite_apply]
  split_ifs with h
  · exact OnMovementModeChanged_fuel fuel _ _
  · rfl

/-! ## The ragdoll started from the air -/

@[simp] theorem Res.state_ok {α : Type} (a : α) (s : ABMBaseCharacter) :
    (Res.ok a s).state = s := rfl

@[simp] theorem Res.state_halt {α : Type} (f : Fault) (s : ABMBaseCharacter) :
    (Res.halt f s : Res α).state = s := rfl

@[simp] theorem Res.fault_ok {α : Type} (a : α) (s : ABMBaseCharacter) :
    (Res.ok a s).fault = none := rfl

@[simp] theorem Res.fault_halt {α : Type} (f : Fault) (s : ABMBaseCharacter) :
    (Res.halt f s : Res α).fault = some f := rfl

@[simp] theorem Res.value_ok {α : Type} (a : α) (s : ABMBaseCharacter) :
    (Res.ok a s).value = some a := rfl

@[simp] theorem Res.value_halt {α : Type} (f : Fault) (s : ABMBaseCharacter) :
    (Res.halt f s : Res α).value = none := rfl

/-- What `RagdollStart` leaves behind when it is entered with the movement state InAir: the
movement state is Ragdoll, the previous one InAir, the movement mode None; the log gains the
entry of `RagdollStart`, the movement-mode notification when the mode was not already None, one
entry into the movement-state hook, and the montage stop when the animation instance is
present; the run halts exactly when the animation instance is absent. -/
theorem RagdollStart_InAir (fuel : Nat) (s : ABMBaseCharacter)
    (hAir : s.MovementState = .InAir) :
    (RagdollStart (fuel + 3) s).state.MovementState = .Ragdoll ∧
    (RagdollStart (fuel + 3) s).state.PrevMovementState = .InAir ∧
    (RagdollStart (fuel + 3) s).state.CharacterMovement.MovementMode = .MOVE_None ∧
    (RagdollStart (fuel + 3) s).state.Log =
      s.Log ++ [.RagdollStart] ++
        (if s.CharacterMovement.MovementMode = .MOVE_None then []
          else [.Super_OnMovementModeChanged s.CharacterMovement.MovementMode]) ++
        [.OnMovementStateChanged .InAir] ++
        (if s.MainAnimInstance.isSome then [.Montage_Stop (2 / 10)] else []) ∧
    (RagdollStart (fuel + 3) s).fault =
      (if s.MainAnimInstance.isSome then none else some (.NullDeref .MainAnimInstance)) := by
  rw [RagdollStart_fuel]
  by_cases hM : s.CharacterMovement.MovementMode = .MOVE_None
  · cases hA : s.MainAnimInstance with
    | none =>
      simp [RagdollStart, SetMovementMode, SetMovementState, OnMovementStateChanged, hAir, hM, hA]
    | some a =>
      simp [RagdollStart, SetMovementMode, SetMovementState, OnMovementStateChanged, hAir, hM, hA]
  · cases hA : s.MainAnimInstance with
    | none =>
      simp [RagdollStart, SetMovementMode, SetMovementState, OnMovementStateChanged,
        OnMovementModeChanged, hAir, hM, hA]
    | some a =>
      simp [RagdollStart, SetMovementMode, SetMovementState, OnMovementStateChanged,
        OnMovementModeChanged, hAir, hM, hA]

/-! ## One call of `SetMovementState` -/

/-- A call that changes nothing. -/
theorem SetMovementState_same (fuel : Nat) (NewState : EBMMovementState) (s : ABMBaseCharacter)
    (h : s.MovementState = NewState) :
    SetMovementState (fuel + 1) NewState s = .ok () s := by
  simp [SetMovementState, h]

/-- A call that changes the state stores the old and the new value and then runs the hook. -/
theorem SetMovementState_changed (fuel : Nat) (NewState : EBMMovementState)
    (s : ABMBaseCharacter) (h : s.MovementState ≠ NewState) :
    SetMovementState (fuel + 1) NewState s =
      OnMovementStateChanged fuel s.MovementState
        { s with PrevMovementState := s.MovementState, MovementState := NewState } := by
  simp [SetMovementState, h]

/-- A change that does not start the ragdoll: the hook runs once and returns. -/
theorem SetMovementState_plain (fuel : Nat) (NewState : EBMMovementState) (s : ABMBaseCharacter)
    (h : s.MovementState ≠ NewState)
    (hR : ¬ (NewState = .InAir ∧ s.MovementAction = .Rolling)) :
    (SetMovementState (fuel + 2) NewState s).fault = none ∧
    (SetMovementState (fuel + 2) NewState s).state.MovementState = NewState ∧
    (SetMovementState (fuel + 2) NewState s).state.PrevMovementState = s.MovementState ∧
    (SetMovementState (fuel + 2) NewState s).state.Log =
      s.Log ++ [.OnMovementStateChanged s.MovementState] ++
        (if NewState = .InAir ∧ s.MovementAction = .None ∧ s.Stance = .Crouching then [.UnCrouch]
          else []) := by
  rw [SetMovementState_flat fuel NewState s hR, SetMovementState_changed 1 NewState s h]
  by_cases h1 : NewState = .InAir
  · subst h1
    have h2 : s.MovementAction ≠ .Rolling := fun h2 => hR ⟨rfl, h2⟩
    by_cases h3 : s.MovementAction = .None
    · by_cases h4 : s.Stance = .Crouching
      · simp [OnMovementStateChanged, h3, h4]
      · simp [OnMovementStateChanged, h3, h4]
    · simp [OnMovementStateChanged, h2, h3]
  · by_cases h6 : NewState = .Ragdoll
    · subst h6
      by_cases h7 : s.MovementState = .Mantling
      · simp [OnMovementStateChanged, h7]
      · simp [OnMovementStateChanged, h7]
    · simp [OnMovementStateChanged, h1, h6]

/-- A change to InAir in the middle of a roll: the hook starts the ragdoll. -/
theorem SetMovementState_InAir_Rolling (fuel : Nat) (s : ABMBaseCharacter)
    (h : s.MovementState ≠ .InAir) (hR : s.MovementAction = .Rolling) :
    SetMovementState (fuel + 5) .InAir s =
      RagdollStart (fuel + 3)
        { s with
          PrevMovementState := s.MovementState
          MovementState := .InAir
          Log := s.Log ++ [.OnMovementStateChanged s.MovementState] } := by
  rw [SetMovementState_changed (fuel + 4) .InAir s h]
  simp [OnMovementStateChanged, hR]

/-- The fault of a call of `SetMovementState`: only the animation instance that `RagdollStart`
dereferences can halt it; the fuel never runs out. -/
theorem SetMovementState_fault (fuel : Nat) (NewState : EBMMovementState)
    (s : ABMBaseCharacter) :
    (SetMovementState (fuel + 5) NewState s).fault =
      if s.MovementState ≠ NewState ∧ NewState = .InAir ∧ s.MovementAction = .Rolling ∧
          s.MainAnimInstance.isSome = false then
        some (.NullDeref .MainAnimInstance)
      else none := by
  by_cases h : s.MovementState = NewState
  · simp [SetMovementState_same (fuel + 4) NewState s h, h]
  · by_cases hR : NewState = .InAir ∧ s.MovementAction = .Rolling
    · obtain ⟨h1, h2⟩ := hR
      subst h1
      rw [SetMovementState_InAir_Rolling fuel s h h2]
      rw [(RagdollStart_InAir fuel _ rfl).2.2.2.2]
      cases hA : s.MainAnimInstance <;> simp [h, h2, hA]
    · rw [(SetMovementState_plain (fuel + 3) NewState s h hR).1]
      rw [if_neg (fun h' => hR ⟨h'.2.1, h'.2.2.1⟩)]

/-- The number of entries into the movement-state hook that one call of `SetMovementState`
adds to the log. -/
theorem SetMovementState_count (fuel : Nat) (NewState : EBMMovementState)
    (s : ABMBaseCharacter) :
    CountMovementStateHooks (SetMovementState (fuel + 5) NewState s).state.Log =
      CountMovementStateHooks s.Log +
        (if s.MovementState = NewState then 0
          else if NewState = .InAir ∧ s.MovementAction = .Rolling then 2 else 1) := by
  by_cases h : s.MovementState = NewState
  · simp [SetMovementState_same (fuel + 4) NewState s h, h]
  · by_cases hR : NewState = .InAir ∧ s.MovementAction = .Rolling
    · obtain ⟨h1, h2⟩ := hR
      subst h1
      rw [SetMovementState_InAir_Rolling fuel s h h2]
      rw [(RagdollStart_InAir fuel _ rfl).2.2.2.1]
      simp only [h, h2, and_self, if_true, if_false]
      by_cases hM : s.CharacterMovement.MovementMode = .MOVE_None <;>
      cases hA : s.MainAnimInstance <;>
      simp [CountMovementStateHooks, List.countP_append, List.countP_cons, hM, hA]
    · rw [(SetMovementState_plain (fuel + 3) NewState s h hR).2.2.2]
      simp only [h, hR, if_false]
      split_ifs <;> simp [CountMovementStateHooks, List.countP_append, List.countP_cons]

/-- The log only grows during a call of `SetMovementState`, and a call that changes the state
first adds the entry into the hook, with the old value. -/
theorem SetMovementState_log (fuel : Nat) (NewState : EBMMovementState) (s : ABMBaseCharacter)
    (h : s.MovementState ≠ NewState) :
    ∃ rest, (SetMovementState (fuel + 5) NewState s).state.Log =
      s.Log ++ Event.OnMovementStateChanged s.MovementState :: rest := by
  by_cases hR : NewState = .InAir ∧ s.MovementAction = .Rolling
  · obtain ⟨h1, h2⟩ := hR
    subst h1
    rw [SetMovementState_InAir_Rolling fuel s h h2]
    rw [(RagdollStart_InAir fuel _ rfl).2.2.2.1]
    exact ⟨_, by simp only [List.append_assoc]; rfl⟩
  · rw [(SetMovementState_plain (fuel + 3) NewState s h hR).2.2.2]
    exact ⟨_, by simp only [List.append_assoc]; rfl⟩

/-- The movement-mode notification never runs out of fuel. -/
theorem OnMovementModeChanged_fault (fuel : Nat) (Prev : EMovementMode) (s : ABMBaseCharacter) :
    (OnMovementModeChanged (fuel + 6) Prev s).fault ≠ some .OutOfFuel := by
  simp only [OnMovementModeChanged, Exec.bind_eq, Exec.pure_eq, Exec.andThen_apply,
    Exec.log_apply, Exec.this_apply, Exec.ret_apply, Exec.ite_apply]
  split_ifs
  · rw [SetMovementState_fault]
    split_ifs <;> simp
  · rw [SetMovementState_fault]
    split_ifs <;> simp
  · simp

/-- Setting the movement mode never runs out of fuel. -/
theorem SetMovementMode_fault (fuel : Nat) (NewMovementMode : EMovementMode)
    (s : ABMBaseCharacter) :
    (SetMovementMode (fuel + 7) NewMovementMode s).fault ≠ some .OutOfFuel := by
  simp only [SetMovementMode, Exec.bind_eq, Exec.pure_eq, Exec.andThen_apply, Exec.this_apply,
    Exec.set_apply, Exec.ret_apply, Exec.ite_apply]
  split_ifs
  · exact OnMovementModeChanged_fault fuel _ _
  · simp

/-! ## The start of a tick -/

/-- `SetEssentialValues` always returns. -/
theorem SetEssentialValues_ok (E : Engine) (DeltaTime : ℚ) (s : ABMBaseCharacter) :
    SetEssentialValues E DeltaTime s = .ok () (SetEssentialValues E DeltaTime s).state := by
  simp only [SetEssentialValues, Exec.bind_eq, Exec.pure_eq, Exec.andThen_apply, Exec.this_apply,
    Exec.set_apply, Exec.ret_apply, Exec.ite_apply]
  split_ifs <;> rfl

/-- What `SetEssentialValues` stores, and what it keeps. -/
theorem SetEssentialValues_state (E : Engine) (DeltaTime : ℚ) (s : ABMBaseCharacter) :
    (SetEssentialValues E DeltaTime s).state.MovementState = s.MovementState ∧
    (SetEssentialValues E DeltaTime s).state.FallingTraceSettings = s.FallingTraceSettings ∧
    (SetEssentialValues E DeltaTime s).state.ActorVelocity = s.ActorVelocity ∧
    (SetEssentialValues E DeltaTime s).state.ControlRotation = s.ControlRotation ∧
    (SetEssentialValues E DeltaTime s).state.Log = s.Log := by
  simp only [SetEssentialValues, Exec.bind_eq, Exec.pure_eq, Exec.andThen_apply, Exec.this_apply,
    Exec.set_apply, Exec.ret_apply, Exec.ite_apply]
  split_ifs <;> simp

/-- The flag `SetEssentialValues` stores does not depend on the log. -/
theorem SetEssentialValues_flag_log (E : Engine) (DeltaTime : ℚ) (s : ABMBaseCharacter)
    (l : List Event) :
    (SetEssentialValues E DeltaTime { s with Log := l }).state.bHasMovementInput =
      (SetEssentialValues E DeltaTime s).state.bHasMovementInput := by
  simp only [SetEssentialValues, Exec.bind_eq, Exec.pure_eq, Exec.andThen_apply, Exec.this_apply,
    Exec.set_apply, Exec.ret_apply, Exec.ite_apply]
  split_ifs <;> simp

/-- After `SetEssentialValues` the flag `bHasMovementInput` says that `MovementInputAmount`
is positive. -/
theorem SetEssentialValues_input_flag (E : Engine) (DeltaTime : ℚ) (s : ABMBaseCharacter) :
    (SetEssentialValues E DeltaTime s).state.MovementInputAmount =
      Float32.Quotient (E.VectorSize s.CharacterMovement.CurrentAcceleration)
        s.CharacterMovement.MaxAcceleration ∧
    (SetEssentialValues E DeltaTime s).state.bHasMovementInput =
      (SetEssentialValues E DeltaTime s).state.MovementInputAmount.GreaterThan 0 := by
  simp only [SetEssentialValues, Exec.bind_eq, Exec.pure_eq, Exec.andThen_apply, Exec.this_apply,
    Exec.set_apply, Exec.ret_apply, Exec.ite_apply]
  split_ifs <;> simp

/-- With a maximal acceleration of (positive) zero and an acceleration that is not zero the
movement input amount is infinite, and the flag is set. -/
theorem SetEssentialValues_zero_MaxAcceleration (E : Engine) (DeltaTime : ℚ)
    (s : ABMBaseCharacter) (h0 : s.CharacterMovement.MaxAcceleration = 0)
    (hpos : 0 < E.VectorSize s.CharacterMovement.CurrentAcceleration) :
    (SetEssentialValues E DeltaTime s).state.MovementInputAmount = .PosInf ∧
    (SetEssentialValues E DeltaTime s).state.bHasMovementInput = true := by
  obtain ⟨h1, h2⟩ := SetEssentialValues_input_flag E DeltaTime s
  have h3 : (SetEssentialValues E DeltaTime s).state.MovementInputAmount = .PosInf := by
    rw [h1, h0]
    simp [Float32.Quotient, hpos]
  exact ⟨h3, by rw [h2, h3]; rfl⟩

/-- The start of a tick always returns. -/
theorem TickPrologue_ok (E : Engine) (DeltaTime : ℚ) (s : ABMBaseCharacter) :
    TickPrologue E DeltaTime s = .ok () (TickPrologue E DeltaTime s).state := by
  simp only [TickPrologue, Exec.bind_eq, Exec.andThen_apply, Exec.log_apply, Exec.set_apply]
  rw [SetEssentialValues_ok]
  rfl

/-- The state the start of a tick hands on. -/
theorem TickPrologue_state (E : Engine) (DeltaTime : ℚ) (s : ABMBaseCharacter) :
    (TickPrologue E DeltaTime s).state.MovementState = s.MovementState ∧
    (TickPrologue E DeltaTime s).state.bHasMovementInput =
      (SetEssentialValues E DeltaTime s).state.bHasMovementInput ∧
    (TickPrologue E DeltaTime s).state.PreviousVelocity = s.ActorVelocity ∧
    (TickPrologue E DeltaTime s).state.PreviousAimYaw = s.ControlRotation.Yaw ∧
    (TickPrologue E DeltaTime s).state.FallingTraceSettings = s.FallingTraceSettings ∧
    (TickPrologue E DeltaTime s).state.Log = s.Log ++ [.Super_Tick DeltaTime] := by
  have h := SetEssentialValues_state E DeltaTime
    { s with Log := s.Log ++ [.Super_Tick DeltaTime] }
  simp only [TickPrologue, Exec.bind_eq, Exec.andThen_apply, Exec.log_apply, Exec.set_apply]
  rw [SetEssentialValues_ok]
  simp only [Res.state_ok]
  exact ⟨h.1, SetEssentialValues_flag_log E DeltaTime s _, h.2.2.1, by rw [h.2.2.2.1], h.2.1,
    h.2.2.2.2⟩

/-- `Tick` is its start followed by the update the movement state selects. -/
theorem Tick_eq (fuel : Nat) (E : Engine) (DeltaTime : ℚ) (s : ABMBaseCharacter) :
    Tick fuel E DeltaTime s =
      (do
        TickPrologue E DeltaTime
        let s ← Exec.this
        if s.MovementState = .Grounded then
          UpdateCharacterMovement E
          UpdateGroundedRotation E DeltaTime
        else if s.MovementState = .InAir then
          UpdateInAirRotation E DeltaTime
          let s ← Exec.this
          if s.bHasMovementInput then
            let _ ← MantleCheck fuel E s.FallingTraceSettings
        else if s.MovementState = .Ragdoll then
          RagdollUpdate E
        DrawDebugSpheres E : Exec Unit) s := by
  simp only [Tick, TickPrologue, Exec.bind_eq, Exec.andThen_apply, Exec.log_apply, Exec.set_apply]
  rw [SetEssentialValues_ok]

/-- `SmoothCharacterRotation` always returns and only turns the character. -/
theorem SmoothCharacterRotation_run (E : Engine) (Target : FRotator) (a b c : ℚ)
    (s : ABMBaseCharacter) :
    SmoothCharacterRotation E Target a b c s =
      .ok () (SmoothCharacterRotation E Target a b c s).state ∧
    (SmoothCharacterRotation E Target a b c s).state.bHasMovementInput = s.bHasMovementInput ∧
    (SmoothCharacterRotation E Target a b c s).state.FallingTraceSettings =
      s.FallingTraceSettings := by
  simp only [SmoothCharacterRotation, Exec.bind_eq, Exec.pure_eq, Exec.andThen_apply,
    Exec.this_apply, Exec.set_apply, Exec.ret_apply, Exec.ite_apply]
  split_ifs <;> simp

/-- `UpdateInAirRotation` always returns and keeps the movement input flag and the falling trace
settings. -/
theorem UpdateInAirRotation_run (E : Engine) (DeltaTime : ℚ) (s : ABMBaseCharacter) :
    UpdateInAirRotation E DeltaTime s = .ok () (UpdateInAirRotation E DeltaTime s).state ∧
    (UpdateInAirRotation E DeltaTime s).state.bHasMovementInput = s.bHasMovementInput ∧
    (UpdateInAirRotation E DeltaTime s).state.FallingTraceSettings = s.FallingTraceSettings := by
  simp only [UpdateInAirRotation, Exec.bind_eq, Exec.pure_eq, Exec.andThen_apply,
    Exec.this_apply, Exec.set_apply, Exec.ret_apply, Exec.ite_apply]
  split_ifs
  · exact SmoothCharacterRotation_run E _ _ _ _ s
  · have h := SmoothCharacterRotation_run E ⟨0, s.ControlRotation.Yaw, 0⟩ 0 15 DeltaTime s
    rw [h.1]
    exact ⟨rfl, h.2.1, h.2.2⟩
  · exact ⟨rfl, rfl, rfl⟩

/-! ## Starting a mantle -/

/-- Entering the Mantling state: the hook runs once and does nothing more. -/
theorem SetMovementState_Mantling (fuel : Nat) (s : ABMBaseCharacter) :
    SetMovementState (fuel + 2) .Mantling s =
      if s.MovementState = .Mantling then .ok () s
      else .ok ()
        { s with
          PrevMovementState := s.MovementState
          MovementState := .Mantling
          Log := s.Log ++ [.OnMovementStateChanged s.MovementState] } := by
  rw [SetMovementState_flat fuel .Mantling s (by simp)]
  by_cases h : s.MovementState = .Mantling
  · simp [SetMovementState, h]
  · simp [SetMovementState, OnMovementStateChanged, h]

/-- `MantleStart` records its call first, whatever happens afterwards. -/
theorem MantleStart_log (fuel : Nat) (E : Engine) (MantleHeight : ℚ)
    (MantleLedgeWS : FBMComponentAndTransform) (MantleType : EBMMantleType)
    (s : ABMBaseCharacter) :
    ∃ rest, (MantleStart (fuel + 2) E MantleHeight MantleLedgeWS MantleType s).state.Log =
      s.Log ++ Event.MantleStart MantleHeight MantleLedgeWS MantleType :: rest := by
  simp only [MantleStart, Exec.bind_eq, Exec.andThen_apply, Exec.log_apply, Exec.set_apply,
    Exec.this_apply, Exec.ite_apply, Exec.check_apply, Exec.pure_eq, Exec.ret_apply]
  cases hC : MantleLedgeWS.Component with
  | none => exact ⟨[], by simp⟩
  | some c =>
    simp only [Exec.deref_some]
    rw [SetMovementMode_None]
    by_cases hM : s.CharacterMovement.MovementMode = .MOVE_None
    · simp only [hM, if_true]
      rw [SetMovementState_Mantling]
      by_cases hS : s.MovementState = .Mantling
      · simp only [hS, if_true]
        cases hK : (E.GetMantleAsset MantleType).PositionCorrectionCurve with
        | none => exact ⟨[], by simp⟩
        | some k =>
          simp only [Exec.deref_some]
          cases hA : (E.GetMantleAsset MantleType).AnimMontage with
          | none => exact ⟨[], by simp⟩
          | some m =>
            cases hI : s.MainAnimInstance with
            | none => exact ⟨[], by simp [hI]⟩
            | some a => exact ⟨_, by simp [hI]; rfl⟩
      · simp only [hS, if_false]
        cases hK : (E.GetMantleAsset MantleType).PositionCorrectionCurve with
        | none => exact ⟨_, by simp; rfl⟩
        | some k =>
          simp only [Exec.deref_some]
          cases hA : (E.GetMantleAsset MantleType).AnimMontage with
          | none => exact ⟨_, by simp; rfl⟩
          | some m =>
            cases hI : s.MainAnimInstance with
            | none => exact ⟨_, by simp [hI]; rfl⟩
            | some a => exact ⟨_, by simp [hI]; rfl⟩
    · simp only [hM, if_false]
      rw [SetMovementState_Mantling]
      by_cases hS : s.MovementState = .Mantling
      · simp only [hS, if_true]
        cases hK : (E.GetMantleAsset MantleType).PositionCorrectionCurve with
        | none => exact ⟨_, by simp; rfl⟩
        | some k =>
          simp only [Exec.deref_some]
          cases hA : (E.GetMantleAsset MantleType).AnimMontage with
          | none => exact ⟨_, by simp; rfl⟩
          | some m =>
            cases hI : s.MainAnimInstance with
            | none => exact ⟨_, by simp [hI]; rfl⟩
            | some a => exact ⟨_, by simp [hI]; rfl⟩
      · simp only [hS, if_false]
        cases hK : (E.GetMantleAsset MantleType).PositionCorrectionCurve with
        | none => exact ⟨_, by simp; rfl⟩
        | some k =>
          simp only [Exec.deref_some]
          cases hA : (E.GetMantleAsset MantleType).AnimMontage with
          | none => exact ⟨_, by simp; rfl⟩
          | some m =>
            cases hI : s.MainAnimInstance with
            | none => exact ⟨_, by simp [hI]; rfl⟩
            | some a => exact ⟨_, by simp [hI]; rfl⟩

/-- `MantleStart` runs to its end when the ledge component and the position/correction curve are
present and the animation instance is present if the asset has a montage; the character is then
in the Mantling state with the movement mode None and the timeline playing from the start. -/
theorem MantleStart_run (fuel : Nat) (E : Engine) (MantleHeight : ℚ)
    (MantleLedgeWS : FBMComponentAndTransform) (MantleType : EBMMantleType)
    (s : ABMBaseCharacter) (c k : Nat)
    (hC : MantleLedgeWS.Component = some c)
    (hK : (E.GetMantleAsset MantleType).PositionCorrectionCurve = some k)
    (hA : (E.GetMantleAsset MantleType).AnimMontage = none ∨ s.MainAnimInstance.isSome = true) :
    (MantleStart (fuel + 2) E MantleHeight MantleLedgeWS MantleType s).fault = none ∧
    (MantleStart (fuel + 2) E MantleHeight MantleLedgeWS MantleType s).state.MovementState =
      .Mantling ∧
    (MantleStart (fuel + 2) E MantleHeight MantleLedgeWS MantleType
      s).state.CharacterMovement.MovementMode = .MOVE_None ∧
    (MantleStart (fuel + 2) E MantleHeight MantleLedgeWS MantleType s).state.MantleTimeline.bPlaying
      = true := by
  simp only [MantleStart, Exec.bind_eq, Exec.andThen_apply, Exec.log_apply, Exec.set_apply,
    Exec.this_apply, Exec.ite_apply, Exec.check_apply, Exec.pure_eq, Exec.ret_apply, hC,
    Exec.deref_some]
  rw [SetMovementMode_None]
  by_cases hM : s.CharacterMovement.MovementMode = .MOVE_None <;>
  simp only [hM, if_true, if_false] <;>
  rw [SetMovementState_Mantling] <;>
  by_cases hS : s.MovementState = .Mantling <;>
  simp only [hS, if_true, if_false, hK, Exec.deref_some] <;>
  rcases hA with hA | hA <;>
  cases hA2 : (E.GetMantleAsset MantleType).AnimMontage <;>
  simp_all

/-- `MantleStart` halts at `check(MainAnimInstance)`, already in the Mantling state, when the
asset has a montage and the animation instance is absent. -/
theorem MantleStart_no_anim (fuel : Nat) (E : Engine) (MantleHeight : ℚ)
    (MantleLedgeWS : FBMComponentAndTransform) (MantleType : EBMMantleType)
    (s : ABMBaseCharacter) (c k m : Nat)
    (hC : MantleLedgeWS.Component = some c)
    (hK : (E.GetMantleAsset MantleType).PositionCorrectionCurve = some k)
    (hA : (E.GetMantleAsset MantleType).AnimMontage = some m)
    (hI : s.MainAnimInstance = none) :
    (MantleStart (fuel + 2) E MantleHeight MantleLedgeWS MantleType s).fault =
      some (.CheckFailed .MainAnimInstance) ∧
    (MantleStart (fuel + 2) E MantleHeight MantleLedgeWS MantleType s).state.MovementState =
      .Mantling := by
  simp only [MantleStart, Exec.bind_eq, Exec.andThen_apply, Exec.log_apply, Exec.set_apply,
    Exec.this_apply, Exec.ite_apply, Exec.check_apply, Exec.pure_eq, Exec.ret_apply, hC,
    Exec.deref_some]
  rw [SetMovementMode_None]
  by_cases hM : s.CharacterMovement.MovementMode = .MOVE_None <;>
  simp only [hM, if_true, if_false] <;>
  rw [SetMovementState_Mantling] <;>
  by_cases hS : s.MovementState = .Mantling <;>
  simp only [hS, if_true, if_false, hK, Exec.deref_some] <;>
  simp_all

/-! ## C1 -/

/-- C1. Each of the six state setters leaves the whole character (its log included, so no hook
is entered) unchanged when the new value equals the current one; when it differs the setter
stores the new value (`SetMovementState` also stores the old one in `PrevMovementState`) and
then runs the matching change hook, on the updated character, with the old value as argument:
the next log entry is the entry into that hook with the old value. -/
theorem C1_setters_diff_then_single_hook (fuel : Nat) (s : ABMBaseCharacter) :
    -- SetMovementState
    (∀ NewState, s.MovementState = NewState →
      SetMovementState (fuel + 5) NewState s = .ok () s) ∧
    (∀ NewState, s.MovementState ≠ NewState →
      SetMovementState (fuel + 5) NewState s =
        OnMovementStateChanged (fuel + 4) s.MovementState
          { s with PrevMovementState := s.MovementState, MovementState := NewState } ∧
      (SetMovementState (fuel + 5) NewState s).fault ≠ some .OutOfFuel ∧
      ∃ rest, (SetMovementState (fuel + 5) NewState s).state.Log =
        s.Log ++ Event.OnMovementStateChanged s.MovementState :: rest) ∧
    -- SetMovementAction
    (∀ NewAction, s.MovementAction = NewAction → SetMovementAction NewAction s = .ok () s) ∧
    (∀ NewAction, s.MovementAction ≠ NewAction →
      SetMovementAction NewAction s =
        OnMovementActionChanged s.MovementAction { s with MovementAction := NewAction } ∧
      (SetMovementAction NewAction s).fault = none ∧
      (SetMovementAction NewAction s).state.MovementAction = NewAction ∧
      ∃ rest, (SetMovementAction NewAction s).state.Log =
        s.Log ++ Event.OnMovementActionChanged s.MovementAction :: rest) ∧
    -- SetStance
    (∀ NewStance, s.Stance = NewStance → SetStance NewStance s = .ok () s) ∧
    (∀ NewStance, s.Stance ≠ NewStance →
      SetStance NewStance s = OnStanceChanged s.Stance { s with Stance := NewStance } ∧
      SetStance NewStance s =
        .ok () { s with Stance := NewStance, Log := s.Log ++ [.OnStanceChanged s.Stance] }) ∧
    -- SetRotationMode
    (∀ NewRotationMode, s.RotationMode = NewRotationMode →
      SetRotationMode NewRotationMode s = .ok () s) ∧
    (∀ NewRotationMode, s.RotationMode ≠ NewRotationMode →
      SetRotationMode NewRotationMode s =
        OnRotationModeChanged s.RotationMode { s with RotationMode := NewRotationMode } ∧
      SetRotationMode NewRotationMode s =
        .ok () { s with RotationMode := NewRotationMode,
                        Log := s.Log ++ [.OnRotationModeChanged s.RotationMode] }) ∧
    -- SetGait
    (∀ NewGait, s.Gait = NewGait → SetGait NewGait s = .ok () s) ∧
    (∀ NewGait, s.Gait ≠ NewGait →
      SetGait NewGait s = OnGaitChanged s.Gait { s with Gait := NewGait } ∧
      SetGait NewGait s =
        .ok () { s with Gait := NewGait, Log := s.Log ++ [.OnGaitChanged s.Gait] }) ∧
    -- SetOverlayState
    (∀ NewState, s.OverlayState = NewState → SetOverlayState NewState s = .ok () s) ∧
    (∀ NewState, s.OverlayState ≠ NewState →
      SetOverlayState NewState s =
        OnOverlayStateChanged s.OverlayState { s with OverlayState := NewState } ∧
      SetOverlayState NewState s =
        .ok () { s with OverlayState := NewState,
                        Log := s.Log ++ [.OnOverlayStateChanged s.OverlayState] }) := by
  refine ⟨?_, ?_, ?_, ?_, ?_, ?_, ?_, ?_, ?_, ?_, ?_, ?_⟩
  · intro NewState h
    exact SetMovementState_same (fuel + 4) NewState s h
  · intro NewState h
    refine ⟨SetMovementState_changed (fuel + 4) NewState s h, ?_,
      SetMovementState_log fuel NewState s h⟩
    rw [SetMovementState_fault]
    split_ifs <;> simp
  · intro NewAction h
    simp [SetMovementAction, h]
  · intro NewAction h
    have e : SetMovementAction NewAction s =
        OnMovementActionChanged s.MovementAction { s with MovementAction := NewAction } := by
      simp [SetMovementAction, h]
    refine ⟨e, ?_⟩
    rw [e]
    by_cases h1 : NewAction = .Rolling <;>
    by_cases h2 : s.MovementAction = .Rolling <;>
    by_cases h3 : s.DesiredStance = .Standing <;>
    by_cases h4 : s.DesiredStance = .Crouching <;>
    simp [OnMovementActionChanged, h1, h2, h3, h4]
  · intro NewStance h
    simp [SetStance, h]
  · intro NewStance h
    simp [SetStance, OnStanceChanged, h]
  · intro NewRotationMode h
    simp [SetRotationMode, h]
  · intro NewRotationMode h
    simp [SetRotationMode, OnRotationModeChanged, h]
  · intro NewGait h
    simp [SetGait, h]
  · intro NewGait h
    simp [SetGait, OnGaitChanged, h]
  · intro NewState h
    simp [SetOverlayState, h]
  · intro NewState h
    simp [SetOverlayState, OnOverlayStateChanged, h]

/-! ## C2 -/

/-- C2, as stated, fails: for a grounded character in the middle of a roll, one call
`SetMovementState(InAir)` enters `OnMovementStateChanged` twice, first with the previous state
Grounded and then, from the nested `SetMovementState(Ragdoll)` of `RagdollStart`, with the
previous state InAir. -/
theorem C2_counterexample_rolling_into_air :
    CountMovementStateHooks Example.Rolling.Log = 0 ∧
    CountMovementStateHooks (SetMovementState 5 .InAir Example.Rolling).state.Log = 2 ∧
    ¬ (CountMovementStateHooks (SetMovementState 5 .InAir Example.Rolling).state.Log ≤
        CountMovementStateHooks Example.Rolling.Log + 1) ∧
    (SetMovementState 5 .InAir Example.Rolling).state.Log =
      [.OnMovementStateChanged .Grounded, .RagdollStart,
        .Super_OnMovementModeChanged .MOVE_Walking, .OnMovementStateChanged .InAir,
        .Montage_Stop (2 / 10)] := by
  refine ⟨rfl, ?_, ?_, ?_⟩ <;>
  simp [SetMovementState, OnMovementStateChanged, RagdollStart, SetMovementMode,
    OnMovementModeChanged, Example.Rolling, Example.Character, CountMovementStateHooks]

/-- C2, amended. One call of `SetMovementState` enters `OnMovementStateChanged` once for every
change of the movement state it causes: not at all when the new state equals the current one,
twice when the new state is InAir and the movement action is Rolling (the hook starts the
ragdoll, whose nested `SetMovementState(Ragdoll)` enters the hook again), and exactly once in
every other case; so never more than twice. -/
theorem C2_hook_runs_once_per_state_change (fuel : Nat) (NewState : EBMMovementState)
    (s : ABMBaseCharacter) :
    CountMovementStateHooks (SetMovementState (fuel + 5) NewState s).state.Log =
      CountMovementStateHooks s.Log +
        (if s.MovementState = NewState then 0
          else if NewState = .InAir ∧ s.MovementAction = .Rolling then 2 else 1) ∧
    CountMovementStateHooks (SetMovementState (fuel + 5) NewState s).state.Log ≤
      CountMovementStateHooks s.Log + 2 ∧
    (SetMovementState (fuel + 5) NewState s).fault ≠ some .OutOfFuel := by
  refine ⟨SetMovementState_count fuel NewState s, ?_, ?_⟩
  · rw [SetMovementState_count]
    split_ifs <;> omega
  · rw [SetMovementState_fault]
    split_ifs <;> simp

/-! ## C3 -/

/-- C3. On every tick `SetEssentialValues` runs first (against the values cached by the previous
tick) and `PreviousVelocity` / `PreviousAimYaw` are cached afterwards; then the update is
selected by the movement state, which the start of the tick does not change: Grounded runs
`UpdateCharacterMovement` then `UpdateGroundedRotation`; InAir runs `UpdateInAirRotation` and
then `MantleCheck` with the falling trace settings exactly when `bHasMovementInput`, as
`SetEssentialValues` has just stored it, is true; Ragdoll runs `RagdollUpdate`; Mantling runs
none of them.  `DrawDebugSpheres` ends every tick. -/
theorem C3_Tick_update_selected_by_movement_state (fuel : Nat) (E : Engine) (DeltaTime : ℚ)
    (s : ABMBaseCharacter) :
    -- the start of the tick
    (TickPrologue E DeltaTime s = .ok () (TickPrologue E DeltaTime s).state ∧
      (TickPrologue E DeltaTime s).state.MovementState = s.MovementState ∧
      (TickPrologue E DeltaTime s).state.bHasMovementInput =
        (SetEssentialValues E DeltaTime s).state.bHasMovementInput ∧
      (TickPrologue E DeltaTime s).state.PreviousVelocity = s.ActorVelocity ∧
      (TickPrologue E DeltaTime s).state.PreviousAimYaw = s.ControlRotation.Yaw ∧
      (TickPrologue E DeltaTime s).state.Log = s.Log ++ [.Super_Tick DeltaTime]) ∧
    -- Grounded
    (s.MovementState = .Grounded →
      Tick fuel E DeltaTime s =
        (do
          TickPrologue E DeltaTime
          UpdateCharacterMovement E
          UpdateGroundedRotation E DeltaTime
          DrawDebugSpheres E : Exec Unit) s) ∧
    -- InAir, with movement input
    (s.MovementState = .InAir →
      (SetEssentialValues E DeltaTime s).state.bHasMovementInput = true →
      Tick fuel E DeltaTime s =
        (do
          TickPrologue E DeltaTime
          UpdateInAirRotation E DeltaTime
          let _ ← MantleCheck fuel E s.FallingTraceSettings
          DrawDebugSpheres E : Exec Unit) s) ∧
    -- InAir, without movement input
    (s.MovementState = .InAir →
      (SetEssentialValues E DeltaTime s).state.bHasMovementInput = false →
      Tick fuel E DeltaTime s =
        (do
          TickPrologue E DeltaTime
          UpdateInAirRotation E DeltaTime
          DrawDebugSpheres E : Exec Unit) s) ∧
    -- Ragdoll
    (s.MovementState = .Ragdoll →
      Tick fuel E DeltaTime s =
        (do
          TickPrologue E DeltaTime
          RagdollUpdate E
          DrawDebugSpheres E : Exec Unit) s) ∧
    -- Mantling
    (s.MovementState = .Mantling →
      Tick fuel E DeltaTime s =
        (do
          TickPrologue E DeltaTime
          DrawDebugSpheres E : Exec Unit) s) := by
  have hp := TickPrologue_state E DeltaTime s
  have hok := TickPrologue_ok E DeltaTime s
  refine ⟨⟨hok, hp.1, hp.2.1, hp.2.2.1, hp.2.2.2.1, hp.2.2.2.2.2⟩, ?_, ?_, ?_, ?_, ?_⟩
  · intro h
    rw [Tick_eq]
    simp only [Exec.bind_eq, Exec.andThen_apply, Exec.this_apply, Exec.ite_apply]
    rw [hok]
    simp only [hp.1, h, if_true]
  · intro h hIn
    have hu := UpdateInAirRotation_run E DeltaTime (TickPrologue E DeltaTime s).state
    rw [Tick_eq]
    simp only [Exec.bind_eq, Exec.pure_eq, Exec.andThen_apply, Exec.this_apply, Exec.ite_apply]
    rw [hok]
    simp only [hp.1, h, if_true, reduceCtorEq, if_false]
    rw [hu.1]
    simp [hu.2.1, hu.2.2, hp.2.1, hp.2.2.2.2.1, hIn]
  · intro h hIn
    have hu := UpdateInAirRotation_run E DeltaTime (TickPrologue E DeltaTime s).state
    rw [Tick_eq]
    simp only [Exec.bind_eq, Exec.pure_eq, Exec.andThen_apply, Exec.this_apply, Exec.ite_apply]
    rw [hok]
    simp only [hp.1, h, if_true, reduceCtorEq, if_false]
    rw [hu.1]
    simp [hu.2.1, hp.2.1, hIn]
  · intro h
    rw [Tick_eq]
    simp only [Exec.bind_eq, Exec.andThen_apply, Exec.this_apply, Exec.ite_apply]
    rw [hok]
    simp only [hp.1, h, if_true, reduceCtorEq, if_false]
  · intro h
    rw [Tick_eq]
    simp only [Exec.bind_eq, Exec.pure_eq, Exec.andThen_apply, Exec.this_apply, Exec.ite_apply]
    rw [hok]
    simp [hp.1, h]

/-! ## C4 -/

/-- C4. `GetTargetMovementSettings` returns the `MovementData` record of the rotation mode and
the stance for each of the six named combinations, does not depend on `Gait`, `DesiredGait`,
the movement state or the movement action, and falls back to
`MovementData.VelocityDirection.Standing` for any other value of the rotation mode or of the
stance. -/
theorem C4_GetTargetMovementSettings_selects (s : ABMBaseCharacter) :
    (s.RotationMode = .VelocityDirection → s.Stance = .Standing →
        GetTargetMovementSettings s = s.MovementData.VelocityDirection.Standing) ∧
    (s.RotationMode = .VelocityDirection → s.Stance = .Crouching →
        GetTargetMovementSettings s = s.MovementData.VelocityDirection.Crouching) ∧
    (s.RotationMode = .LookingDirection → s.Stance = .Standing →
        GetTargetMovementSettings s = s.MovementData.LookingDirection.Standing) ∧
    (s.RotationMode = .LookingDirection → s.Stance = .Crouching →
        GetTargetMovementSettings s = s.MovementData.LookingDirection.Crouching) ∧
    (s.RotationMode = .Aiming → s.Stance = .Standing →
        GetTargetMovementSettings s = s.MovementData.Aiming.Standing) ∧
    (s.RotationMode = .Aiming → s.Stance = .Crouching →
        GetTargetMovementSettings s = s.MovementData.Aiming.Crouching) ∧
    (∀ (g dg : EBMGait) (ms pms : EBMMovementState) (ma : EBMMovementAction),
        GetTargetMovementSettings
          { s with Gait := g, DesiredGait := dg, MovementState := ms, PrevMovementState := pms,
                   MovementAction := ma } =
        GetTargetMovementSettings s) ∧
    (∀ n, s.RotationMode = .Other n ∨ s.Stance = .Other n →
        GetTargetMovementSettings s = s.MovementData.VelocityDirection.Standing) := by
  refine ⟨?_, ?_, ?_, ?_, ?_, ?_, ?_, ?_⟩
  · intro h1 h2; simp [GetTargetMovementSettings, h1, h2]
  · intro h1 h2; simp [GetTargetMovementSettings, h1, h2]
  · intro h1 h2; simp [GetTargetMovementSettings, h1, h2]
  · intro h1 h2; simp [GetTargetMovementSettings, h1, h2]
  · intro h1 h2; simp [GetTargetMovementSettings, h1, h2]
  · intro h1 h2; simp [GetTargetMovementSettings, h1, h2]
  · intro g dg ms pms ma; rfl
  · intro n h
    rcases h with h | h
    · simp [GetTargetMovementSettings, h]
    · simp only [GetTargetMovementSettings, h]
      split_ifs <;> simp_all

/-! ## C5 -/

/-- C5. `OnMovementModeChanged` with the movement mode Walking or NavWalking sets the movement
state through `SetMovementState(Grounded)` (and the state is Grounded afterwards); with Falling
it sets it through `SetMovementState(InAir)`; with any other mode (None, Flying, Swimming,
Custom) nothing but the log entry of the base class call changes, so `MovementState` and
`PrevMovementState` are kept, in particular a Ragdoll or Mantling state with mode None. -/
theorem C5_OnMovementModeChanged_maps_mode (fuel : Nat) (PrevMovementMode : EMovementMode)
    (s : ABMBaseCharacter) :
    (s.CharacterMovement.MovementMode = .MOVE_Walking ∨
        s.CharacterMovement.MovementMode = .MOVE_NavWalking →
      OnMovementModeChanged (fuel + 6) PrevMovementMode s =
        SetMovementState (fuel + 5) .Grounded
          { s with Log := s.Log ++ [.Super_OnMovementModeChanged PrevMovementMode] } ∧
      (OnMovementModeChanged (fuel + 6) PrevMovementMode s).fault = none ∧
      (OnMovementModeChanged (fuel + 6) PrevMovementMode s).state.MovementState = .Grounded) ∧
    (s.CharacterMovement.MovementMode = .MOVE_Falling →
      OnMovementModeChanged (fuel + 6) PrevMovementMode s =
        SetMovementState (fuel + 5) .InAir
          { s with Log := s.Log ++ [.Super_OnMovementModeChanged PrevMovementMode] } ∧
      (OnMovementModeChanged (fuel + 6) PrevMovementMode s).fault ≠ some .OutOfFuel) ∧
    (s.CharacterMovement.MovementMode = .MOVE_None ∨
        s.CharacterMovement.MovementMode = .MOVE_Flying ∨
        s.CharacterMovement.MovementMode = .MOVE_Swimming ∨
        s.CharacterMovement.MovementMode = .MOVE_Custom →
      OnMovementModeChanged (fuel + 6) PrevMovementMode s =
        .ok () { s with Log := s.Log ++ [.Super_OnMovementModeChanged PrevMovementMode] } ∧
      (OnMovementModeChanged (fuel + 6) PrevMovementMode s).state.MovementState =
        s.MovementState ∧
      (OnMovementModeChanged (fuel + 6) PrevMovementMode s).state.PrevMovementState =
        s.PrevMovementState) := by
  refine ⟨?_, ?_, ?_⟩
  · intro h
    have e : OnMovementModeChanged (fuel + 6) PrevMovementMode s =
        SetMovementState (fuel + 5) .Grounded
          { s with Log := s.Log ++ [.Super_OnMovementModeChanged PrevMovementMode] } := by
      simp [OnMovementModeChanged, h]
    refine ⟨e, ?_, ?_⟩
    · rw [e, SetMovementState_fault]
      simp
    · have key : ∀ s1 : ABMBaseCharacter,
          (SetMovementState (fuel + 5) .Grounded s1).state.MovementState = .Grounded := by
        intro s1
        by_cases hG : s1.MovementState = .Grounded
        · rw [SetMovementState_same (fuel + 4) .Grounded s1 hG]
          exact hG
        · exact (SetMovementState_plain (fuel + 3) .Grounded s1 hG (by simp)).2.1
      rw [e]
      exact key _
  · intro h
    have e : OnMovementModeChanged (fuel + 6) PrevMovementMode s =
        SetMovementState (fuel + 5) .InAir
          { s with Log := s.Log ++ [.Super_OnMovementModeChanged PrevMovementMode] } := by
      simp [OnMovementModeChanged, h]
    refine ⟨e, ?_⟩
    rw [e, SetMovementState_fault]
    split_ifs <;> simp
  · intro h
    have e := OnMovementModeChanged_other (fuel + 5) PrevMovementMode s
      (by rcases h with h | h | h | h <;> simp [h])
      (by rcases h with h | h | h | h <;> simp [h])
      (by rcases h with h | h | h | h <;> simp [h])
    refine ⟨e, ?_, ?_⟩ <;> rw [e] <;> rfl

/-! ## C6 -/

/-- C6. `GetAllowedGait` never exceeds `DesiredGait` in the order Walking < Running <
Sprinting: it is `DesiredGait` when that is Walking or Running; when `DesiredGait` is Sprinting
it is Sprinting exactly when the stance is Standing, the rotation mode is not Aiming and
`CanSprint` holds, and Running otherwise; so a crouching or aiming character never sprints. -/
theorem C6_GetAllowedGait_bounded_by_desired (E : Engine) (s : ABMBaseCharacter) :
    (GetAllowedGait E s).rank ≤ s.DesiredGait.rank ∧
    (s.DesiredGait = .Walking ∨ s.DesiredGait = .Running →
      GetAllowedGait E s = s.DesiredGait) ∧
    (s.DesiredGait = .Sprinting →
      (GetAllowedGait E s = .Sprinting ↔
        s.Stance = .Standing ∧ s.RotationMode ≠ .Aiming ∧ CanSprint E s = true) ∧
      (¬ (s.Stance = .Standing ∧ s.RotationMode ≠ .Aiming ∧ CanSprint E s = true) →
        GetAllowedGait E s = .Running)) ∧
    (s.Stance = .Crouching ∨ s.RotationMode = .Aiming → GetAllowedGait E s ≠ .Sprinting) := by
  by_cases hSt : s.Stance = .Standing <;>
  by_cases hR : s.RotationMode = .Aiming <;>
  by_cases hC : CanSprint E s = true <;>
  cases hD : s.DesiredGait <;>
  simp [GetAllowedGait, EBMGait.rank, hSt, hR, hC, hD]

/-! ## C7 -/

/-- C7, for the thresholds the code compares with: with R10 and W10 the single-precision sums
RunSpeed + 10.0f and WalkSpeed + 10.0f (each within half a unit in the last place of the exact
sum), `GetActualGait` is Sprinting if and only if the allowed gait is Sprinting and
Speed > R10; otherwise it is Running if Speed > R10 or Speed >= W10, and Walking in the
remaining case.  In particular with the allowed gait Walking and Speed >= W10 the result,
Running, exceeds the allowed gait. -/
theorem C7_GetActualGait_from_speed (s : ABMBaseCharacter) (AllowedGait : EBMGait) :
    (GetActualGait s AllowedGait = .Sprinting ↔
      AllowedGait = .Sprinting ∧
        s.Speed > Float32.Add s.CurrentMovementSettings.RunSpeed 10) ∧
    (¬ (AllowedGait = .Sprinting ∧
        s.Speed > Float32.Add s.CurrentMovementSettings.RunSpeed 10) →
      (s.Speed > Float32.Add s.CurrentMovementSettings.RunSpeed 10 ∨
        s.Speed ≥ Float32.Add s.CurrentMovementSettings.WalkSpeed 10) →
      GetActualGait s AllowedGait = .Running) ∧
    (¬ (AllowedGait = .Sprinting ∧
        s.Speed > Float32.Add s.CurrentMovementSettings.RunSpeed 10) →
      ¬ (s.Speed > Float32.Add s.CurrentMovementSettings.RunSpeed 10 ∨
        s.Speed ≥ Float32.Add s.CurrentMovementSettings.WalkSpeed 10) →
      GetActualGait s AllowedGait = .Walking) ∧
    (AllowedGait = .Walking → s.Speed ≥ Float32.Add s.CurrentMovementSettings.WalkSpeed 10 →
      GetActualGait s AllowedGait = .Running ∧
        AllowedGait.rank < (GetActualGait s AllowedGait).rank) ∧
    |Float32.Add s.CurrentMovementSettings.RunSpeed 10 -
        (s.CurrentMovementSettings.RunSpeed + 10)| ≤
      Float32.Ulp (s.CurrentMovementSettings.RunSpeed + 10) / 2 ∧
    |Float32.Add s.CurrentMovementSettings.WalkSpeed 10 -
        (s.CurrentMovementSettings.WalkSpeed + 10)| ≤
      Float32.Ulp (s.CurrentMovementSettings.WalkSpeed + 10) / 2 := by
  refine ⟨?_, ?_, ?_, ?_, Float32.abs_Round_sub_le _, Float32.abs_Round_sub_le _⟩ <;>
  by_cases hA : AllowedGait = .Sprinting <;>
  by_cases h1 : s.Speed > Float32.Add s.CurrentMovementSettings.RunSpeed 10 <;>
  by_cases h2 : s.Speed ≥ Float32.Add s.CurrentMovementSettings.WalkSpeed 10 <;>
  simp [GetActualGait, hA, h1, h2] <;>
  intro hW <;> simp [hW, EBMGait.rank]

/-- C7 as stated, with the exact sums, fails.  At the run speed 511.48068 and the speed
521.4807, both single-precision numbers, the speed is above RunSpeed + 10, yet with the allowed
gait Sprinting the result is Running: the single-precision sum is the speed itself.  At the
walk speed 118.4 and the speed 128.399994 the speed is below WalkSpeed + 10, yet the result is
Running, not Walking. -/
theorem C7_counterexample_rounded_threshold :
    (Float32.Round Example.AtRunThreshold.Speed = Example.AtRunThreshold.Speed ∧
      Float32.Round Example.AtRunThreshold.CurrentMovementSettings.RunSpeed =
        Example.AtRunThreshold.CurrentMovementSettings.RunSpeed ∧
      Example.AtRunThreshold.Speed >
        Example.AtRunThreshold.CurrentMovementSettings.RunSpeed + 10 ∧
      GetActualGait Example.AtRunThreshold .Sprinting = .Running) ∧
    (Float32.Round Example.AtWalkThreshold.Speed = Example.AtWalkThreshold.Speed ∧
      Float32.Round Example.AtWalkThreshold.CurrentMovementSettings.WalkSpeed =
        Example.AtWalkThreshold.CurrentMovementSettings.WalkSpeed ∧
      ¬ (Example.AtWalkThreshold.Speed >
          Example.AtWalkThreshold.CurrentMovementSettings.RunSpeed + 10 ∨
        Example.AtWalkThreshold.Speed ≥
          Example.AtWalkThreshold.CurrentMovementSettings.WalkSpeed + 10) ∧
      GetActualGait Example.AtWalkThreshold .Walking = .Running) := by
  have hR : Float32.Add (16760199 / 32768) 10 = 2135985 / 4096 := by
    unfold Float32.Add
    rw [Float32.Round_eq_tie _ 9 8543940 (by norm_num) (by norm_num) (by norm_num)
      (by norm_num) (by norm_num)]
    norm_num
  have hW : Float32.Add (15518925 / 131072) 10 = 4207411 / 32768 := by
    unfold Float32.Add
    rw [Float32.Round_eq_tie _ 7 8414822 (by norm_num) (by norm_num) (by norm_num)
      (by norm_num) (by norm_num)]
    norm_num
  have hR2 : Float32.Add 375 10 = 385 := by
    unfold Float32.Add
    have h := Float32.Round_natCast 385 (by norm_num)
    norm_num at h ⊢
    exact h
  have hW2 : Float32.Add 165 10 = 175 := by
    unfold Float32.Add
    have h := Float32.Round_natCast 175 (by norm_num)
    norm_num at h ⊢
    exact h
  refine ⟨⟨?_, ?_, ?_, ?_⟩, ?_, ?_, ?_, ?_⟩
  · exact Float32.Round_eq_self _ 9 8543940 (by norm_num) (by norm_num [Example.AtRunThreshold])
      (by norm_num [Example.AtRunThreshold]) (by norm_num [Example.AtRunThreshold])
  · exact Float32.Round_eq_self _ 8 16760199 (by norm_num)
      (by norm_num [Example.AtRunThreshold]) (by norm_num [Example.AtRunThreshold])
      (by norm_num [Example.AtRunThreshold])
  · norm_num [Example.AtRunThreshold]
  · simp only [GetActualGait, Example.AtRunThreshold, hR, hW2]
    norm_num
  · exact Float32.Round_eq_self _ 7 8414822 (by norm_num)
      (by norm_num [Example.AtWalkThreshold]) (by norm_num [Example.AtWalkThreshold])
      (by norm_num [Example.AtWalkThreshold])
  · exact Float32.Round_eq_self _ 6 15518925 (by norm_num)
      (by norm_num [Example.AtWalkThreshold]) (by norm_num [Example.AtWalkThreshold])
      (by norm_num [Example.AtWalkThreshold])
  · norm_num [Example.AtWalkThreshold]
  · simp only [GetActualGait, Example.AtWalkThreshold, hR2, hW]
    norm_num

/-! ## C8 -/

/-- For a single-precision value, an infinity or NaN, being above the literal `0.9f` is being
above 0.9. -/
theorem Float32.GreaterThan_literal (x : Float32) (hx : x.IsValue) :
    x.GreaterThan (Float32.Round (9 / 10)) = x.GreaterThan (9 / 10) := by
  cases x with
  | Finite v =>
    have h := Float32.gt_literal_iff v hx
    simp only [Float32.GreaterThan]
    by_cases h1 : v > 9 / 10
    · rw [decide_eq_true h1, decide_eq_true (h.mpr h1)]
    · rw [decide_eq_false h1, decide_eq_false (fun h2 => h1 (h.mp h2))]
  | PosInf => rfl
  | NegInf => rfl
  | NaN => rfl

/-- C8. With `MovementInputAmount` a value of type `float`: `CanSprint` is false whenever there
is no movement input or the rotation mode is Aiming; with movement input in VelocityDirection
mode it is true exactly when MovementInputAmount > 0.9 (and so it is on every state in which
`bHasMovementInput` is the flag `SetEssentialValues` stores, MovementInputAmount > 0); in
LookingDirection mode it is true only if (and if) there is movement input,
MovementInputAmount > 0.9 and the absolute value of the normalized yaw difference between the
acceleration orientation and the control rotation is below 50, the difference being the one
the code computes, in single precision, and the normalization the engine's. -/
theorem C8_CanSprint_conditions (E : Engine) (s : ABMBaseCharacter)
    (hm : s.MovementInputAmount.IsValue) :
    ((s.bHasMovementInput = false ∨ s.RotationMode = .Aiming) → CanSprint E s = false) ∧
    (s.RotationMode = .VelocityDirection → s.bHasMovementInput = true →
      (CanSprint E s = true ↔ s.MovementInputAmount.GreaterThan (9 / 10) = true)) ∧
    (s.RotationMode = .VelocityDirection →
      s.bHasMovementInput = s.MovementInputAmount.GreaterThan 0 →
      (CanSprint E s = true ↔ s.MovementInputAmount.GreaterThan (9 / 10) = true)) ∧
    (s.RotationMode = .LookingDirection →
      (CanSprint E s = true ↔
        s.bHasMovementInput = true ∧ s.MovementInputAmount.GreaterThan (9 / 10) = true ∧
        |(E.NormalizeRotator
            ((E.ToOrientationRotator s.CharacterMovement.CurrentAcceleration).sub
              s.ControlRotation)).Yaw| < 50)) ∧
    ((E.ToOrientationRotator s.CharacterMovement.CurrentAcceleration).sub s.ControlRotation).Yaw =
      Float32.Sub (E.ToOrientationRotator s.CharacterMovement.CurrentAcceleration).Yaw
        s.ControlRotation.Yaw := by
  have hlit := Float32.GreaterThan_literal s.MovementInputAmount hm
  refine ⟨?_, ?_, ?_, ?_, rfl⟩
  · rintro (h | h) <;> simp [CanSprint, h]
  · intro hR hI
    simp [CanSprint, hR, hI, hlit]
  · intro hR hInv
    by_cases hI : s.bHasMovementInput = true
    · simp [CanSprint, hR, hI, hlit]
    · have hI2 : s.bHasMovementInput = false := by simpa using hI
      have hle : s.MovementInputAmount.GreaterThan 0 = false := by rw [← hInv, hI2]
      have : s.MovementInputAmount.GreaterThan (9 / 10) = false := by
        cases hx : s.MovementInputAmount with
        | Finite v =>
          rw [hx] at hle
          simp only [Float32.GreaterThan, decide_eq_false_iff_not, not_lt] at hle ⊢
          linarith
        | PosInf => rw [hx] at hle; simp [Float32.GreaterThan] at hle
        | NegInf => rfl
        | NaN => rfl
      simp [CanSprint, hR, hI2, this]
  · intro hR
    by_cases hI : s.bHasMovementInput = true
    · simp [CanSprint, hR, hI, hlit, FMath.Abs_eq_abs]
    · have hI2 : s.bHasMovementInput = false := by simpa using hI
      simp [CanSprint, hR, hI2]

/-- C8 at concrete inputs: the character with full movement input (the input amount 1) in
VelocityDirection mode can sprint; in LookingDirection mode with the acceleration at the yaw 50
and the control yaw 1e-7 it cannot, the single-precision difference of the yaws being 50
(the exact difference is below 50). -/
theorem C8_witness :
    CanSprint Example.World Example.Character = true ∧
    (Example.WorldYaw50.ToOrientationRotator
        Example.LookingAside.CharacterMovement.CurrentAcceleration).Yaw -
      Example.LookingAside.ControlRotation.Yaw < 50 ∧
    CanSprint Example.WorldYaw50 Example.LookingAside = false := by
  have hm : Example.Character.MovementInputAmount.IsValue := by
    have h := Float32.Round_natCast 1 (by norm_num)
    simpa [Example.Character, Float32.IsValue] using h
  have hgt : Example.Character.MovementInputAmount.GreaterThan (9 / 10) = true := by
    simp [Example.Character, Float32.GreaterThan]
    norm_num
  have a1 : Float32.Sub 50 (14073749 / 140737488355328) = 50 := by
    unfold Float32.Sub
    rw [Float32.Round_eq _ 5 13107200 (by norm_num) (by norm_num) (by norm_num) (by norm_num)]
    norm_num
  refine ⟨((C8_CanSprint_conditions Example.World Example.Character hm).2.1 rfl rfl).mpr hgt,
    by norm_num [Example.WorldYaw50, Example.LookingAside], ?_⟩
  have h := (C8_CanSprint_conditions Example.WorldYaw50 Example.LookingAside hm).2.2.2.1 rfl
  have hyaw := (C8_CanSprint_conditions Example.WorldYaw50 Example.LookingAside hm).2.2.2.2
  rw [Bool.eq_false_iff]
  intro hc
  have h50 := (h.mp hc).2.2
  have e : (Example.WorldYaw50.NormalizeRotator
      ((Example.WorldYaw50.ToOrientationRotator
        Example.LookingAside.CharacterMovement.CurrentAcceleration).sub
        Example.LookingAside.ControlRotation)).Yaw = 50 := by
    have : (Example.WorldYaw50.NormalizeRotator
      ((Example.WorldYaw50.ToOrientationRotator
        Example.LookingAside.CharacterMovement.CurrentAcceleration).sub
        Example.LookingAside.ControlRotation)).Yaw =
        ((Example.WorldYaw50.ToOrientationRotator
        Example.LookingAside.CharacterMovement.CurrentAcceleration).sub
        Example.LookingAside.ControlRotation).Yaw := rfl
    rw [this, hyaw]
    exact a1
  rw [e] at h50
  norm_num at h50

/-! ## C9 -/

/-- C9. For movement settings with 0 < WalkSpeed < RunSpeed < SprintSpeed and Speed >= 0,
`GetMappedSpeed` lies in [0, 3], is 0 at speed 0, 1 at the walk speed, 2 at the run speed and 3
from the sprint speed on, and is linear inside each of the three segments. -/
theorem C9_GetMappedSpeed_piecewise_linear (s : ABMBaseCharacter)
    (hWalk : 0 < s.CurrentMovementSettings.WalkSpeed)
    (hRun : s.CurrentMovementSettings.WalkSpeed < s.CurrentMovementSettings.RunSpeed)
    (hSprint : s.CurrentMovementSettings.RunSpeed < s.CurrentMovementSettings.SprintSpeed)
    (hSpeed : 0 ≤ s.Speed) :
    (0 ≤ GetMappedSpeed s ∧ GetMappedSpeed s ≤ 3) ∧
    (s.Speed = 0 → GetMappedSpeed s = 0) ∧
    (s.Speed = s.CurrentMovementSettings.WalkSpeed → GetMappedSpeed s = 1) ∧
    (s.Speed = s.CurrentMovementSettings.RunSpeed → GetMappedSpeed s = 2) ∧
    (s.CurrentMovementSettings.SprintSpeed ≤ s.Speed → GetMappedSpeed s = 3) ∧
    (s.Speed ≤ s.CurrentMovementSettings.WalkSpeed →
      GetMappedSpeed s = s.Speed / s.CurrentMovementSettings.WalkSpeed) ∧
    (s.CurrentMovementSettings.WalkSpeed < s.Speed →
      s.Speed ≤ s.CurrentMovementSettings.RunSpeed →
      GetMappedSpeed s =
        1 + (s.Speed - s.CurrentMovementSettings.WalkSpeed) /
          (s.CurrentMovementSettings.RunSpeed - s.CurrentMovementSettings.WalkSpeed)) ∧
    (s.CurrentMovementSettings.RunSpeed < s.Speed →
      s.Speed ≤ s.CurrentMovementSettings.SprintSpeed →
      GetMappedSpeed s =
        2 + (s.Speed - s.CurrentMovementSettings.RunSpeed) /
          (s.CurrentMovementSettings.SprintSpeed - s.CurrentMovementSettings.RunSpeed)) := by
  generalize hW : s.CurrentMovementSettings.WalkSpeed = W at *
  generalize hR : s.CurrentMovementSettings.RunSpeed = R at *
  generalize hS : s.CurrentMovementSettings.SprintSpeed = S at *
  generalize hV : s.Speed = V at *
  have seg1 : V ≤ W → GetMappedSpeed s = V / W := by
    intro h
    have n1 : ¬ V > R := by linarith
    have n2 : ¬ V > W := by linarith
    simp only [GetMappedSpeed, hW, hR, hS, hV, n1, n2, if_false]
    rw [FMath.GetMappedRangeValueClamped_inside 0 W 0 1 V hWalk hSpeed h]
    ring
  have seg2 : W < V → V ≤ R → GetMappedSpeed s = 1 + (V - W) / (R - W) := by
    intro h h'
    have n1 : ¬ V > R := by linarith
    simp only [GetMappedSpeed, hW, hR, hS, hV, n1, if_false, gt_iff_lt, h, if_true]
    rw [FMath.GetMappedRangeValueClamped_inside W R 1 2 V hRun h.le h']
    ring
  have seg3 : R < V → V ≤ S → GetMappedSpeed s = 2 + (V - R) / (S - R) := by
    intro h h'
    simp only [GetMappedSpeed, hW, hR, hS, hV, gt_iff_lt, h, if_true]
    rw [FMath.GetMappedRangeValueClamped_inside R S 2 3 V hSprint h.le h']
    ring
  have top : S ≤ V → GetMappedSpeed s = 3 := by
    intro h
    have h1 : R < V := by linarith
    simp only [GetMappedSpeed, hW, hR, hS, hV, gt_iff_lt, h1, if_true]
    exact FMath.GetMappedRangeValueClamped_above R S 2 3 V hSprint h
  have hRW : 0 < R - W := by linarith
  have hSR : 0 < S - R := by linarith
  refine ⟨?_, ?_, ?_, ?_, top, seg1, seg2, seg3⟩
  · rcases le_or_lt V W with h | h
    · rw [seg1 h]
      exact ⟨div_nonneg hSpeed hWalk.le, by
        have : V / W ≤ 1 := by rw [div_le_one hWalk]; exact h
        linarith⟩
    · rcases le_or_lt V R with h' | h'
      · rw [seg2 h h']
        have a0 : 0 ≤ (V - W) / (R - W) := div_nonneg (by linarith) hRW.le
        have a1 : (V - W) / (R - W) ≤ 1 := by rw [div_le_one hRW]; linarith
        exact ⟨by linarith, by linarith⟩
      · rcases le_or_lt V S with h'' | h''
        · rw [seg3 h' h'']
          have a0 : 0 ≤ (V - R) / (S - R) := div_nonneg (by linarith) hSR.le
          have a1 : (V - R) / (S - R) ≤ 1 := by rw [div_le_one hSR]; linarith
          exact ⟨by linarith, by linarith⟩
        · rw [top h''.le]
          exact ⟨by norm_num, le_refl _⟩
  · intro h0
    rw [seg1 (by linarith), h0, zero_div]
  · intro h0
    rw [seg1 h0.le, h0, div_self hWalk.ne.symm]
  · intro h0
    rw [seg2 (by linarith) h0.le, h0, div_self hRW.ne.symm]
    norm_num

/-- C9 at a concrete input: walk 165, run 375, sprint 650 and speed 165. -/
theorem C9_GetMappedSpeed_witness :
    (0 ≤ GetMappedSpeed Example.Character ∧ GetMappedSpeed Example.Character ≤ 3) ∧
    GetMappedSpeed Example.Character = 1 :=
  have h := C9_GetMappedSpeed_piecewise_linear Example.Character
    (by norm_num [Example.Character, Example.Settings])
    (by norm_num [Example.Character, Example.Settings])
    (by norm_num [Example.Character, Example.Settings])
    (by norm_num [Example.Character])
  ⟨h.1, h.2.2.1 (by norm_num [Example.Character, Example.Settings])⟩

/-! ## C10 -/

/-- When mantling is allowed, the forward trace finds an obstacle that cannot be walked on, the
downward trace finds a walkable surface and the capsule has room on it, `MantleCheck` is a call
of `MantleStart` followed by `return true`. -/
theorem MantleCheck_starts (fuel : Nat) (E : Engine) (TraceSettings : FBMMantleTraceSettings)
    (s : ABMBaseCharacter) (pc : ABMPlayerController)
    (hAllow : s.bAllowMantle = true)
    (hPC : s.PlayerController = some pc)
    (hWorld : s.bWorldValid = true)
    (hFwd : (MantleForwardHit E TraceSettings s pc.PlayerMovementInput).IsValidBlockingHit = true)
    (hWall : E.IsWalkable (MantleForwardHit E TraceSettings s pc.PlayerMovementInput) = false)
    (hDown : E.IsWalkable (MantleDownwardHit E TraceSettings s pc.PlayerMovementInput) = true)
    (hRoom : (MantleRoomHit E TraceSettings s pc.PlayerMovementInput).bBlockingHit = false ∧
      (MantleRoomHit E TraceSettings s pc.PlayerMovementInput).bStartPenetrating = false) :
    MantleCheck fuel E TraceSettings s =
      (do
        MantleStart fuel E (MantleHeightOf E TraceSettings s pc.PlayerMovementInput)
          (MantleLedgeOf E TraceSettings s pc.PlayerMovementInput)
          (MantleTypeOf s (MantleHeightOf E TraceSettings s pc.PlayerMovementInput))
        pure true : Exec Bool) s := by
  obtain ⟨hRoom1, hRoom2⟩ := hRoom
  simp only [MantleRoomHit, MantleCapsuleLocation, MantleDownwardHit, MantleForwardHit] at hFwd hWall hDown hRoom1 hRoom2
  simp only [MantleCheck, GetPlayerMovementInput, CapsuleHasRoomCheck, MantleHeightOf,
    MantleLedgeOf, MantleTypeOf, MantleCapsuleLocation, MantleDownwardHit, MantleForwardHit,
    Exec.bind_eq, Exec.pure_eq, Exec.andThen_apply, Exec.this_apply, Exec.ret_apply,
    Exec.ite_apply, Exec.check_apply, hAllow, hPC, hWorld, Option.isSome_some, Exec.deref_some,
    if_true, Bool.not_true, Bool.false_eq_true, if_false, hFwd, hWall, hDown, hRoom1, hRoom2,
    Bool.or_self, Bool.not_false]

/-- With `bAllowMantle` off `MantleCheck` returns false at once. -/
theorem MantleCheck_not_allowed (fuel : Nat) (E : Engine)
    (TraceSettings : FBMMantleTraceSettings) (s : ABMBaseCharacter)
    (hAllow : s.bAllowMantle = false) :
    MantleCheck fuel E TraceSettings s = .ok false s := by
  simp [MantleCheck, hAllow]

/-- Without a player controller `MantleCheck` halts at `check(PlayerController)`. -/
theorem MantleCheck_no_controller (fuel : Nat) (E : Engine)
    (TraceSettings : FBMMantleTraceSettings) (s : ABMBaseCharacter)
    (hAllow : s.bAllowMantle = true) (hPC : s.PlayerController = none) :
    MantleCheck fuel E TraceSettings s = .halt (.CheckFailed .PlayerController) s := by
  simp [MantleCheck, GetPlayerMovementInput, hAllow, hPC]

/-- When both traces succeed but the room sweep is blocked `MantleCheck` returns false. -/
theorem MantleCheck_no_room (fuel : Nat) (E : Engine) (TraceSettings : FBMMantleTraceSettings)
    (s : ABMBaseCharacter) (pc : ABMPlayerController)
    (hAllow : s.bAllowMantle = true)
    (hPC : s.PlayerController = some pc)
    (hWorld : s.bWorldValid = true)
    (hFwd : (MantleForwardHit E TraceSettings s pc.PlayerMovementInput).IsValidBlockingHit = true)
    (hWall : E.IsWalkable (MantleForwardHit E TraceSettings s pc.PlayerMovementInput) = false)
    (hDown : E.IsWalkable (MantleDownwardHit E TraceSettings s pc.PlayerMovementInput) = true)
    (hRoom : (MantleRoomHit E TraceSettings s pc.PlayerMovementInput).bBlockingHit = true) :
    MantleCheck fuel E TraceSettings s = .ok false s := by
  simp only [MantleRoomHit, MantleCapsuleLocation, MantleDownwardHit, MantleForwardHit] at hFwd hWall hDown hRoom
  simp only [MantleCheck, GetPlayerMovementInput, CapsuleHasRoomCheck,
    Exec.bind_eq, Exec.pure_eq, Exec.andThen_apply, Exec.this_apply, Exec.ret_apply,
    Exec.ite_apply, Exec.check_apply, hAllow, hPC, hWorld, Option.isSome_some, Exec.deref_some,
    if_true, Bool.not_true, Bool.false_eq_true, if_false, hFwd, hWall, hDown, hRoom,
    Bool.true_or, Bool.or_self, Bool.not_false]

/-- C10, as stated, fails.  In a world where the forward trace hits a wall that cannot be walked
on and the downward trace hits a walkable ledge, `MantleCheck` returns false without starting a
mantle (i) when `bAllowMantle` is off and (ii) when the capsule has no room on the ledge; and
(iii) when the animation instance needed for the montage is absent the run halts at
`check(MainAnimInstance)` and returns nothing. -/
theorem C10_counterexample_traces_succeed_no_mantle :
    -- both traces succeed
    ((MantleForwardHit Example.World Example.TraceSettings Example.Character
        ⟨1, 0, 0⟩).IsValidBlockingHit = true ∧
      Example.World.IsWalkable
        (MantleForwardHit Example.World Example.TraceSettings Example.Character ⟨1, 0, 0⟩) =
          false ∧
      Example.World.IsWalkable
        (MantleDownwardHit Example.World Example.TraceSettings Example.Character ⟨1, 0, 0⟩) =
          true) ∧
    -- (i) mantling is not allowed
    ((MantleCheck 7 Example.World Example.TraceSettings
        { Example.Character with bAllowMantle := false }).value = some false ∧
      (MantleCheck 7 Example.World Example.TraceSettings
        { Example.Character with bAllowMantle := false }).state.MovementState = .Grounded ∧
      (MantleCheck 7 Example.World Example.TraceSettings
        { Example.Character with bAllowMantle := false }).state.Log = []) ∧
    -- (ii) no room on the ledge
    ((MantleForwardHit Example.WorldNoRoom Example.TraceSettings Example.Character
        ⟨1, 0, 0⟩).IsValidBlockingHit = true ∧
      Example.WorldNoRoom.IsWalkable
        (MantleForwardHit Example.WorldNoRoom Example.TraceSettings Example.Character
          ⟨1, 0, 0⟩) = false ∧
      Example.WorldNoRoom.IsWalkable
        (MantleDownwardHit Example.WorldNoRoom Example.TraceSettings Example.Character
          ⟨1, 0, 0⟩) = true ∧
      (MantleCheck 7 Example.WorldNoRoom Example.TraceSettings Example.Character).value =
        some false ∧
      (MantleCheck 7 Example.WorldNoRoom Example.TraceSettings
        Example.Character).state.MovementState = .Grounded ∧
      (MantleCheck 7 Example.WorldNoRoom Example.TraceSettings Example.Character).state.Log =
        []) ∧
    -- (iii) no animation instance for the montage
    ((MantleCheck 7 Example.World Example.TraceSettings
        { Example.Character with MainAnimInstance := none }).value = none ∧
      (MantleCheck 7 Example.World Example.TraceSettings
        { Example.Character with MainAnimInstance := none }).fault =
          some (.CheckFailed .MainAnimInstance)) := by
  have f1 : (MantleForwardHit Example.World Example.TraceSettings Example.Character
      ⟨1, 0, 0⟩).IsValidBlockingHit = true := by
    simp [MantleForwardHit, Example.World, Example.WallHit, FHitResult.IsValidBlockingHit]
  have f2 : Example.World.IsWalkable
      (MantleForwardHit Example.World Example.TraceSettings Example.Character ⟨1, 0, 0⟩) =
        false := by
    norm_num [MantleForwardHit, Example.World, Example.WallHit, FHitResult.IsValidBlockingHit]
  have f3 : Example.World.IsWalkable
      (MantleDownwardHit Example.World Example.TraceSettings Example.Character ⟨1, 0, 0⟩) =
        true := by
    norm_num [MantleDownwardHit, Example.World, Example.LedgeHit, FHitResult.IsValidBlockingHit]
  have g1 : (MantleForwardHit Example.WorldNoRoom Example.TraceSettings Example.Character
      ⟨1, 0, 0⟩).IsValidBlockingHit = true := f1
  have g2 : Example.WorldNoRoom.IsWalkable
      (MantleForwardHit Example.WorldNoRoom Example.TraceSettings Example.Character
        ⟨1, 0, 0⟩) = false := f2
  have g3 : Example.WorldNoRoom.IsWalkable
      (MantleDownwardHit Example.WorldNoRoom Example.TraceSettings Example.Character
        ⟨1, 0, 0⟩) = true := f3
  have e1 := MantleCheck_not_allowed 7 Example.World Example.TraceSettings
    { Example.Character with bAllowMantle := false } rfl
  have e2 := MantleCheck_no_room 7 Example.WorldNoRoom Example.TraceSettings Example.Character
    ⟨⟨1, 0, 0⟩⟩ rfl rfl rfl g1 g2 g3
    (by simp [MantleRoomHit, Example.WorldNoRoom, Example.WallHit])
  have e3 := MantleCheck_starts 7 Example.World Example.TraceSettings
    { Example.Character with MainAnimInstance := none } ⟨⟨1, 0, 0⟩⟩ rfl rfl rfl f1 f2 f3
    (by simp [MantleRoomHit, Example.World, Example.NoHit])
  have e4 := (MantleStart_no_anim 5 Example.World
    (MantleHeightOf Example.World Example.TraceSettings
      { Example.Character with MainAnimInstance := none } ⟨1, 0, 0⟩)
    (MantleLedgeOf Example.World Example.TraceSettings
      { Example.Character with MainAnimInstance := none } ⟨1, 0, 0⟩)
    (MantleTypeOf { Example.Character with MainAnimInstance := none }
      (MantleHeightOf Example.World Example.TraceSettings
        { Example.Character with MainAnimInstance := none } ⟨1, 0, 0⟩))
    { Example.Character with MainAnimInstance := none } 7 3 4
    (by simp [MantleLedgeOf, MantleDownwardHit, Example.World, Example.LedgeHit])
    (by simp [Example.World, Example.MantleAsset])
    (by simp [Example.World, Example.MantleAsset]) rfl).1
  refine ⟨⟨f1, f2, f3⟩, ⟨?_, ?_, ?_⟩, ⟨g1, g2, g3, ?_, ?_, ?_⟩, ?_⟩
  · rw [e1]; rfl
  · rw [e1]; rfl
  · rw [e1]; rfl
  · rw [e2]; rfl
  · rw [e2]; rfl
  · rw [e2]; rfl
  · rw [e3]
    simp only [Exec.bind_eq, Exec.pure_eq, Exec.andThen_apply, Exec.ret_apply]
    revert e4
    cases MantleStart 7 Example.World
      (MantleHeightOf Example.World Example.TraceSettings
        { Example.Character with MainAnimInstance := none } ⟨1, 0, 0⟩)
      (MantleLedgeOf Example.World Example.TraceSettings
        { Example.Character with MainAnimInstance := none } ⟨1, 0, 0⟩)
      (MantleTypeOf { Example.Character with MainAnimInstance := none }
        (MantleHeightOf Example.World Example.TraceSettings
          { Example.Character with MainAnimInstance := none } ⟨1, 0, 0⟩))
      { Example.Character with MainAnimInstance := none } with
    | ok a s1 => intro e4; simp at e4
    | halt f s1 => intro e4; simpa using e4

/-- C10, amended. When `bAllowMantle` is set, the player controller and the world are present,
the forward trace has a valid blocking hit that cannot be walked on, the downward trace has a
walkable hit and `CapsuleHasRoomCheck` finds room on the ledge, `MantleCheck` calls `MantleStart`
(with the mantle height, ledge and type it computed); and when `MantleStart` runs to its end
(the hit component and the position/correction curve are present, and the animation instance is
present if the asset has a montage) the movement state is Mantling and `MantleCheck` returns
true. -/
theorem C10_MantleCheck_triggers_mantle (fuel : Nat) (E : Engine)
    (TraceSettings : FBMMantleTraceSettings) (s : ABMBaseCharacter) (pc : ABMPlayerController)
    (hAllow : s.bAllowMantle = true)
    (hPC : s.PlayerController = some pc)
    (hWorld : s.bWorldValid = true)
    (hFwd : (MantleForwardHit E TraceSettings s pc.PlayerMovementInput).IsValidBlockingHit = true)
    (hWall : E.IsWalkable (MantleForwardHit E TraceSettings s pc.PlayerMovementInput) = false)
    (hDown : E.IsWalkable (MantleDownwardHit E TraceSettings s pc.PlayerMovementInput) = true)
    (hRoom : (MantleRoomHit E TraceSettings s pc.PlayerMovementInput).bBlockingHit = false ∧
      (MantleRoomHit E TraceSettings s pc.PlayerMovementInput).bStartPenetrating = false) :
    -- MantleStart is called
    (MantleCheck (fuel + 2) E TraceSettings s =
      (do
        MantleStart (fuel + 2) E (MantleHeightOf E TraceSettings s pc.PlayerMovementInput)
          (MantleLedgeOf E TraceSettings s pc.PlayerMovementInput)
          (MantleTypeOf s (MantleHeightOf E TraceSettings s pc.PlayerMovementInput))
        pure true : Exec Bool) s) ∧
    (∃ rest, (MantleCheck (fuel + 2) E TraceSettings s).state.Log =
      s.Log ++
        Event.MantleStart (MantleHeightOf E TraceSettings s pc.PlayerMovementInput)
          (MantleLedgeOf E TraceSettings s pc.PlayerMovementInput)
          (MantleTypeOf s (MantleHeightOf E TraceSettings s pc.PlayerMovementInput)) :: rest) ∧
    -- and when it runs to its end the state is Mantling and the result is true
    ((MantleDownwardHit E TraceSettings s pc.PlayerMovementInput).Component ≠ none →
      (E.GetMantleAsset
        (MantleTypeOf s (MantleHeightOf E TraceSettings s
          pc.PlayerMovementInput))).PositionCorrectionCurve ≠ none →
      ((E.GetMantleAsset
        (MantleTypeOf s (MantleHeightOf E TraceSettings s
          pc.PlayerMovementInput))).AnimMontage = none ∨ s.MainAnimInstance.isSome = true) →
      (MantleCheck (fuel + 2) E TraceSettings s).value = some true ∧
      (MantleCheck (fuel + 2) E TraceSettings s).state.MovementState = .Mantling) := by
  have e := MantleCheck_starts (fuel + 2) E TraceSettings s pc hAllow hPC hWorld hFwd hWall hDown
    hRoom
  refine ⟨e, ?_, ?_⟩
  · obtain ⟨rest, hrest⟩ := MantleStart_log fuel E
      (MantleHeightOf E TraceSettings s pc.PlayerMovementInput)
      (MantleLedgeOf E TraceSettings s pc.PlayerMovementInput)
      (MantleTypeOf s (MantleHeightOf E TraceSettings s pc.PlayerMovementInput)) s
    refine ⟨rest, ?_⟩
    rw [e, ← hrest]
    simp only [Exec.bind_eq, Exec.pure_eq, Exec.andThen_apply, Exec.ret_apply]
    cases MantleStart (fuel + 2) E (MantleHeightOf E TraceSettings s pc.PlayerMovementInput)
      (MantleLedgeOf E TraceSettings s pc.PlayerMovementInput)
      (MantleTypeOf s (MantleHeightOf E TraceSettings s pc.PlayerMovementInput)) s <;> rfl
  · intro hC hK hA
    obtain ⟨c, hc⟩ := Option.ne_none_iff_exists'.mp hC
    obtain ⟨k, hk⟩ := Option.ne_none_iff_exists'.mp hK
    have hrun := MantleStart_run fuel E
      (MantleHeightOf E TraceSettings s pc.PlayerMovementInput)
      (MantleLedgeOf E TraceSettings s pc.PlayerMovementInput)
      (MantleTypeOf s (MantleHeightOf E TraceSettings s pc.PlayerMovementInput)) s c k
      (by simpa [MantleLedgeOf] using hc) hk hA
    rw [e]
    simp only [Exec.bind_eq, Exec.pure_eq, Exec.andThen_apply, Exec.ret_apply]
    revert hrun
    cases MantleStart (fuel + 2) E (MantleHeightOf E TraceSettings s pc.PlayerMovementInput)
      (MantleLedgeOf E TraceSettings s pc.PlayerMovementInput)
      (MantleTypeOf s (MantleHeightOf E TraceSettings s pc.PlayerMovementInput)) s with
    | ok a s1 => intro hrun; exact ⟨rfl, hrun.2.1⟩
    | halt f s1 => intro hrun; simp at hrun

/-- C10 amended, at a concrete input: the character in front of the wall with the ledge starts a
low mantle, is in the Mantling state afterwards and `MantleCheck` returns true. -/
theorem C10_MantleCheck_witness :
    (MantleCheck 2 Example.World Example.TraceSettings Example.Character).value = some true ∧
    (MantleCheck 2 Example.World Example.TraceSettings Example.Character).state.MovementState =
      .Mantling :=
  (C10_MantleCheck_triggers_mantle 0 Example.World Example.TraceSettings Example.Character
    ⟨⟨1, 0, 0⟩⟩ rfl rfl rfl
    (by simp [MantleForwardHit, Example.World, Example.WallHit, FHitResult.IsValidBlockingHit])
    (by norm_num [MantleForwardHit, Example.World, Example.WallHit,
      FHitResult.IsValidBlockingHit])
    (by norm_num [MantleDownwardHit, Example.World, Example.LedgeHit,
      FHitResult.IsValidBlockingHit])
    (by simp [MantleRoomHit, Example.World, Example.NoHit])).2.2
    (by simp [MantleDownwardHit, Example.World, Example.LedgeHit])
    (by simp [Example.World, Example.MantleAsset])
    (Or.inr rfl)

/-! ## The ragdoll, from start to end -/

@[simp] theorem Exec.derefWorld_apply (s : ABMBaseCharacter) :
    Exec.derefWorld s = if s.bWorldValid then .ok () s else .halt (.NullDeref .World) s := rfl

/-- Steps 1 and 2 of `RagdollStart` always run; the run then halts at the animation instance
when it is absent, and otherwise stops the montages and returns. -/
theorem RagdollStart_run (fuel : Nat) (s : ABMBaseCharacter) :
    RagdollStart (fuel + 3) s =
      if s.MainAnimInstance.isSome then
        .ok () { RagdollStarted s with Log := (RagdollStarted s).Log ++ [.Montage_Stop (2 / 10)] }
      else .halt (.NullDeref .MainAnimInstance) (RagdollStarted s) := by
  rw [RagdollStart_fuel]
  cases hA : s.MainAnimInstance <;>
  by_cases hM : s.CharacterMovement.MovementMode = .MOVE_None <;>
  by_cases hS : s.MovementState = .Ragdoll <;>
  by_cases hT : s.MovementState = .Mantling <;>
  simp [RagdollStart, RagdollStarted, SetMovementMode, SetMovementState, OnMovementStateChanged,
    OnMovementModeChanged, hM, hA, hS, hT] <;>
  rw [← hM]

/-- Setting the movement mode to Walking: nothing when it is Walking already; otherwise the
notification sets the movement state to Grounded. -/
theorem SetMovementMode_Walking (fuel : Nat) (s : ABMBaseCharacter) :
    SetMovementMode (fuel + 7) .MOVE_Walking s =
      if s.CharacterMovement.MovementMode = .MOVE_Walking then .ok () s
      else if s.MovementState = .Grounded then .ok () (ModeChanged .MOVE_Walking s)
      else .ok () (StateChanged .Grounded (ModeChanged .MOVE_Walking s)) := by
  by_cases hM : s.CharacterMovement.MovementMode = .MOVE_Walking
  · simp [SetMovementMode, hM]
  · by_cases hS : s.MovementState = .Grounded
    · simp [SetMovementMode, OnMovementModeChanged, SetMovementState, ModeChanged, hM, hS]
    · simp [SetMovementMode, OnMovementModeChanged, SetMovementState, OnMovementStateChanged,
        ModeChanged, StateChanged, hM, hS]

/-- Setting the movement mode to Falling: nothing when it is Falling already; otherwise the
notification sets the movement state to InAir, and the hook of that change starts the ragdoll
when the movement action is Rolling. -/
theorem SetMovementMode_Falling (fuel : Nat) (s : ABMBaseCharacter) :
    SetMovementMode (fuel + 7) .MOVE_Falling s =
      if s.CharacterMovement.MovementMode = .MOVE_Falling then .ok () s
      else if s.MovementState = .InAir then .ok () (ModeChanged .MOVE_Falling s)
      else if s.MovementAction = .Rolling then
        RagdollStart (fuel + 3) (StateChanged .InAir (ModeChanged .MOVE_Falling s))
      else if s.MovementAction = .None then
        .ok ()
          { StateChanged .InAir (ModeChanged .MOVE_Falling s) with
            InAirRotation := s.ActorRotation
            Log := (StateChanged .InAir (ModeChanged .MOVE_Falling s)).Log ++
              (if s.Stance = .Crouching then [.UnCrouch] else []) }
      else .ok () (StateChanged .InAir (ModeChanged .MOVE_Falling s)) := by
  by_cases hM : s.CharacterMovement.MovementMode = .MOVE_Falling
  · simp [SetMovementMode, hM]
  · by_cases hS : s.MovementState = .InAir
    · simp [SetMovementMode, OnMovementModeChanged, SetMovementState, ModeChanged, hM, hS]
    · by_cases hR : s.MovementAction = .Rolling
      · simp only [SetMovementMode, OnMovementModeChanged, Exec.bind_eq, Exec.pure_eq,
          Exec.andThen_apply, Exec.log_apply, Exec.this_apply, Exec.set_apply, Exec.ret_apply,
          Exec.ite_apply, hM, ne_eq, not_false_eq_true, if_true, if_false]
        simp only [reduceCtorEq, or_self, if_false, if_true]
        rw [if_neg hS, if_pos hR]
        exact SetMovementState_InAir_Rolling fuel (ModeChanged .MOVE_Falling s) hS hR
      · by_cases hN : s.MovementAction = .None
        · by_cases hC : s.Stance = .Crouching <;>
          simp [SetMovementMode, OnMovementModeChanged, SetMovementState,
            OnMovementStateChanged, ModeChanged, StateChanged, hM, hS, hR, hN, hC]
        · simp [SetMovementMode, OnMovementModeChanged, SetMovementState,
            OnMovementStateChanged, ModeChanged, StateChanged, hM, hS, hR, hN]

/-- `RagdollEnd` returns at once when the animation instance is absent. -/
theorem RagdollEnd_absent (fuel : Nat) (E : Engine) (s : ABMBaseCharacter)
    (hA : s.MainAnimInstance = none) : RagdollEnd fuel E s = .ok () s := by
  simp [RagdollEnd, hA]

/-- `RagdollEnd` on the ground, with the animation instance present. -/
theorem RagdollEnd_on_ground (fuel : Nat) (E : Engine) (s : ABMBaseCharacter)
    (hA : s.MainAnimInstance.isSome = true) (hG : s.bRagdollOnGround = true) :
    (RagdollEnd (fuel + 7) E s).fault = none ∧
    (RagdollEnd (fuel + 7) E s).state.CharacterMovement.MovementMode = .MOVE_Walking ∧
    (RagdollEnd (fuel + 7) E s).state.CharacterMovement.Velocity = s.CharacterMovement.Velocity ∧
    (RagdollEnd (fuel + 7) E s).state.Capsule.CollisionEnabled = .QueryAndPhysics ∧
    (RagdollEnd (fuel + 7) E s).state.Mesh.bSimulatePhysics = false ∧
    (RagdollEnd (fuel + 7) E s).state.MovementState =
      (if s.CharacterMovement.MovementMode = .MOVE_Walking then s.MovementState
        else .Grounded) := by
  obtain ⟨a, hA⟩ := Option.isSome_iff_exists.mp hA
  simp only [RagdollEnd, Exec.bind_eq, Exec.pure_eq, Exec.andThen_apply, Exec.log_apply,
    Exec.this_apply, Exec.set_apply, Exec.ret_apply, Exec.ite_apply, hA, hG, Exec.deref_some,
    Option.isSome_some, Bool.not_true, if_true, Bool.false_eq_true, if_false]
  rw [SetMovementMode_Walking]
  by_cases hM : s.CharacterMovement.MovementMode = .MOVE_Walking
  · simp [hM, hA]
  · by_cases hS : s.MovementState = .Grounded <;>
    simp [hM, hS, hA, ModeChanged, StateChanged]

/-- `RagdollEnd` in the air, with the animation instance present: the velocity, the capsule
collision and the mesh physics are as the source sets them last; the movement mode and the
movement state are what the notification of the mode change leaves, which is the ragdoll
again when the movement action is Rolling. -/
theorem RagdollEnd_in_air (fuel : Nat) (E : Engine) (s : ABMBaseCharacter)
    (hA : s.MainAnimInstance.isSome = true) (hG : s.bRagdollOnGround = false) :
    (RagdollEnd (fuel + 7) E s).fault = none ∧
    (RagdollEnd (fuel + 7) E s).state.CharacterMovement.Velocity = s.LastRagdollVelocity ∧
    (RagdollEnd (fuel + 7) E s).state.Capsule.CollisionEnabled = .QueryAndPhysics ∧
    (RagdollEnd (fuel + 7) E s).state.Mesh.bSimulatePhysics = false ∧
    (RagdollEnd (fuel + 7) E s).state.CharacterMovement.MovementMode =
      (if s.CharacterMovement.MovementMode ≠ .MOVE_Falling ∧ s.MovementState ≠ .InAir ∧
          s.MovementAction = .Rolling then .MOVE_None else .MOVE_Falling) ∧
    (RagdollEnd (fuel + 7) E s).state.MovementState =
      (if s.CharacterMovement.MovementMode = .MOVE_Falling then s.MovementState
        else if s.MovementState ≠ .InAir ∧ s.MovementAction = .Rolling then .Ragdoll
        else .InAir) := by
  obtain ⟨a, hA⟩ := Option.isSome_iff_exists.mp hA
  simp only [RagdollEnd, Exec.bind_eq, Exec.pure_eq, Exec.andThen_apply, Exec.log_apply,
    Exec.this_apply, Exec.set_apply, Exec.ret_apply, Exec.ite_apply, hA, hG, Exec.deref_some,
    Option.isSome_some, Bool.not_true, if_true, Bool.false_eq_true, if_false]
  rw [SetMovementMode_Falling]
  by_cases hM : s.CharacterMovement.MovementMode = .MOVE_Falling
  · simp [hM, hA]
  · by_cases hS : s.MovementState = .InAir
    · simp [hM, hS, hA, ModeChanged]
    · by_cases hR : s.MovementAction = .Rolling
      · simp only [hM, hS, hR, if_false, if_true]
        rw [RagdollStart_run]
        simp [hM, hS, hR, hA, ModeChanged, StateChanged, RagdollStarted]
      · by_cases hN : s.MovementAction = .None <;>
        simp [hM, hS, hR, hN, hA, ModeChanged, StateChanged]

/-! ## Landing -/

/-- `Landed` after the base class call: one of three branches, selected by the movement input
and the absolute vertical velocity. -/
theorem Landed_eq (fuel : Nat) (E : Engine) (Hit : FHitResult) (s : ABMBaseCharacter) :
    Landed fuel E Hit s =
      if s.bHasMovementInput = true ∧ FMath.Abs s.CharacterMovement.Velocity.Z ≥ 600 ∧
          FMath.Abs s.CharacterMovement.Velocity.Z ≤ 1000 then
        OnBreakfall_Implementation E { s with Log := s.Log ++ [.Super_Landed Hit] }
      else if FMath.Abs s.CharacterMovement.Velocity.Z > 1000 then
        RagdollStart fuel { s with Log := s.Log ++ [.Super_Landed Hit] }
      else if s.bWorldValid = true then
        .ok ()
          { s with
            CharacterMovement := { s.CharacterMovement with
              BrakingFrictionFactor := if s.bHasMovementInput = true then 1 / 2 else 3 }
            OnLandedFrictionResetTimer := some ⟨.OnLandFrictionReset, 1 / 2, false⟩
            Log := s.Log ++ [.Super_Landed Hit] }
      else
        .halt (.NullDeref .World)
          { s with
            CharacterMovement := { s.CharacterMovement with
              BrakingFrictionFactor := if s.bHasMovementInput = true then 1 / 2 else 3 }
            Log := s.Log ++ [.Super_Landed Hit] } := by
  simp only [Landed, Exec.bind_eq, Exec.pure_eq, Exec.andThen_apply, Exec.log_apply,
    Exec.this_apply, Exec.set_apply, Exec.ret_apply, Exec.ite_apply, Exec.derefWorld_apply]
  split_ifs <;> rfl

/-- `OnBreakfall` halts on its `check` when the animation instance is absent and plays the roll
montage at 1.35 otherwise. -/
theorem OnBreakfall_Implementation_run (E : Engine) (s : ABMBaseCharacter) :
    OnBreakfall_Implementation E s =
      if s.MainAnimInstance.isSome = true then
        .ok () { s with Log := s.Log ++ [.OnBreakfall, .Montage_Play E.GetRollAnimation (135 / 100) 0] }
      else .halt (.CheckFailed .MainAnimInstance) { s with Log := s.Log ++ [.OnBreakfall] } := by
  cases hA : s.MainAnimInstance <;> simp [OnBreakfall_Implementation, hA]

/-- `OnRoll` halts on its `check` when the animation instance is absent and plays the roll
montage at 1.15 otherwise. -/
theorem OnRoll_Implementation_run (E : Engine) (s : ABMBaseCharacter) :
    OnRoll_Implementation E s =
      if s.MainAnimInstance.isSome = true then
        .ok () { s with Log := s.Log ++ [.OnRoll, .Montage_Play E.GetRollAnimation (115 / 100) 0] }
      else .halt (.CheckFailed .MainAnimInstance) { s with Log := s.Log ++ [.OnRoll] } := by
  cases hA : s.MainAnimInstance <;> simp [OnRoll_Implementation, hA]

/-! ## What `MantleStart` stores -/

/-- Below a proper input range the clamped map is the lower output bound. -/
theorem FMath.GetMappedRangeValueClamped_below (a b c d v : ℚ) (hab : a < b) (h1 : v ≤ a) :
    FMath.GetMappedRangeValueClamped (a, b) (c, d) v = c := by
  have hd : b - a ≠ 0 := by linarith
  have hpos : 0 < b - a := by linarith
  have h0 : (v - a) / (b - a) ≤ 0 := div_nonpos_of_nonpos_of_nonneg (by linarith) hpos.le
  simp only [FMath.GetMappedRangeValueClamped, FMath.GetRangePct, FMath.Clamp, FMath.Lerp, hd,
    if_false]
  split_ifs with h2 h3
  · ring
  · have : (v - a) / (b - a) = 0 := le_antisymm h0 (not_lt.mp h2)
    rw [this]
    ring
  · exfalso
    linarith [not_lt.mp h3]

/-- The mantle parameters, the ledge and the timeline that `MantleStart` has stored when it
ends, returned or halted at `check(MainAnimInstance)`, given the ledge component and the
position/correction curve. -/
theorem MantleStart_stores (fuel : Nat) (E : Engine) (MantleHeight : ℚ)
    (MantleLedgeWS : FBMComponentAndTransform) (MantleType : EBMMantleType)
    (s : ABMBaseCharacter) (c k : Nat)
    (hC : MantleLedgeWS.Component = some c)
    (hK : (E.GetMantleAsset MantleType).PositionCorrectionCurve = some k) :
    (MantleStart (fuel + 2) E MantleHeight MantleLedgeWS MantleType s).state.MantleParams =
      ⟨(E.GetMantleAsset MantleType).AnimMontage, some k,
        E.GetMappedRangeValueClamped
          ((E.GetMantleAsset MantleType).LowHeight, (E.GetMantleAsset MantleType).HighHeight)
          ((E.GetMantleAsset MantleType).LowStartPosition,
            (E.GetMantleAsset MantleType).HighStartPosition) (.Finite MantleHeight),
        E.GetMappedRangeValueClamped
          ((E.GetMantleAsset MantleType).LowHeight, (E.GetMantleAsset MantleType).HighHeight)
          ((E.GetMantleAsset MantleType).LowPlayRate,
            (E.GetMantleAsset MantleType).HighPlayRate) (.Finite MantleHeight),
        (E.GetMantleAsset MantleType).StartingOffset⟩ ∧
    (MantleStart (fuel + 2) E MantleHeight MantleLedgeWS MantleType s).state.MantleLedgeLS =
      ⟨some c,
        E.TransformMultiply MantleLedgeWS.Transform
          (E.TransformInverse (E.GetComponentToWorld c))⟩ ∧
    (MantleStart (fuel + 2) E MantleHeight MantleLedgeWS MantleType s).state.MantleTarget =
      MantleLedgeWS.Transform ∧
    (MantleStart (fuel + 2) E MantleHeight MantleLedgeWS MantleType s).state.MantleTimeline.Length =
      Float32.Sub (E.GetTimeRange k).2
        (E.GetMappedRangeValueClamped
          ((E.GetMantleAsset MantleType).LowHeight, (E.GetMantleAsset MantleType).HighHeight)
          ((E.GetMantleAsset MantleType).LowStartPosition,
            (E.GetMantleAsset MantleType).HighStartPosition) (.Finite MantleHeight)) ∧
    (MantleStart (fuel + 2) E MantleHeight MantleLedgeWS MantleType
      s).state.MantleTimeline.PlaybackPosition = 0 := by
  simp only [MantleStart, Exec.bind_eq, Exec.andThen_apply, Exec.log_apply, Exec.set_apply,
    Exec.this_apply, Exec.ite_apply, Exec.check_apply, Exec.pure_eq, Exec.ret_apply, hC,
    Exec.deref_some]
  rw [SetMovementMode_None]
  by_cases hM : s.CharacterMovement.MovementMode = .MOVE_None <;>
  simp only [hM, if_true, if_false] <;>
  rw [SetMovementState_Mantling] <;>
  by_cases hS : s.MovementState = .Mantling <;>
  simp only [hS, if_true, if_false, hK, Exec.deref_some] <;>
  cases hA2 : (E.GetMantleAsset MantleType).AnimMontage <;>
  cases hI : s.MainAnimInstance <;>
  simp [hK]

/-- `MantleUpdate` with the ledge component and the position/correction curve at hand returns,
and reads the curve once: at the single-precision sum of the starting position and the playback
position of the timeline. -/
theorem MantleUpdate_reads (E : Engine) (BlendIn : ℚ) (s : ABMBaseCharacter) (c k : Nat)
    (hC : s.MantleLedgeLS.Component = some c)
    (hK : s.MantleParams.PositionCorrectionCurve = some k) :
    (MantleUpdate E BlendIn s).value = some () ∧
    (MantleUpdate E BlendIn s).state.Log =
      s.Log ++ [.PositionCorrectionCurve_GetVectorValue k
        (Float32.Add s.MantleParams.StartingPosition s.MantleTimeline.PlaybackPosition)] := by
  simp [MantleUpdate, MantleComponentLocalToWorld, SetActorLocationAndTargetRotation, hC, hK]

/-- The run of `MantleUpdate` depends on the position/correction curve through its value at that
one time only: another curve with the same value there gives the same run. -/
theorem MantleUpdate_samples_once (E : Engine) (BlendIn : ℚ) (s : ABMBaseCharacter) (k : Nat)
    (hK : s.MantleParams.PositionCorrectionCurve = some k) (G : Nat → ℚ → FVector)
    (hG : G k (Float32.Add s.MantleParams.StartingPosition s.MantleTimeline.PlaybackPosition) =
      E.GetVectorValue k
        (Float32.Add s.MantleParams.StartingPosition s.MantleTimeline.PlaybackPosition)) :
    MantleUpdate { E with GetVectorValue := G } BlendIn s = MantleUpdate E BlendIn s := by
  cases hC : s.MantleLedgeLS.Component with
  | none => simp [MantleUpdate, MantleComponentLocalToWorld, hC]
  | some c =>
    simp only [MantleUpdate, MantleComponentLocalToWorld, SetActorLocationAndTargetRotation,
      TransfromAdd, Exec.bind_eq, Exec.andThen_apply, Exec.set_apply, Exec.this_apply,
      Exec.log_apply, Exec.pure_eq, Exec.ret_apply, hC, hK, Exec.deref_some, hG]

/-! ## The ledge in local and in world space -/

/-- The ledge `MantleStart` has stored when it ends, wherever it ends, given the ledge
component: the world-space ledge as `MantleTarget`, and as `MantleLedgeLS` the product the
engine forms of it and the inverse of the component-to-world transform. -/
theorem MantleStart_ledge (fuel : Nat) (E : Engine) (MantleHeight : ℚ)
    (MantleLedgeWS : FBMComponentAndTransform) (MantleType : EBMMantleType)
    (s : ABMBaseCharacter) (c : Nat) (hC : MantleLedgeWS.Component = some c) :
    (MantleStart (fuel + 2) E MantleHeight MantleLedgeWS MantleType s).state.MantleLedgeLS =
      ⟨some c,
        E.TransformMultiply MantleLedgeWS.Transform
          (E.TransformInverse (E.GetComponentToWorld c))⟩ ∧
    (MantleStart (fuel + 2) E MantleHeight MantleLedgeWS MantleType s).state.MantleTarget =
      MantleLedgeWS.Transform := by
  simp only [MantleStart, Exec.bind_eq, Exec.andThen_apply, Exec.log_apply, Exec.set_apply,
    Exec.this_apply, Exec.ite_apply, Exec.check_apply, Exec.pure_eq, Exec.ret_apply, hC,
    Exec.deref_some]
  rw [SetMovementMode_None]
  by_cases hM : s.CharacterMovement.MovementMode = .MOVE_None <;>
  simp only [hM, if_true, if_false] <;>
  rw [SetMovementState_Mantling] <;>
  by_cases hS : s.MovementState = .Mantling <;>
  simp only [hS, if_true, if_false] <;>
  cases hK : (E.GetMantleAsset MantleType).PositionCorrectionCurve <;>
  cases hA2 : (E.GetMantleAsset MantleType).AnimMontage <;>
  cases hI : s.MainAnimInstance <;>
  simp [hK]

/-- The mantle target `MantleUpdate` stores in its first step, wherever it ends, given the ledge
component: the engine's inverse transformation, by the inverse of the component-to-world
transform, of the stored local ledge. -/
theorem MantleUpdate_target (E : Engine) (BlendIn : ℚ) (s : ABMBaseCharacter) (c : Nat)
    (hC : s.MantleLedgeLS.Component = some c) :
    (MantleUpdate E BlendIn s).state.MantleTarget =
      ⟨E.InverseTransformRotation (E.TransformInverse (E.GetComponentToWorld c))
          s.MantleLedgeLS.Transform.Rotation,
        E.InverseTransformPosition (E.TransformInverse (E.GetComponentToWorld c))
          s.MantleLedgeLS.Transform.Translation,
        E.InverseTransformPosition (E.TransformInverse (E.GetComponentToWorld c))
          s.MantleLedgeLS.Transform.Scale3D⟩ := by
  cases hK : s.MantleParams.PositionCorrectionCurve <;>
  simp [MantleUpdate, MantleComponentLocalToWorld, SetActorLocationAndTargetRotation, hC, hK]

/-! ## C11 -/

/-- `MantleStart` never dereferences an absent animation instance: its only use is behind
`check(MainAnimInstance)`. -/
theorem MantleStart_anim_guarded (fuel : Nat) (E : Engine) (MantleHeight : ℚ)
    (MantleLedgeWS : FBMComponentAndTransform) (MantleType : EBMMantleType)
    (s : ABMBaseCharacter) :
    (MantleStart (fuel + 2) E MantleHeight MantleLedgeWS MantleType s).fault ≠
      some (.NullDeref .MainAnimInstance) := by
  simp only [MantleStart, Exec.bind_eq, Exec.andThen_apply, Exec.log_apply, Exec.set_apply,
    Exec.this_apply, Exec.ite_apply, Exec.check_apply, Exec.pure_eq, Exec.ret_apply]
  cases hC : MantleLedgeWS.Component with
  | none => simp
  | some c =>
    simp only [Exec.deref_some]
    rw [SetMovementMode_None]
    by_cases hM : s.CharacterMovement.MovementMode = .MOVE_None <;>
    simp only [hM, if_true, if_false] <;>
    rw [SetMovementState_Mantling] <;>
    by_cases hS : s.MovementState = .Mantling <;>
    simp only [hS, if_true, if_false] <;>
    cases hK : (E.GetMantleAsset MantleType).PositionCorrectionCurve <;>
    cases hA2 : (E.GetMantleAsset MantleType).AnimMontage <;>
    cases hI : s.MainAnimInstance <;>
    simp [hI]

/-- `SmoothCharacterRotation` returns and leaves the animation instance alone. -/
theorem SmoothCharacterRotation_keeps_anim (E : Engine) (Target : FRotator) (a b c : ℚ)
    (s : ABMBaseCharacter) :
    ∃ s1, SmoothCharacterRotation E Target a b c s = .ok () s1 ∧
      s1.MainAnimInstance = s.MainAnimInstance := by
  simp only [SmoothCharacterRotation, Exec.bind_eq, Exec.pure_eq, Exec.andThen_apply,
    Exec.this_apply, Exec.set_apply, Exec.ret_apply, Exec.ite_apply]
  split_ifs
  · exact ⟨_, rfl, rfl⟩
  · exact ⟨_, rfl, rfl⟩

/-- `UpdateGroundedRotation` never dereferences an absent animation instance: both uses are
behind `check(MainAnimInstance)`. -/
theorem UpdateGroundedRotation_anim_guarded (E : Engine) (DeltaTime : ℚ) (s : ABMBaseCharacter)
    (hA : s.MainAnimInstance = none) :
    (UpdateGroundedRotation E DeltaTime s).fault ≠ some (.NullDeref .MainAnimInstance) := by
  have smooth : ∀ (T : FRotator) (a b c : ℚ) (s1 : ABMBaseCharacter),
      (SmoothCharacterRotation E T a b c s1).fault ≠ some (.NullDeref .MainAnimInstance) := by
    intro T a b c s1
    obtain ⟨s2, h2, _⟩ := SmoothCharacterRotation_keeps_anim E T a b c s1
    rw [h2]
    simp
  simp only [UpdateGroundedRotation, CalculateGroundedRotationRate, LimitRotation,
    Exec.bind_eq, Exec.andThen_apply, Exec.log_apply, Exec.set_apply,
    Exec.this_apply, Exec.ite_apply, Exec.check_apply, Exec.pure_eq, Exec.ret_apply, hA]
  by_cases hN : s.MovementAction = .None
  · rw [if_pos hN]
    by_cases hB : ((s.bIsMoving && s.bHasMovementInput || decide (s.Speed > 150)) &&
        !s.bHasAnyRootMotion) = true
    · rw [if_pos hB]
      cases hK : s.CurrentMovementSettings.RotationRateCurve with
      | none => simp
      | some k =>
        simp only [Exec.deref_some]
        by_cases h1 : s.RotationMode = .VelocityDirection
        · rw [if_pos h1]
          exact smooth _ _ _ _ _
        · rw [if_neg h1]
          by_cases h2 : s.RotationMode = .LookingDirection
          · rw [if_pos h2]
            by_cases h3 : s.Gait = .Sprinting
            · rw [if_pos h3]
              exact smooth _ _ _ _ _
            · rw [if_neg h3]
              simp
          · rw [if_neg h2]
            by_cases h4 : s.RotationMode = .Aiming
            · rw [if_pos h4]
              exact smooth _ _ _ _ _
            · rw [if_neg h4]
              simp
    · rw [if_neg hB]
      by_cases h4 : s.RotationMode = .Aiming
      · rw [if_pos h4]
        by_cases h5 : (E.NormalizeRotator (s.ControlRotation.sub s.ActorRotation)).Yaw < -100 ∨
            (E.NormalizeRotator (s.ControlRotation.sub s.ActorRotation)).Yaw > 100
        · rw [if_pos h5]
          obtain ⟨s2, h6, h7⟩ := SmoothCharacterRotation_keeps_anim E
            ⟨0, Float32.Add s.ControlRotation.Yaw
              (if (E.NormalizeRotator (s.ControlRotation.sub s.ActorRotation)).Yaw > 0 then -100
                else 100),
              0⟩ 0 20 DeltaTime s
          rw [h6]
          simp [h7, hA]
        · rw [if_neg h5]
          simp [hA]
      · rw [if_neg h4]
        simp
  · rw [if_neg hN]
    by_cases hR : s.MovementAction = .Rolling
    · rw [if_pos hR]
      by_cases hI : s.bHasMovementInput = true
      · rw [if_pos hI]
        exact smooth _ _ _ _ _
      · rw [if_neg hI]
        simp
    · rw [if_neg hR]
      simp

/-- `BeginPlay` with no animation instance on the mesh skips the use of `MainAnimInstance`. -/
theorem BeginPlay_no_mesh_anim (E : Engine) (s : ABMBaseCharacter)
    (hMesh : s.MeshAnimInstance = none) :
    (BeginPlay E s).fault ≠ some (.NullDeref .MainAnimInstance) := by
  cases hT : s.MovementModel.DataTable with
  | none => simp [BeginPlay, SetMovementModel, hMesh, hT]
  | some t =>
    cases hRow : E.FindRow t s.MovementModel.RowName with
    | none => simp [BeginPlay, SetMovementModel, hMesh, hT, hRow]
    | some r =>
      by_cases h1 : s.Gait = s.DesiredGait <;>
      by_cases h2 : s.RotationMode = s.DesiredRotationMode <;>
      by_cases h3 : s.Stance = .Standing <;>
      by_cases h4 : s.Stance = .Crouching <;>
      simp [BeginPlay, SetMovementModel, SetGait, SetRotationMode, SetOverlayState,
        OnGaitChanged, OnRotationModeChanged, OnOverlayStateChanged, hMesh, hT, hRow, h1, h2,
        h3, h4]

/-- `BeginPlay` with optimization enabled and an animation instance of another class on the
mesh: the cast yields null and `EnableOptimization` is called on it. -/
theorem BeginPlay_other_class (E : Engine) (s : ABMBaseCharacter)
    (hMesh : s.MeshAnimInstance = some .OtherClass) (hOpt : s.bEnableOptimization = true) :
    (BeginPlay E s).fault = some (.NullDeref .MainAnimInstance) ∧
    (BeginPlay E s).state.MainAnimInstance = none := by
  simp [BeginPlay, hMesh, hOpt, Cast_UBMCharacterAnimInstance]

/-- C11: with the animation instance absent, `OnRoll`, `OnBreakfall` and `OnJumped` halt on
`check(MainAnimInstance)`; `RagdollEnd` and `GetAnimCurveValue` return behind their validity
test; `MantleStart` and `UpdateGroundedRotation` never reach a dereference of it, and neither
does `BeginPlay` when the mesh has no animation instance.  `RagdollStart`, however, runs its
steps 1 and 2 and then dereferences the absent reference (`MainAnimInstance->Montage_Stop`),
with no `check` and no validity test before it; `Landed` reaches that dereference when the
character lands faster than 1000.  `BeginPlay` with optimization enabled dereferences the null
result of the cast when the animation instance of the mesh is of another class. -/
theorem C11_absent_animation_instance (fuel : Nat) (E : Engine) (s : ABMBaseCharacter)
    (hA : s.MainAnimInstance = none) :
    (OnRoll_Implementation E s).fault = some (.CheckFailed .MainAnimInstance) ∧
    (OnBreakfall_Implementation E s).fault = some (.CheckFailed .MainAnimInstance) ∧
    (OnJumped_Implementation s).fault = some (.CheckFailed .MainAnimInstance) ∧
    RagdollEnd fuel E s = .ok () s ∧
    (∀ CurveName : String, GetAnimCurveValue CurveName s = .ok 0 s) ∧
    (∀ (MantleHeight : ℚ) (MantleLedgeWS : FBMComponentAndTransform)
        (MantleType : EBMMantleType),
      (MantleStart (fuel + 2) E MantleHeight MantleLedgeWS MantleType s).fault ≠
        some (.NullDeref .MainAnimInstance)) ∧
    (∀ DeltaTime : ℚ,
      (UpdateGroundedRotation E DeltaTime s).fault ≠ some (.NullDeref .MainAnimInstance)) ∧
    (s.MeshAnimInstance = none →
      (BeginPlay E s).fault ≠ some (.NullDeref .MainAnimInstance)) ∧
    (s.MeshAnimInstance = some .OtherClass → s.bEnableOptimization = true →
      (BeginPlay E s).fault = some (.NullDeref .MainAnimInstance)) ∧
    RagdollStart (fuel + 3) s = .halt (.NullDeref .MainAnimInstance) (RagdollStarted s) ∧
    (∀ Hit : FHitResult, FMath.Abs s.CharacterMovement.Velocity.Z > 1000 →
      (Landed (fuel + 3) E Hit s).fault = some (.NullDeref .MainAnimInstance)) := by
  refine ⟨?_, ?_, ?_, RagdollEnd_absent fuel E s hA, ?_,
    fun h ws t => MantleStart_anim_guarded fuel E h ws t s,
    fun dt => UpdateGroundedRotation_anim_guarded E dt s hA,
    BeginPlay_no_mesh_anim E s,
    fun h1 h2 => (BeginPlay_other_class E s h1 h2).1, ?_, ?_⟩
  · rw [OnRoll_Implementation_run]
    simp [hA]
  · rw [OnBreakfall_Implementation_run]
    simp [hA]
  · simp [OnJumped_Implementation, hA]
  · intro CurveName
    simp [GetAnimCurveValue, hA]
  · rw [RagdollStart_run]
    simp [hA]
  · intro Hit hV
    have hB : ¬ (s.bHasMovementInput = true ∧ FMath.Abs s.CharacterMovement.Velocity.Z ≥ 600 ∧
        FMath.Abs s.CharacterMovement.Velocity.Z ≤ 1000) := fun h => absurd hV (not_lt.mpr h.2.2)
    rw [Landed_eq, if_neg hB, if_pos hV, RagdollStart_run]
    simp [hA]

/-- C11 at the failing input: the character without an animation instance.  `RagdollStart`
halts at the dereference of the absent animation instance, already in the Ragdoll state, and a
hard landing reaches that dereference. -/
theorem C11_witness_RagdollStart_null_dereference :
    (RagdollStart 3 Example.NoAnim).fault = some (.NullDeref .MainAnimInstance) ∧
    (RagdollStart 3 Example.NoAnim).state.MovementState = .Ragdoll ∧
    (Landed 3 Example.World Example.NoHit Example.HardLandingNoAnim).fault =
      some (.NullDeref .MainAnimInstance) := by
  have h := C11_absent_animation_instance 0 Example.World Example.NoAnim rfl
  have h2 := (C11_absent_animation_instance 0 Example.World Example.HardLandingNoAnim
    rfl).2.2.2.2.2.2.2.2.2.2 Example.NoHit
    (by norm_num [Example.HardLandingNoAnim, FMath.Abs])
  simp only [Nat.zero_add] at h h2
  exact ⟨by rw [h.2.2.2.2.2.2.2.2.2.1]; rfl, by rw [h.2.2.2.2.2.2.2.2.2.1]; rfl, h2⟩

/-! ## C12 -/

/-- C12: with the animation instance present, `RagdollEnd` returns with the capsule collision
enabled and the mesh physics off.  On the ground the movement mode is Walking on return and
`RagdollEnd` assigns no velocity: it is the one before the call.  In the air the velocity is
`LastRagdollVelocity` (which `RagdollUpdate` sets to the velocity of the root body), and the
movement mode on return is Falling except when the mode was not Falling, the movement state was
not InAir and the movement action is Rolling: the notification of the change to Falling then
starts the ragdoll again, and the mode on return is None. -/
theorem C12_RagdollEnd_mode_velocity_collision (fuel : Nat) (E : Engine) (s : ABMBaseCharacter)
    (hA : s.MainAnimInstance.isSome = true) :
    (RagdollEnd (fuel + 7) E s).value = some () ∧
    (RagdollEnd (fuel + 7) E s).state.Capsule.CollisionEnabled = .QueryAndPhysics ∧
    (RagdollEnd (fuel + 7) E s).state.Mesh.bSimulatePhysics = false ∧
    (s.bRagdollOnGround = true →
      (RagdollEnd (fuel + 7) E s).state.CharacterMovement.MovementMode = .MOVE_Walking ∧
      (RagdollEnd (fuel + 7) E s).state.CharacterMovement.Velocity =
        s.CharacterMovement.Velocity) ∧
    (s.bRagdollOnGround = false →
      (RagdollEnd (fuel + 7) E s).state.CharacterMovement.Velocity = s.LastRagdollVelocity ∧
      (RagdollEnd (fuel + 7) E s).state.CharacterMovement.MovementMode =
        (if s.CharacterMovement.MovementMode ≠ .MOVE_Falling ∧ s.MovementState ≠ .InAir ∧
            s.MovementAction = .Rolling then .MOVE_None else .MOVE_Falling)) ∧
    (∀ s0 : ABMBaseCharacter,
      (RagdollUpdate E s0).state.LastRagdollVelocity = s0.Mesh.RootLinearVelocity) := by
  have hv : ∀ r : Res Unit, r.fault = none → r.value = some () := by
    intro r h
    cases r <;> simp_all
  cases hG : s.bRagdollOnGround
  · obtain ⟨h1, h2, h3, h4, h5, _⟩ := RagdollEnd_in_air fuel E s hA hG
    refine ⟨hv _ h1, h3, h4, by simp, fun _ => ⟨h2, h5⟩, ?_⟩
    intro s0
    simp only [RagdollUpdate, SetActorLocationDuringRagdoll, SetActorLocationAndTargetRotation,
      Exec.bind_eq, Exec.pure_eq, Exec.andThen_apply, Exec.this_apply, Exec.set_apply,
      Exec.ret_apply, Exec.ite_apply, Exec.derefWorld_apply]
    split_ifs <;> simp
  · obtain ⟨h1, h2, h3, h4, h5, _⟩ := RagdollEnd_on_ground fuel E s hA hG
    refine ⟨hv _ h1, h4, h5, fun _ => ⟨h2, h3⟩, by simp, ?_⟩
    intro s0
    simp only [RagdollUpdate, SetActorLocationDuringRagdoll, SetActorLocationAndTargetRotation,
      Exec.bind_eq, Exec.pure_eq, Exec.andThen_apply, Exec.this_apply, Exec.set_apply,
      Exec.ret_apply, Exec.ite_apply, Exec.derefWorld_apply]
    split_ifs <;> simp

/-- C12 at the failing input: the ragdoll in the air whose movement action is still Rolling.
`RagdollEnd` returns with the movement mode None, not Falling. -/
theorem C12_witness_rolling_mode_None :
    (RagdollEnd 7 Example.World Example.RagdolledRolling).state.CharacterMovement.MovementMode =
      .MOVE_None ∧
    (RagdollEnd 7 Example.World Example.RagdolledRolling).state.CharacterMovement.Velocity =
      ⟨0, 0, -300⟩ := by
  have h := (C12_RagdollEnd_mode_velocity_collision 0 Example.World Example.RagdolledRolling
    rfl).2.2.2.2.1 rfl
  simp only [Nat.zero_add] at h
  exact ⟨h.2.trans (by decide), h.1⟩

/-! ## C13 -/

/-- C13: for every character whose movement action is Rolling, whose movement state is not InAir
and whose animation instance is present, `SetMovementState(InAir)` returns, and on return the
movement state is Ragdoll, `PrevMovementState` is InAir and the movement mode is None; the
ragdoll is enabled (`RagdollStart` was called, the capsule collision is off and the mesh
simulates physics). -/
theorem C13_SetMovementState_InAir_while_rolling_starts_ragdoll (fuel : Nat)
    (s : ABMBaseCharacter) (hR : s.MovementAction = .Rolling) (hS : s.MovementState ≠ .InAir)
    (hA : s.MainAnimInstance.isSome = true) :
    (SetMovementState (fuel + 5) .InAir s).value = some () ∧
    (SetMovementState (fuel + 5) .InAir s).state.MovementState = .Ragdoll ∧
    (SetMovementState (fuel + 5) .InAir s).state.PrevMovementState = .InAir ∧
    (SetMovementState (fuel + 5) .InAir s).state.CharacterMovement.MovementMode = .MOVE_None ∧
    Event.RagdollStart ∈ (SetMovementState (fuel + 5) .InAir s).state.Log ∧
    (SetMovementState (fuel + 5) .InAir s).state.Capsule.CollisionEnabled = .NoCollision ∧
    (SetMovementState (fuel + 5) .InAir s).state.Mesh.bSimulatePhysics = true := by
  rw [SetMovementState_InAir_Rolling fuel s hS hR, RagdollStart_run]
  simp [hA, RagdollStarted]

/-- C13 at a concrete input: the rolling character on the ground. -/
theorem C13_witness :
    (SetMovementState 5 .InAir Example.Rolling).state.MovementState = .Ragdoll ∧
    (SetMovementState 5 .InAir Example.Rolling).state.PrevMovementState = .InAir ∧
    (SetMovementState 5 .InAir Example.Rolling).state.CharacterMovement.MovementMode =
      .MOVE_None := by
  have h := C13_SetMovementState_InAir_while_rolling_starts_ragdoll 0 Example.Rolling rfl
    (by decide) rfl
  simp only [Nat.zero_add] at h
  exact ⟨h.2.1, h.2.2.1, h.2.2.2.1⟩

/-! ## C14 -/

/-- C14: with the animation instance present, the movement state on return from `RagdollEnd` is
Grounded (on the ground) resp. InAir (in the air) when the movement mode changes, that is when
it was not Walking resp. Falling before, and the movement action is not Rolling.  In the air
with the movement action Rolling the character that was in the Ragdoll state with a movement
mode other than Falling is in the Ragdoll state again on return, with the movement mode None,
the capsule collision enabled and the mesh physics off. -/
theorem C14_RagdollEnd_movement_state (fuel : Nat) (E : Engine) (s : ABMBaseCharacter)
    (hA : s.MainAnimInstance.isSome = true) :
    (s.bRagdollOnGround = true →
      (RagdollEnd (fuel + 7) E s).state.MovementState =
        (if s.CharacterMovement.MovementMode = .MOVE_Walking then s.MovementState
          else .Grounded)) ∧
    (s.bRagdollOnGround = false →
      (RagdollEnd (fuel + 7) E s).state.MovementState =
        (if s.CharacterMovement.MovementMode = .MOVE_Falling then s.MovementState
          else if s.MovementState ≠ .InAir ∧ s.MovementAction = .Rolling then .Ragdoll
          else .InAir)) ∧
    (s.bRagdollOnGround = false → s.MovementAction = .Rolling → s.MovementState = .Ragdoll →
      s.CharacterMovement.MovementMode ≠ .MOVE_Falling →
      (RagdollEnd (fuel + 7) E s).value = some () ∧
      (RagdollEnd (fuel + 7) E s).state.MovementState = .Ragdoll ∧
      (RagdollEnd (fuel + 7) E s).state.CharacterMovement.MovementMode = .MOVE_None ∧
      (RagdollEnd (fuel + 7) E s).state.Capsule.CollisionEnabled = .QueryAndPhysics ∧
      (RagdollEnd (fuel + 7) E s).state.Mesh.bSimulatePhysics = false) := by
  have hv : ∀ r : Res Unit, r.fault = none → r.value = some () := by
    intro r h
    cases r <;> simp_all
  refine ⟨fun hG => (RagdollEnd_on_ground fuel E s hA hG).2.2.2.2.2,
    fun hG => (RagdollEnd_in_air fuel E s hA hG).2.2.2.2.2, ?_⟩
  intro hG hR hS hM
  obtain ⟨h1, _, h3, h4, h5, h6⟩ := RagdollEnd_in_air fuel E s hA hG
  refine ⟨hv _ h1, ?_, ?_, h3, h4⟩
  · rw [h6]
    simp [hM, hS, hR]
  · rw [h5]
    simp [hM, hS, hR]

/-- C14 at the failing input: the ragdoll in the air whose movement action is still Rolling is
in the Ragdoll state when `RagdollEnd` returns. -/
theorem C14_witness_rolling_stays_ragdoll :
    (RagdollEnd 7 Example.World Example.RagdolledRolling).value = some () ∧
    (RagdollEnd 7 Example.World Example.RagdolledRolling).state.MovementState = .Ragdoll := by
  have h := (C14_RagdollEnd_movement_state 0 Example.World Example.RagdolledRolling rfl).2.2
    rfl rfl rfl (by decide)
  simp only [Nat.zero_add] at h
  exact ⟨h.1, h.2.1⟩

/-! ## C15 -/

/-- C15: for every landing of a character in a world, with V the absolute vertical component of
the character-movement velocity, the calls `Landed` makes after the base class call are such
that `OnBreakfall` is called if and only if there is movement input and 600 <= V <= 1000 (and
it plays the roll montage when the animation instance is present), `RagdollStart` is called if
and only if V > 1000, and in both cases the braking friction factor and the timer are left as
they were; in every other case `Landed` returns having called neither, with
`BrakingFrictionFactor` 0.5 with movement input and 3 without and with a timer of 0.5 seconds
that does not loop and whose callback `OnLandFrictionReset` sets `BrakingFrictionFactor` to 0
when the timer expires. -/
theorem C15_Landed_three_outcomes (fuel : Nat) (E : Engine) (Hit : FHitResult)
    (s : ABMBaseCharacter) (hW : s.bWorldValid = true) :
    ∃ New : List Event,
      (Landed (fuel + 3) E Hit s).state.Log = s.Log ++ .Super_Landed Hit :: New ∧
      (Event.OnBreakfall ∈ New ↔
        (s.bHasMovementInput = true ∧ FMath.Abs s.CharacterMovement.Velocity.Z ≥ 600 ∧
          FMath.Abs s.CharacterMovement.Velocity.Z ≤ 1000)) ∧
      (Event.RagdollStart ∈ New ↔ FMath.Abs s.CharacterMovement.Velocity.Z > 1000) ∧
      (Event.OnBreakfall ∈ New → s.MainAnimInstance.isSome = true →
        Event.Montage_Play E.GetRollAnimation (135 / 100) 0 ∈ New) ∧
      (Event.OnBreakfall ∈ New ∨ Event.RagdollStart ∈ New →
        (Landed (fuel + 3) E Hit s).state.CharacterMovement.BrakingFrictionFactor =
          s.CharacterMovement.BrakingFrictionFactor ∧
        (Landed (fuel + 3) E Hit s).state.OnLandedFrictionResetTimer =
          s.OnLandedFrictionResetTimer) ∧
      (Event.OnBreakfall ∉ New → Event.RagdollStart ∉ New →
        (Landed (fuel + 3) E Hit s).value = some () ∧
        New = [] ∧
        (Landed (fuel + 3) E Hit s).state.CharacterMovement.BrakingFrictionFactor =
          (if s.bHasMovementInput = true then 1 / 2 else 3) ∧
        (Landed (fuel + 3) E Hit s).state.OnLandedFrictionResetTimer =
          some ⟨.OnLandFrictionReset, 1 / 2, false⟩ ∧
        (OnLandedFrictionResetTimer_Expired
          (Landed (fuel + 3) E Hit s).state).state.CharacterMovement.BrakingFrictionFactor = 0 ∧
        (OnLandedFrictionResetTimer_Expired
          (Landed (fuel + 3) E Hit s).state).state.OnLandedFrictionResetTimer = none) := by
  rw [Landed_eq]
  by_cases hB : s.bHasMovementInput = true ∧ FMath.Abs s.CharacterMovement.Velocity.Z ≥ 600 ∧
      FMath.Abs s.CharacterMovement.Velocity.Z ≤ 1000
  · have hV : ¬ FMath.Abs s.CharacterMovement.Velocity.Z > 1000 := not_lt.mpr hB.2.2
    rw [if_pos hB, OnBreakfall_Implementation_run]
    cases hA : s.MainAnimInstance with
    | none =>
      refine ⟨[.OnBreakfall], ?_, ?_, ?_, ?_, ?_, ?_⟩ <;> simp [hA, hB, hV]
    | some a =>
      refine ⟨[.OnBreakfall, .Montage_Play E.GetRollAnimation (135 / 100) 0], ?_, ?_, ?_, ?_,
        ?_, ?_⟩ <;> simp [hA, hB, hV]
  · rw [if_neg hB]
    by_cases hV : FMath.Abs s.CharacterMovement.Velocity.Z > 1000
    · rw [if_pos hV, RagdollStart_run]
      refine ⟨[.RagdollStart] ++
        (if s.CharacterMovement.MovementMode = .MOVE_None then []
          else [.Super_OnMovementModeChanged s.CharacterMovement.MovementMode]) ++
        (if s.MovementState = .Ragdoll then [] else [.OnMovementStateChanged s.MovementState])
        ++ (if s.MainAnimInstance.isSome = true then [.Montage_Stop (2 / 10)] else []),
        ?_, ?_, ?_, ?_, ?_, ?_⟩
      · cases hA : s.MainAnimInstance <;> simp [RagdollStarted, hA]
      · simp only [hB, iff_false]
        split_ifs <;> simp
      · simp [hV]
      · split_ifs <;> simp
      · intro _
        cases hA : s.MainAnimInstance <;> simp [RagdollStarted, hA]
      · intro _ h
        simp at h
    · rw [if_neg hV, if_pos hW]
      refine ⟨[], by simp, by simp [hB], by simp [hV], by simp, by simp, ?_⟩
      intro _ _
      simp [OnLandedFrictionResetTimer_Expired, FTimerCallback.run, OnLandFrictionReset]

/-- C15 at a concrete input: a soft landing with movement input sets the braking friction
factor to 0.5 and the timer, and the expiring timer resets the factor to 0. -/
theorem C15_witness :
    (Landed 3 Example.World Example.NoHit Example.SoftLanding).state.CharacterMovement.BrakingFrictionFactor
      = 1 / 2 ∧
    (OnLandedFrictionResetTimer_Expired
      (Landed 3 Example.World Example.NoHit
        Example.SoftLanding).state).state.CharacterMovement.BrakingFrictionFactor = 0 := by
  obtain ⟨New, _, h2, h3, _, _, h6⟩ :=
    C15_Landed_three_outcomes 0 Example.World Example.NoHit Example.SoftLanding rfl
  simp only [Nat.zero_add] at h2 h3 h6
  have hV : FMath.Abs Example.SoftLanding.CharacterMovement.Velocity.Z = 300 := by
    norm_num [Example.SoftLanding, FMath.Abs]
  have h7 := h6 (fun h => by have := (h2.mp h).2.1; rw [hV] at this; norm_num at this)
    (fun h => by have := h3.mp h; rw [hV] at this; norm_num at this)
  exact ⟨h7.2.2.1.trans (if_pos rfl), h7.2.2.2.2.1⟩

/-! ## C16 -/

/-- Where `SetActorLocationDuringRagdoll` leaves the actor, in a world. -/
theorem SetActorLocationDuringRagdoll_run (E : Engine) (s : ABMBaseCharacter)
    (hW : s.bWorldValid = true) :
    (SetActorLocationDuringRagdoll E s).value = some () ∧
    ((RagdollTraceHit E s).IsValidBlockingHit = true →
      (SetActorLocationDuringRagdoll E s).state.ActorLocation =
        ⟨s.Mesh.PelvisLocation.X, s.Mesh.PelvisLocation.Y,
          Float32.Add s.Mesh.PelvisLocation.Z (RagdollZOffset E s)⟩ ∧
      (SetActorLocationDuringRagdoll E s).state.bRagdollOnGround = true) ∧
    ((RagdollTraceHit E s).IsValidBlockingHit = false →
      (SetActorLocationDuringRagdoll E s).state.ActorLocation = s.Mesh.PelvisLocation ∧
      (SetActorLocationDuringRagdoll E s).state.bRagdollOnGround = false) := by
  simp only [SetActorLocationDuringRagdoll, SetActorLocationAndTargetRotation, Exec.bind_eq,
    Exec.pure_eq, Exec.andThen_apply, Exec.this_apply, Exec.set_apply, Exec.ret_apply,
    Exec.ite_apply, Exec.derefWorld_apply, hW, if_true]
  refine ⟨?_, ?_, ?_⟩
  · split_ifs <;> rfl
  · intro hHit
    have hHit2 : (E.LineTraceSingleByChannel s.Mesh.PelvisLocation
        ⟨s.Mesh.PelvisLocation.X, s.Mesh.PelvisLocation.Y,
          Float32.Sub s.Mesh.PelvisLocation.Z s.Capsule.ScaledCapsuleHalfHeight⟩
        .ECC_Visibility).IsValidBlockingHit = true := hHit
    simp only [hHit2, if_true, Res.state_ok]
    exact ⟨rfl, trivial⟩
  · intro hNo
    have hNo2 : (E.LineTraceSingleByChannel s.Mesh.PelvisLocation
        ⟨s.Mesh.PelvisLocation.X, s.Mesh.PelvisLocation.Y,
          Float32.Sub s.Mesh.PelvisLocation.Z s.Capsule.ScaledCapsuleHalfHeight⟩
        .ECC_Visibility).IsValidBlockingHit = false := hNo
    simp [hNo2]

/-- The height the actor gets over a hit differs from Zi + H + 2 by the rounding errors of the
four operations at most. -/
theorem RagdollZOffset_error (E : Engine) (s : ABMBaseCharacter)
    (hStart : (RagdollTraceHit E s).TraceStart.Z = s.Mesh.PelvisLocation.Z)
    (hZ : (RagdollTraceHit E s).ImpactPoint.Z ≤ s.Mesh.PelvisLocation.Z) :
    |Float32.Add s.Mesh.PelvisLocation.Z (RagdollZOffset E s) -
        ((RagdollTraceHit E s).ImpactPoint.Z + s.Capsule.ScaledCapsuleHalfHeight + 2)| ≤
      (Float32.Ulp ((RagdollTraceHit E s).ImpactPoint.Z - s.Mesh.PelvisLocation.Z) +
        Float32.Ulp (s.Capsule.ScaledCapsuleHalfHeight - RagdollImpactDistZ E s) +
        Float32.Ulp
          (Float32.Sub s.Capsule.ScaledCapsuleHalfHeight (RagdollImpactDistZ E s) + 2) +
        Float32.Ulp (s.Mesh.PelvisLocation.Z + RagdollZOffset E s)) / 2 := by
  have e1 := Float32.abs_Round_sub_le
    ((RagdollTraceHit E s).ImpactPoint.Z - s.Mesh.PelvisLocation.Z)
  have e2 := Float32.abs_Round_sub_le
    (s.Capsule.ScaledCapsuleHalfHeight - RagdollImpactDistZ E s)
  have e3 := Float32.abs_Round_sub_le
    (Float32.Sub s.Capsule.ScaledCapsuleHalfHeight (RagdollImpactDistZ E s) + 2)
  have e4 := Float32.abs_Round_sub_le (s.Mesh.PelvisLocation.Z + RagdollZOffset E s)
  have hd : RagdollImpactDistZ E s =
      |Float32.Round ((RagdollTraceHit E s).ImpactPoint.Z - s.Mesh.PelvisLocation.Z)| := by
    simp only [RagdollImpactDistZ, FMath.Abs_eq_abs, Float32.Sub, hStart]
  have hx : |(RagdollTraceHit E s).ImpactPoint.Z - s.Mesh.PelvisLocation.Z| =
      s.Mesh.PelvisLocation.Z - (RagdollTraceHit E s).ImpactPoint.Z := by
    rw [abs_of_nonpos (by linarith)]
    ring
  have e1b : |RagdollImpactDistZ E s -
      (s.Mesh.PelvisLocation.Z - (RagdollTraceHit E s).ImpactPoint.Z)| ≤
      Float32.Ulp ((RagdollTraceHit E s).ImpactPoint.Z - s.Mesh.PelvisLocation.Z) / 2 := by
    rw [hd, ← hx]
    exact le_trans (abs_abs_sub_abs_le_abs_sub _ _) e1
  have o2 : RagdollZOffset E s =
      Float32.Round
        (Float32.Sub s.Capsule.ScaledCapsuleHalfHeight (RagdollImpactDistZ E s) + 2) := rfl
  have o3 : Float32.Sub s.Capsule.ScaledCapsuleHalfHeight (RagdollImpactDistZ E s) =
      Float32.Round (s.Capsule.ScaledCapsuleHalfHeight - RagdollImpactDistZ E s) := rfl
  have o4 : Float32.Add s.Mesh.PelvisLocation.Z (RagdollZOffset E s) =
      Float32.Round (s.Mesh.PelvisLocation.Z + RagdollZOffset E s) := rfl
  rw [abs_le] at e1b e2 e3 e4 ⊢
  rw [← o3] at e2
  rw [← o2] at e3
  rw [← o4] at e4
  constructor <;> linarith [e1b.1, e1b.2, e2.1, e2.2, e3.1, e3.2, e4.1, e4.2]

/-- The single-precision operations on the heights at the pelvis height 300, the capsule half
height 90 and the floor height 250. -/
theorem Float32.ragdoll_heights_at_300 :
    Float32.Sub 300 90 = 210 ∧ Float32.Sub 250 300 = -50 ∧ Float32.Sub 90 50 = 40 ∧
    Float32.Add 40 2 = 42 ∧ Float32.Add 300 42 = 342 := by
  have h1 := Float32.Round_natCast 210 (by norm_num)
  have h2 : Float32.Round (-50) = -50 :=
    Float32.Round_eq_self (-50) 5 (-50 * 2 ^ 18) (by norm_num) (by norm_num) (by norm_num)
      (by norm_num)
  have h3 := Float32.Round_natCast 40 (by norm_num)
  have h4 := Float32.Round_natCast 42 (by norm_num)
  have h5 := Float32.Round_natCast 342 (by norm_num)
  simp only [Float32.Sub, Float32.Add]
  norm_num at h1 h3 h4 h5 ⊢
  exact ⟨h1, h2, h3, h4, h5⟩

/-- A `MantleCheck` that returns true went through all its guards. -/
theorem MantleCheck_true_guards (fuel : Nat) (E : Engine)
    (TraceSettings : FBMMantleTraceSettings) (s : ABMBaseCharacter)
    (hOk : (MantleCheck fuel E TraceSettings s).value = some true) :
    ∃ pc : ABMPlayerController,
      s.bAllowMantle = true ∧ s.PlayerController = some pc ∧ s.bWorldValid = true ∧
      (MantleForwardHit E TraceSettings s pc.PlayerMovementInput).IsValidBlockingHit = true ∧
      E.IsWalkable (MantleForwardHit E TraceSettings s pc.PlayerMovementInput) = false ∧
      E.IsWalkable (MantleDownwardHit E TraceSettings s pc.PlayerMovementInput) = true ∧
      (MantleRoomHit E TraceSettings s pc.PlayerMovementInput).bBlockingHit = false ∧
      (MantleRoomHit E TraceSettings s pc.PlayerMovementInput).bStartPenetrating = false := by
  cases hAllow : s.bAllowMantle with
  | false => simp [MantleCheck, hAllow] at hOk
  | true =>
  cases hPC : s.PlayerController with
  | none => simp [MantleCheck, GetPlayerMovementInput, hAllow, hPC] at hOk
  | some pc =>
  cases hWorld : s.bWorldValid with
  | false => simp [MantleCheck, GetPlayerMovementInput, hAllow, hPC, hWorld] at hOk
  | true =>
  cases hFwd : (MantleForwardHit E TraceSettings s pc.PlayerMovementInput).IsValidBlockingHit with
  | false =>
    simp only [MantleForwardHit] at hFwd
    simp [MantleCheck, GetPlayerMovementInput, hAllow, hPC, hWorld, hFwd] at hOk
  | true =>
  cases hWall : E.IsWalkable (MantleForwardHit E TraceSettings s pc.PlayerMovementInput) with
  | true =>
    simp only [MantleForwardHit] at hFwd hWall
    simp [MantleCheck, GetPlayerMovementInput, hAllow, hPC, hWorld, hFwd, hWall] at hOk
  | false =>
  cases hDown : E.IsWalkable (MantleDownwardHit E TraceSettings s pc.PlayerMovementInput) with
  | false =>
    simp only [MantleDownwardHit, MantleForwardHit] at hFwd hWall hDown
    simp [MantleCheck, GetPlayerMovementInput, hAllow, hPC, hWorld, hFwd, hWall, hDown] at hOk
  | true =>
  cases hR1 : (MantleRoomHit E TraceSettings s pc.PlayerMovementInput).bBlockingHit with
  | true =>
    simp only [MantleRoomHit, MantleCapsuleLocation, MantleDownwardHit, MantleForwardHit]
      at hFwd hWall hDown hR1
    simp only [MantleCheck, GetPlayerMovementInput, CapsuleHasRoomCheck,
      Exec.bind_eq, Exec.pure_eq, Exec.andThen_apply, Exec.this_apply, Exec.ret_apply,
      Exec.ite_apply, Exec.check_apply, hAllow, hPC, hWorld, Option.isSome_some,
      Exec.deref_some, if_true, Bool.not_true, Bool.false_eq_true, if_false, hFwd, hWall, hDown,
      hR1, Bool.true_or, Bool.or_self, Bool.not_false] at hOk
    simp at hOk
  | false =>
  cases hR2 : (MantleRoomHit E TraceSettings s pc.PlayerMovementInput).bStartPenetrating with
  | true =>
    simp only [MantleRoomHit, MantleCapsuleLocation, MantleDownwardHit, MantleForwardHit]
      at hFwd hWall hDown hR1 hR2
    simp only [MantleCheck, GetPlayerMovementInput, CapsuleHasRoomCheck,
      Exec.bind_eq, Exec.pure_eq, Exec.andThen_apply, Exec.this_apply, Exec.ret_apply,
      Exec.ite_apply, Exec.check_apply, hAllow, hPC, hWorld, Option.isSome_some,
      Exec.deref_some, if_true, Bool.not_true, Bool.false_eq_true, if_false, hFwd, hWall, hDown,
      hR1, hR2, Bool.or_true, Bool.true_or, Bool.or_self, Bool.not_false] at hOk
    simp at hOk
  | false =>
    refine ⟨pc, ?_, ?_, ?_, ?_, ?_, ?_, ?_, ?_⟩ <;> first | rfl | assumption

/-- C17: when `MantleCheck` returns true, it has called `MantleStart` with the mantle height h
it computed, the Z difference (in single precision, so within half a unit in the last place of
the exact difference) between the capsule location standing on the ledge and the actor
location, that capsule location being at the height Zi + (H + 2) computed in single precision
from the impact height Zi of the downward trace and the capsule half height H; and with the
mantle type FallingCatch when the movement state (at the call of `MantleCheck`) is InAir,
whatever h is, and otherwise HighMantle when h > 125 and LowMantle when h <= 125. -/
theorem C17_MantleCheck_mantle_type (fuel : Nat) (E : Engine)
    (TraceSettings : FBMMantleTraceSettings) (s : ABMBaseCharacter)
    (hOk : (MantleCheck (fuel + 2) E TraceSettings s).value = some true) :
    ∃ (pc : ABMPlayerController) (h : ℚ) (MantleLedgeWS : FBMComponentAndTransform)
        (MantleType : EBMMantleType) (rest : List Event),
      s.PlayerController = some pc ∧
      (MantleCheck (fuel + 2) E TraceSettings s).state.Log =
        s.Log ++ Event.MantleStart h MantleLedgeWS MantleType :: rest ∧
      h = Float32.Sub (MantleCapsuleLocation E TraceSettings s pc.PlayerMovementInput).Z
        s.ActorLocation.Z ∧
      (MantleCapsuleLocation E TraceSettings s pc.PlayerMovementInput).Z =
        Float32.Add (MantleDownwardHit E TraceSettings s pc.PlayerMovementInput).ImpactPoint.Z
          (Float32.Add s.Capsule.ScaledCapsuleHalfHeight 2) ∧
      |h - ((MantleCapsuleLocation E TraceSettings s pc.PlayerMovementInput).Z -
          s.ActorLocation.Z)| ≤
        Float32.Ulp ((MantleCapsuleLocation E TraceSettings s pc.PlayerMovementInput).Z -
          s.ActorLocation.Z) / 2 ∧
      (s.MovementState = .InAir → MantleType = .FallingCatch) ∧
      (s.MovementState ≠ .InAir → h > 125 → MantleType = .HighMantle) ∧
      (s.MovementState ≠ .InAir → h ≤ 125 → MantleType = .LowMantle) := by
  obtain ⟨pc, hAllow, hPC, hWorld, hFwd, hWall, hDown, hR1, hR2⟩ :=
    MantleCheck_true_guards (fuel + 2) E TraceSettings s hOk
  have e := MantleCheck_starts (fuel + 2) E TraceSettings s pc hAllow hPC hWorld hFwd hWall hDown
    ⟨hR1, hR2⟩
  obtain ⟨rest, hrest⟩ := MantleStart_log fuel E
    (MantleHeightOf E TraceSettings s pc.PlayerMovementInput)
    (MantleLedgeOf E TraceSettings s pc.PlayerMovementInput)
    (MantleTypeOf s (MantleHeightOf E TraceSettings s pc.PlayerMovementInput)) s
  refine ⟨pc, MantleHeightOf E TraceSettings s pc.PlayerMovementInput,
    MantleLedgeOf E TraceSettings s pc.PlayerMovementInput,
    MantleTypeOf s (MantleHeightOf E TraceSettings s pc.PlayerMovementInput), rest, hPC, ?_, rfl,
    rfl, Float32.abs_Round_sub_le _, ?_, ?_, ?_⟩
  · rw [e, ← hrest]
    simp only [Exec.bind_eq, Exec.pure_eq, Exec.andThen_apply]
    cases MantleStart (fuel + 2) E (MantleHeightOf E TraceSettings s pc.PlayerMovementInput)
      (MantleLedgeOf E TraceSettings s pc.PlayerMovementInput)
      (MantleTypeOf s (MantleHeightOf E TraceSettings s pc.PlayerMovementInput)) s <;> rfl
  · intro hAir
    simp [MantleTypeOf, hAir]
  · intro hAir hH
    simp [MantleTypeOf, hAir, hH]
  · intro hAir hH
    simp [MantleTypeOf, hAir, not_lt.mpr hH]

/-- The grounded character in front of the wall with the ledge: `MantleCheck` returns true. -/
theorem MantleCheck_at_the_ledge :
    (MantleCheck (0 + 2) Example.World Example.TraceSettings Example.Character).value =
      some true := by
  have e := MantleCheck_starts (0 + 2) Example.World Example.TraceSettings Example.Character
    ⟨⟨1, 0, 0⟩⟩ rfl rfl rfl
    (by simp [MantleForwardHit, Example.World, Example.WallHit, FHitResult.IsValidBlockingHit])
    (by norm_num [MantleForwardHit, Example.World, Example.WallHit,
      FHitResult.IsValidBlockingHit])
    (by norm_num [MantleDownwardHit, Example.World, Example.LedgeHit,
      FHitResult.IsValidBlockingHit])
    (by simp [MantleRoomHit, Example.World, Example.NoHit])
  have hrun := MantleStart_run 0 Example.World
    (MantleHeightOf Example.World Example.TraceSettings Example.Character ⟨1, 0, 0⟩)
    (MantleLedgeOf Example.World Example.TraceSettings Example.Character ⟨1, 0, 0⟩)
    (MantleTypeOf Example.Character
      (MantleHeightOf Example.World Example.TraceSettings Example.Character ⟨1, 0, 0⟩))
    Example.Character 7 3
    (by simp [MantleLedgeOf, MantleDownwardHit, Example.World, Example.LedgeHit])
    (by simp [Example.World, Example.MantleAsset])
    (Or.inr rfl)
  rw [e]
  simp only [Exec.bind_eq, Exec.pure_eq, Exec.andThen_apply]
  revert hrun
  cases MantleStart (0 + 2) Example.World
    (MantleHeightOf Example.World Example.TraceSettings Example.Character ⟨1, 0, 0⟩)
    (MantleLedgeOf Example.World Example.TraceSettings Example.Character ⟨1, 0, 0⟩)
    (MantleTypeOf Example.Character
      (MantleHeightOf Example.World Example.TraceSettings Example.Character ⟨1, 0, 0⟩))
    Example.Character with
  | ok a s1 => intro _; rfl
  | halt f s1 => intro hrun; simp at hrun

/-- The grounded character in front of the wall with the ledge at the height 125 + 2^-17:
`MantleCheck` returns true. -/
theorem MantleCheck_at_the_ledge_125 :
    (MantleCheck (0 + 2) Example.WorldLedge125 Example.TraceSettings Example.Character).value =
      some true := by
  have e := MantleCheck_starts (0 + 2) Example.WorldLedge125 Example.TraceSettings
    Example.Character ⟨⟨1, 0, 0⟩⟩ rfl rfl rfl
    (by simp [MantleForwardHit, Example.WorldLedge125, Example.World, Example.WallHit,
      FHitResult.IsValidBlockingHit])
    (by norm_num [MantleForwardHit, Example.WorldLedge125, Example.World, Example.WallHit,
      FHitResult.IsValidBlockingHit])
    (by norm_num [MantleDownwardHit, Example.WorldLedge125, Example.World, Example.LedgeHit125,
      FHitResult.IsValidBlockingHit])
    (by simp [MantleRoomHit, Example.WorldLedge125, Example.World, Example.NoHit])
  have hrun := MantleStart_run 0 Example.WorldLedge125
    (MantleHeightOf Example.WorldLedge125 Example.TraceSettings Example.Character ⟨1, 0, 0⟩)
    (MantleLedgeOf Example.WorldLedge125 Example.TraceSettings Example.Character ⟨1, 0, 0⟩)
    (MantleTypeOf Example.Character
      (MantleHeightOf Example.WorldLedge125 Example.TraceSettings Example.Character ⟨1, 0, 0⟩))
    Example.Character 7 3
    (by simp [MantleLedgeOf, MantleDownwardHit, Example.WorldLedge125, Example.LedgeHit125])
    (by simp [Example.WorldLedge125, Example.World, Example.MantleAsset])
    (Or.inr rfl)
  rw [e]
  simp only [Exec.bind_eq, Exec.pure_eq, Exec.andThen_apply]
  revert hrun
  cases MantleStart (0 + 2) Example.WorldLedge125
    (MantleHeightOf Example.WorldLedge125 Example.TraceSettings Example.Character ⟨1, 0, 0⟩)
    (MantleLedgeOf Example.WorldLedge125 Example.TraceSettings Example.Character ⟨1, 0, 0⟩)
    (MantleTypeOf Example.Character
      (MantleHeightOf Example.WorldLedge125 Example.TraceSettings Example.Character ⟨1, 0, 0⟩))
    Example.Character with
  | ok a s1 => intro _; rfl
  | halt f s1 => intro hrun; simp at hrun

/-- C17 at concrete inputs: the grounded character in front of the wall with the ledge; the
mantle height is 192 - 92 = 100 and the type is LowMantle.  With the impact point of the ledge
at 125 + 2^-17 the capsule location is computed as 217 (the exact sum 217 + 2^-17 is not a
single-precision number), the mantle height is 125 and the type is LowMantle. -/
theorem C17_witness :
    (∃ (MantleLedgeWS : FBMComponentAndTransform) (rest : List Event),
      (MantleCheck 2 Example.World Example.TraceSettings Example.Character).state.Log =
        Event.MantleStart 100 MantleLedgeWS .LowMantle :: rest) ∧
    (∃ (MantleLedgeWS : FBMComponentAndTransform) (rest : List Event),
      (MantleCheck 2 Example.WorldLedge125 Example.TraceSettings Example.Character).state.Log =
        Event.MantleStart 125 MantleLedgeWS .LowMantle :: rest) := by
  constructor
  swap
  · have hOk := MantleCheck_at_the_ledge_125
    obtain ⟨pc, h, ws, ty, rest, hPC, hLog, hH, _, _, _, _, hLow⟩ :=
      C17_MantleCheck_mantle_type 0 Example.WorldLedge125 Example.TraceSettings Example.Character
        hOk
    have hpc : pc = ⟨⟨1, 0, 0⟩⟩ := (Option.some.inj hPC).symm
    subst hpc
    have a1 : Float32.Add 90 2 = 92 := by
      have h := Float32.Round_natCast 92 (by norm_num)
      simp only [Float32.Add]
      norm_num at h ⊢
      exact h
    have a2 : Float32.Add (16384001 / 131072) 92 = 217 := by
      unfold Float32.Add
      rw [Float32.Round_eq_tie _ 7 14221312 (by norm_num) (by norm_num) (by norm_num)
        (by norm_num) (by norm_num)]
      norm_num
    have a3 : Float32.Sub 217 92 = 125 := by
      have h := Float32.Round_natCast 125 (by norm_num)
      simp only [Float32.Sub]
      norm_num at h ⊢
      exact h
    have h10 : h = 125 := by
      rw [hH]
      simp only [MantleCapsuleLocation, MantleDownwardHit, GetCapsuleLocationFromBase,
        Example.WorldLedge125, Example.LedgeHit125, Example.Character, a1, a2, a3]
    subst h10
    have hty := hLow (by decide) (by norm_num)
    subst hty
    exact ⟨ws, rest, hLog⟩
  have hOk : (MantleCheck (0 + 2) Example.World Example.TraceSettings
      Example.Character).value = some true := MantleCheck_at_the_ledge
  obtain ⟨pc, h, ws, ty, rest, hPC, hLog, hH, _, _, _, _, hLow⟩ :=
    C17_MantleCheck_mantle_type 0 Example.World Example.TraceSettings Example.Character hOk
  have hpc : pc = ⟨⟨1, 0, 0⟩⟩ := (Option.some.inj hPC).symm
  subst hpc
  have a1 : Float32.Add 90 2 = 92 := by
    have h := Float32.Round_natCast 92 (by norm_num)
    simp only [Float32.Add]
    norm_num at h ⊢
    exact h
  have a2 : Float32.Add 100 92 = 192 := by
    have h := Float32.Round_natCast 192 (by norm_num)
    simp only [Float32.Add]
    norm_num at h ⊢
    exact h
  have a3 : Float32.Sub 192 92 = 100 := by
    have h := Float32.Round_natCast 100 (by norm_num)
    simp only [Float32.Sub]
    norm_num at h ⊢
    exact h
  have h10 : h = 100 := by
    rw [hH]
    simp only [MantleCapsuleLocation, MantleDownwardHit, GetCapsuleLocationFromBase,
      Example.World, Example.LedgeHit, Example.Character, a1, a2, a3]
  subst h10
  have hty := hLow (by decide) (by norm_num)
  subst hty
  exact ⟨ws, rest, hLog⟩

/-! ## C18 -/

/-- C18, as the code computes it: for every mantle asset (with a position/correction curve) and
every mantle height, `MantleStart` (given a ledge component) stores as `StartingPosition` what
the engine's `GetMappedRangeValueClamped` gives for the mantle height, the input range
[LowHeight, HighHeight] and the output range [LowStartPosition, HighStartPosition], and as
`PlayRate` what it gives for the output range [LowPlayRate, HighPlayRate]; where that function
is the clamped linear map over exact arithmetic and LowHeight < HighHeight, these are the lower
bound of the output range below LowHeight, the upper bound above HighHeight and the linear
interpolation in between.  It stores as the timeline length the single-precision difference
MaxTime - StartingPosition (within half a unit in the last place of the exact difference),
MaxTime being the end of the time range of the curve; and in every later state with these
mantle parameters, a ledge component and the playback position p, `MantleUpdate` returns and
reads the curve exactly once, at the single-precision sum StartingPosition + p, on which alone
its run depends; for 0 <= p <= timeline length that time is at most MaxTime plus half a unit in
the last place for each of the two operations.  The difference and the sum are taken not to
overflow. -/
theorem C18_MantleStart_timing (fuel : Nat) (E : Engine) (MantleHeight : ℚ)
    (MantleLedgeWS : FBMComponentAndTransform) (MantleType : EBMMantleType)
    (s : ABMBaseCharacter) (c k : Nat)
    (hC : MantleLedgeWS.Component = some c)
    (hK : (E.GetMantleAsset MantleType).PositionCorrectionCurve = some k) :
    -- the starting position
    (MantleStart (fuel + 2) E MantleHeight MantleLedgeWS MantleType
        s).state.MantleParams.StartingPosition =
      E.GetMappedRangeValueClamped
        ((E.GetMantleAsset MantleType).LowHeight, (E.GetMantleAsset MantleType).HighHeight)
        ((E.GetMantleAsset MantleType).LowStartPosition,
          (E.GetMantleAsset MantleType).HighStartPosition) (.Finite MantleHeight) ∧
    ((E.GetMantleAsset MantleType).LowHeight < (E.GetMantleAsset MantleType).HighHeight →
      E.GetMappedRangeValueClamped
          ((E.GetMantleAsset MantleType).LowHeight, (E.GetMantleAsset MantleType).HighHeight)
          ((E.GetMantleAsset MantleType).LowStartPosition,
            (E.GetMantleAsset MantleType).HighStartPosition) (.Finite MantleHeight) =
        FMath.GetMappedRangeValueClamped
          ((E.GetMantleAsset MantleType).LowHeight, (E.GetMantleAsset MantleType).HighHeight)
          ((E.GetMantleAsset MantleType).LowStartPosition,
            (E.GetMantleAsset MantleType).HighStartPosition) MantleHeight →
      (MantleHeight ≤ (E.GetMantleAsset MantleType).LowHeight →
        (MantleStart (fuel + 2) E MantleHeight MantleLedgeWS MantleType
          s).state.MantleParams.StartingPosition =
          (E.GetMantleAsset MantleType).LowStartPosition) ∧
      ((E.GetMantleAsset MantleType).HighHeight ≤ MantleHeight →
        (MantleStart (fuel + 2) E MantleHeight MantleLedgeWS MantleType
          s).state.MantleParams.StartingPosition =
          (E.GetMantleAsset MantleType).HighStartPosition) ∧
      ((E.GetMantleAsset MantleType).LowHeight ≤ MantleHeight →
        MantleHeight ≤ (E.GetMantleAsset MantleType).HighHeight →
        (MantleStart (fuel + 2) E MantleHeight MantleLedgeWS MantleType
          s).state.MantleParams.StartingPosition =
          (E.GetMantleAsset MantleType).LowStartPosition +
            (MantleHeight - (E.GetMantleAsset MantleType).LowHeight) /
              ((E.GetMantleAsset MantleType).HighHeight -
                (E.GetMantleAsset MantleType).LowHeight) *
              ((E.GetMantleAsset MantleType).HighStartPosition -
                (E.GetMantleAsset MantleType).LowStartPosition))) ∧
    -- the play rate
    (MantleStart (fuel + 2) E MantleHeight MantleLedgeWS MantleType
        s).state.MantleParams.PlayRate =
      E.GetMappedRangeValueClamped
        ((E.GetMantleAsset MantleType).LowHeight, (E.GetMantleAsset MantleType).HighHeight)
        ((E.GetMantleAsset MantleType).LowPlayRate,
          (E.GetMantleAsset MantleType).HighPlayRate) (.Finite MantleHeight) ∧
    ((E.GetMantleAsset MantleType).LowHeight < (E.GetMantleAsset MantleType).HighHeight →
      E.GetMappedRangeValueClamped
          ((E.GetMantleAsset MantleType).LowHeight, (E.GetMantleAsset MantleType).HighHeight)
          ((E.GetMantleAsset MantleType).LowPlayRate,
            (E.GetMantleAsset MantleType).HighPlayRate) (.Finite MantleHeight) =
        FMath.GetMappedRangeValueClamped
          ((E.GetMantleAsset MantleType).LowHeight, (E.GetMantleAsset MantleType).HighHeight)
          ((E.GetMantleAsset MantleType).LowPlayRate,
            (E.GetMantleAsset MantleType).HighPlayRate) MantleHeight →
      (MantleHeight ≤ (E.GetMantleAsset MantleType).LowHeight →
        (MantleStart (fuel + 2) E MantleHeight MantleLedgeWS MantleType
          s).state.MantleParams.PlayRate = (E.GetMantleAsset MantleType).LowPlayRate) ∧
      ((E.GetMantleAsset MantleType).HighHeight ≤ MantleHeight →
        (MantleStart (fuel + 2) E MantleHeight MantleLedgeWS MantleType
          s).state.MantleParams.PlayRate = (E.GetMantleAsset MantleType).HighPlayRate) ∧
      ((E.GetMantleAsset MantleType).LowHeight ≤ MantleHeight →
        MantleHeight ≤ (E.GetMantleAsset MantleType).HighHeight →
        (MantleStart (fuel + 2) E MantleHeight MantleLedgeWS MantleType
          s).state.MantleParams.PlayRate =
          (E.GetMantleAsset MantleType).LowPlayRate +
            (MantleHeight - (E.GetMantleAsset MantleType).LowHeight) /
              ((E.GetMantleAsset MantleType).HighHeight -
                (E.GetMantleAsset MantleType).LowHeight) *
              ((E.GetMantleAsset MantleType).HighPlayRate -
                (E.GetMantleAsset MantleType).LowPlayRate))) ∧
    -- the timeline length
    (Float32.InRange
        (Float32.Sub (E.GetTimeRange k).2
          (MantleStart (fuel + 2) E MantleHeight MantleLedgeWS MantleType
            s).state.MantleParams.StartingPosition) →
      (MantleStart (fuel + 2) E MantleHeight MantleLedgeWS MantleType
        s).state.MantleTimeline.Length =
        Float32.Sub (E.GetTimeRange k).2
          (MantleStart (fuel + 2) E MantleHeight MantleLedgeWS MantleType
            s).state.MantleParams.StartingPosition ∧
      |(MantleStart (fuel + 2) E MantleHeight MantleLedgeWS MantleType
          s).state.MantleTimeline.Length -
          ((E.GetTimeRange k).2 -
            (MantleStart (fuel + 2) E MantleHeight MantleLedgeWS MantleType
              s).state.MantleParams.StartingPosition)| ≤
        Float32.Ulp ((E.GetTimeRange k).2 -
          (MantleStart (fuel + 2) E MantleHeight MantleLedgeWS MantleType
            s).state.MantleParams.StartingPosition) / 2) ∧
    -- the time at which `MantleUpdate` reads the curve
    (∀ (s2 : ABMBaseCharacter) (p : ℚ) (c2 : Nat),
      s2.MantleParams =
        (MantleStart (fuel + 2) E MantleHeight MantleLedgeWS MantleType s).state.MantleParams →
      s2.MantleLedgeLS.Component = some c2 →
      s2.MantleTimeline.PlaybackPosition = p →
      Float32.InRange (Float32.Add s2.MantleParams.StartingPosition p) →
      (∀ BlendIn : ℚ,
        (MantleUpdate E BlendIn s2).value = some () ∧
        (MantleUpdate E BlendIn s2).state.Log =
          s2.Log ++ [.PositionCorrectionCurve_GetVectorValue k
            (Float32.Add s2.MantleParams.StartingPosition p)]) ∧
      (∀ (BlendIn : ℚ) (G : Nat → ℚ → FVector),
        G k (Float32.Add s2.MantleParams.StartingPosition p) =
          E.GetVectorValue k (Float32.Add s2.MantleParams.StartingPosition p) →
        MantleUpdate { E with GetVectorValue := G } BlendIn s2 = MantleUpdate E BlendIn s2) ∧
      (0 ≤ p →
        p ≤ (MantleStart (fuel + 2) E MantleHeight MantleLedgeWS MantleType
          s).state.MantleTimeline.Length →
        Float32.Add s2.MantleParams.StartingPosition p ≤
          (E.GetTimeRange k).2 +
            Float32.Ulp ((E.GetTimeRange k).2 - s2.MantleParams.StartingPosition) / 2 +
            Float32.Ulp (s2.MantleParams.StartingPosition + p) / 2)) := by
  obtain ⟨hP, _, _, hL, _⟩ := MantleStart_stores fuel E MantleHeight MantleLedgeWS MantleType s c k
    hC hK
  rw [hP, hL]
  refine ⟨rfl, ?_, rfl, ?_, fun _ => ⟨rfl, Float32.abs_Round_sub_le _⟩, ?_⟩
  · intro hLH hE
    rw [hE]
    exact ⟨fun h => FMath.GetMappedRangeValueClamped_below _ _ _ _ _ hLH h,
      fun h => FMath.GetMappedRangeValueClamped_above _ _ _ _ _ hLH h,
      fun h1 h2 => FMath.GetMappedRangeValueClamped_inside _ _ _ _ _ hLH h1 h2⟩
  · intro hLH hE
    rw [hE]
    exact ⟨fun h => FMath.GetMappedRangeValueClamped_below _ _ _ _ _ hLH h,
      fun h => FMath.GetMappedRangeValueClamped_above _ _ _ _ _ hLH h,
      fun h1 h2 => FMath.GetMappedRangeValueClamped_inside _ _ _ _ _ hLH h1 h2⟩
  · intro s2 p c2 h2 hC2 hp _
    have hSP : s2.MantleParams.StartingPosition =
        E.GetMappedRangeValueClamped
          ((E.GetMantleAsset MantleType).LowHeight, (E.GetMantleAsset MantleType).HighHeight)
          ((E.GetMantleAsset MantleType).LowStartPosition,
            (E.GetMantleAsset MantleType).HighStartPosition) (.Finite MantleHeight) := by
      rw [h2]
    have hCurve : s2.MantleParams.PositionCorrectionCurve = some k := by
      rw [h2]
    refine ⟨?_, ?_, ?_⟩
    · intro BlendIn
      have h := MantleUpdate_reads E BlendIn s2 c2 k hC2 hCurve
      rw [hp] at h
      exact h
    · intro BlendIn G hG
      exact MantleUpdate_samples_once E BlendIn s2 k hCurve G (by rw [hp]; exact hG)
    · intro _ hle
      rw [← hSP] at hle
      have e1 := Float32.abs_Round_sub_le ((E.GetTimeRange k).2 - s2.MantleParams.StartingPosition)
      have e2 := Float32.abs_Round_sub_le (s2.MantleParams.StartingPosition + p)
      have o1 : Float32.Sub (E.GetTimeRange k).2 s2.MantleParams.StartingPosition =
          Float32.Round ((E.GetTimeRange k).2 - s2.MantleParams.StartingPosition) := rfl
      have o2 : Float32.Add s2.MantleParams.StartingPosition p =
          Float32.Round (s2.MantleParams.StartingPosition + p) := rfl
      rw [← o1] at e1
      rw [← o2] at e2
      rw [abs_le] at e1 e2
      linarith [e1.1, e1.2, e2.1, e2.2]

/-- The single-precision number 3/4. -/
theorem Float32.Round_three_quarters : Float32.Round (3 / 4) = 3 / 4 :=
  Float32.Round_eq_self (3 / 4) (-1) 12582912 (by norm_num) (by norm_num) (by norm_num)
    (by norm_num)

/-- C18 at a concrete input: a mantle of height 75 with the asset that maps heights 50..100 onto
starting positions 1/2..0 and whose curve ends at 1, in the world that maps ranges by the
clamped linear map: the starting position is 1/4 and the timeline length 3/4. -/
theorem C18_witness :
    (MantleStart 2 Example.World 75 Example.Ledge .LowMantle
      Example.Character).state.MantleParams.StartingPosition = 1 / 4 ∧
    (MantleStart 2 Example.World 75 Example.Ledge .LowMantle
      Example.Character).state.MantleTimeline.Length = 3 / 4 := by
  have h := C18_MantleStart_timing 0 Example.World 75 Example.Ledge .LowMantle Example.Character
    7 3 rfl rfl
  simp only [Nat.zero_add] at h
  have h1 : (MantleStart 2 Example.World 75 Example.Ledge .LowMantle
      Example.Character).state.MantleParams.StartingPosition = 1 / 4 := by
    rw [(h.2.1 (by norm_num [Example.World, Example.MantleAsset]) rfl).2.2
      (by norm_num [Example.World, Example.MantleAsset])
      (by norm_num [Example.World, Example.MantleAsset])]
    norm_num [Example.World, Example.MantleAsset]
  have h3 : Float32.Sub (Example.World.GetTimeRange 3).2 (1 / 4) = 3 / 4 := by
    have e : (Example.World.GetTimeRange 3).2 - 1 / 4 = (3 / 4 : ℚ) := by
      norm_num [Example.World]
    simp only [Float32.Sub, e]
    exact Float32.Round_three_quarters
  refine ⟨h1, ?_⟩
  rw [h1, h3] at h
  exact (h.2.2.2.2.1 (by norm_num [Float32.InRange, Float32.MaxValue])).1

/-- The starting position, the timeline length and the last time read in the world whose curves
end at 1.1, for a mantle of height 40. -/
theorem MantleStart_at_long_curve :
    (MantleStart 2 Example.WorldLongCurve 40 Example.Ledge .LowMantle
      Example.Character).state.MantleParams.StartingPosition = 162739 / 16777216 ∧
    (MantleStart 2 Example.WorldLongCurve 40 Example.Ledge .LowMantle
      Example.Character).state.MantleParams.PositionCorrectionCurve = some 3 ∧
    (MantleStart 2 Example.WorldLongCurve 40 Example.Ledge .LowMantle
      Example.Character).state.MantleLedgeLS.Component = some 7 ∧
    (MantleStart 2 Example.WorldLongCurve 40 Example.Ledge .LowMantle
      Example.Character).state.MantleTimeline.Length = 2286525 / 2097152 ∧
    Float32.Add (162739 / 16777216) (2286525 / 2097152) = 4613735 / 4194304 := by
  obtain ⟨hP, hLS, _, hL, _⟩ := MantleStart_stores 0 Example.WorldLongCurve 40 Example.Ledge
    .LowMantle Example.Character 7 3 rfl rfl
  simp only [Nat.zero_add] at hP hL hLS
  have hSP : Example.WorldLongCurve.GetMappedRangeValueClamped
      ((Example.WorldLongCurve.GetMantleAsset .LowMantle).LowHeight,
        (Example.WorldLongCurve.GetMantleAsset .LowMantle).HighHeight)
      ((Example.WorldLongCurve.GetMantleAsset .LowMantle).LowStartPosition,
        (Example.WorldLongCurve.GetMantleAsset .LowMantle).HighStartPosition) (.Finite 40) =
      162739 / 16777216 := by
    have e : Example.WorldLongCurve.GetMappedRangeValueClamped
      ((Example.WorldLongCurve.GetMantleAsset .LowMantle).LowHeight,
        (Example.WorldLongCurve.GetMantleAsset .LowMantle).HighHeight)
      ((Example.WorldLongCurve.GetMantleAsset .LowMantle).LowStartPosition,
        (Example.WorldLongCurve.GetMantleAsset .LowMantle).HighStartPosition) (.Finite 40) =
      FMath.GetMappedRangeValueClamped
      ((Example.WorldLongCurve.GetMantleAsset .LowMantle).LowHeight,
        (Example.WorldLongCurve.GetMantleAsset .LowMantle).HighHeight)
      ((Example.WorldLongCurve.GetMantleAsset .LowMantle).LowStartPosition,
        (Example.WorldLongCurve.GetMantleAsset .LowMantle).HighStartPosition) 40 := rfl
    rw [e, FMath.GetMappedRangeValueClamped_below _ _ _ _ _
      (by norm_num [Example.WorldLongCurve, Example.MantleAssetLate, Example.MantleAsset])
      (by norm_num [Example.WorldLongCurve, Example.MantleAssetLate, Example.MantleAsset])]
    rfl
  have a1 : Float32.Sub (9227469 / 8388608) (162739 / 16777216) = 2286525 / 2097152 := by
    unfold Float32.Sub
    rw [Float32.Round_eq_tie _ 0 9146100 (by norm_num) (by norm_num) (by norm_num)
      (by norm_num) (by norm_num)]
    norm_num
  have a2 : Float32.Add (162739 / 16777216) (2286525 / 2097152) = 4613735 / 4194304 := by
    unfold Float32.Add
    rw [Float32.Round_eq_tie _ 0 9227470 (by norm_num) (by norm_num) (by norm_num)
      (by norm_num) (by norm_num)]
    norm_num
  refine ⟨?_, ?_, ?_, ?_, a2⟩
  · rw [hP]
    exact hSP
  · rw [hP]
  · rw [hLS]
  · rw [hL, hSP]
    exact a1

/-- C18 as stated, with the timeline length MaxTime - StartingPosition and the bound
StartingPosition + p <= MaxTime, fails.  With a curve that ends at MaxTime = 1.1 and the starting
position 0.0097 (single-precision numbers), `MantleStart` sets the timeline length to
2286525/2097152, the single-precision difference, which is above MaxTime - StartingPosition; at
the playback position p equal to that length `MantleUpdate` reads the curve at
4613735/4194304 = 1.10000014..., after MaxTime = 9227469/8388608 = 1.10000002.... -/
theorem C18_counterexample_read_after_MaxTime :
    Example.MantleAtTimelineEnd.MantleParams =
      (MantleStart 2 Example.WorldLongCurve 40 Example.Ledge .LowMantle
        Example.Character).state.MantleParams ∧
    0 ≤ Example.MantleAtTimelineEnd.MantleTimeline.PlaybackPosition ∧
    Example.MantleAtTimelineEnd.MantleTimeline.PlaybackPosition ≤
      (MantleStart 2 Example.WorldLongCurve 40 Example.Ledge .LowMantle
        Example.Character).state.MantleTimeline.Length ∧
    (MantleStart 2 Example.WorldLongCurve 40 Example.Ledge .LowMantle
        Example.Character).state.MantleTimeline.Length ≠
      (Example.WorldLongCurve.GetTimeRange 3).2 -
        (MantleStart 2 Example.WorldLongCurve 40 Example.Ledge .LowMantle
          Example.Character).state.MantleParams.StartingPosition ∧
    (MantleUpdate Example.WorldLongCurve 1 Example.MantleAtTimelineEnd).state.Log =
      Example.MantleAtTimelineEnd.Log ++
        [.PositionCorrectionCurve_GetVectorValue 3 (4613735 / 4194304)] ∧
    (Example.WorldLongCurve.GetTimeRange 3).2 < 4613735 / 4194304 ∧
    ¬ (Example.MantleAtTimelineEnd.MantleParams.StartingPosition +
        Example.MantleAtTimelineEnd.MantleTimeline.PlaybackPosition ≤
      (Example.WorldLongCurve.GetTimeRange 3).2) := by
  obtain ⟨hP, hK, hC, hL, hA⟩ := MantleStart_at_long_curve
  have hp : Example.MantleAtTimelineEnd.MantleTimeline.PlaybackPosition =
      2286525 / 2097152 := hL
  have hSP : Example.MantleAtTimelineEnd.MantleParams.StartingPosition =
      162739 / 16777216 := hP
  refine ⟨rfl, ?_, ?_, ?_, ?_, ?_, ?_⟩
  · rw [hp]
    norm_num
  · rw [hp, hL]
  · rw [hL, hP]
    norm_num [Example.WorldLongCurve]
  · have h := (MantleUpdate_reads Example.WorldLongCurve 1 Example.MantleAtTimelineEnd 7 3 hC
      hK).2
    rw [hSP, hp, hA] at h
    exact h
  · norm_num [Example.WorldLongCurve]
  · rw [hSP, hp]
    norm_num [Example.WorldLongCurve]

end ALSV4
